import Mathlib

/-!
# RGB underglow lighting engine (`app/src/rgb_underglow.c`)

A shallow embedding of the lighting state machine and the frame-composition
pipeline of `rgb_underglow.c`, followed by the theorems that settle the
specification's claims against it.

Modelling conventions

* `uint8_t` / `uint16_t` values are `Nat`; every store into such a field is
  written with an explicit `% 256` / `% 65536`.  C `int` values that may be
  negative are `Int`.
* A pixel array of `STRIP_NUM_PIXELS` entries is a function `Fin N → led_rgb`;
  a store `buf[i] = c` is `px_set buf i c`.  A store whose index is not below
  `N` is undefined behaviour in C; the model drops it.
* Readings of external collaborators (battery gauge, keymap, power rail,
  BLE/USB stack, kernel work queue) are fields of `Env`, one snapshot per
  call of a modelled function.
* Calls into collaborators that act on the outside world are recorded, in
  program order, as a list of `Effect`s.
* Devicetree properties and Kconfig values are fields of `Config`.
* The `float` arithmetic of `hsb_to_rgb` is taken exactly, over `ℚ`.
-/

namespace RgbUnderglow

/-! ## Data model -/

/-- One pixel, `struct led_rgb` of Zephyr: three 8-bit channels. -/
structure led_rgb where
  r : Nat
  g : Nat
  b : Nat
deriving DecidableEq, Repr

/-- Colour in hue / saturation / brightness form, `struct zmk_led_hsb`. -/
structure zmk_led_hsb where
  h : Nat
  s : Nat
  b : Nat
deriving DecidableEq, Repr

/-- The engine state, `struct rgb_underglow_state`. -/
structure rgb_underglow_state where
  color : zmk_led_hsb
  animation_speed : Nat
  current_effect : Nat
  animation_step : Nat
  /-- The field `on` of the C struct (`on` is reserved in Lean). -/
  is_on : Bool
  status_active : Bool
  status_animation_step : Nat
deriving DecidableEq, Repr

/-- A pixel array of `N = STRIP_NUM_PIXELS` entries. -/
abbrev PixelBuf (N : Nat) := Fin N → led_rgb

/-- The store `buf[idx] = c`. -/
def px_set {N : Nat} (buf : PixelBuf N) (idx : Nat) (c : led_rgb) : PixelBuf N :=
  fun j => if j.val = idx then c else buf j

/-- A run of stores `buf[i] = c`, performed in list order. -/
def px_write {N : Nat} (buf : PixelBuf N) (ws : List (Nat × led_rgb)) : PixelBuf N :=
  ws.foldl (fun acc w => px_set acc w.1 w.2) buf

/-- The all-black buffer (the result of `memset(buf, 0, ...)`). -/
def px_zero (N : Nat) : PixelBuf N := fun _ => ⟨0, 0, 0⟩

/-- The static data the module owns: state and the two pixel arrays. -/
structure Engine (N : Nat) where
  state : rgb_underglow_state
  pixels : PixelBuf N
  status_pixels : PixelBuf N

/-- The devicetree node `/underglow-indicators`. -/
structure underglow_indicators where
  layer_state : List Nat
  ble_state : List Nat
  bat_lhs : List Nat
  bat_rhs : List Nat
  capslock : Nat
  numlock : Nat
  scrolllock : Nat
  output_fallback : Nat
  usb_state : Nat
deriving DecidableEq, Repr

/-- Build-time configuration read by the code modelled here.
`indicators = none` is the build without an `/underglow-indicators` node
(`UNDERGLOW_INDICATORS_ENABLED == 0`). -/
structure Config where
  /-- Value of `CONFIG_ZMK_RGB_UNDERGLOW_BRT_MAX`. -/
  BRT_MAX : Nat
  indicators : Option underglow_indicators
  SPLIT_BLE_CENTRAL_BATTERY_LEVEL_FETCHING : Bool
  ZMK_BLE_PROFILE_COUNT : Nat
  /-- Value of `CONFIG_ZMK_RGB_UNDERGLOW_BRT_MIN`. -/
  BRT_MIN : Nat
  /-- Whether `CONFIG_SETTINGS` is enabled. -/
  SETTINGS : Bool
  /-- Value of `CONFIG_ZMK_RGB_UNDERGLOW_HUE_STEP`. -/
  HUE_STEP : Nat
  /-- Value of `CONFIG_ZMK_RGB_UNDERGLOW_SAT_STEP`. -/
  SAT_STEP : Nat
  /-- Value of `CONFIG_ZMK_RGB_UNDERGLOW_BRT_STEP`. -/
  BRT_STEP : Nat
deriving DecidableEq, Repr

/-- Selected endpoint transport, `enum zmk_transport`. -/
inductive zmk_transport where
  | USB
  | BLE
deriving DecidableEq, Repr

/-- USB connection state, `enum zmk_usb_conn_state`. -/
inductive zmk_usb_conn_state where
  | NONE
  | POWERED
  | HID
deriving DecidableEq, Repr

/-- One snapshot of what the collaborators answer. -/
structure Env where
  /-- Value of `zmk_battery_state_of_charge()`. -/
  battery : Nat
  /-- Value of `zmk_keymap_layer_active(i)`. -/
  layer_active : Nat → Bool
  /-- Value of `ext_power_get(ext_power)`: positive on, zero off, negative error. -/
  ext_power_get : Int
  /-- Return code of `ext_power_enable`. -/
  ext_power_enable_rc : Int
  /-- Return code of `ext_power_disable`. -/
  ext_power_disable_rc : Int
  /-- Return code of `led_strip_update_rgb`. -/
  led_strip_update_rc : Int
  /-- Return code of `zmk_split_get_peripheral_battery_level(0, &level)`. -/
  peripheral_rc : Int
  /-- Level stored by `zmk_split_get_peripheral_battery_level` on success. -/
  peripheral_level : Nat
  /-- Value of `zmk_hid_indicators_get_current_profile()`. -/
  hid_indicators : Nat
  /-- Transport of `zmk_endpoints_selected()`. -/
  selected_transport : zmk_transport
  /-- Value of `zmk_endpoints_preferred_transport_is_active()`. -/
  preferred_transport_is_active : Bool
  /-- Value of `zmk_ble_active_profile_index()`. -/
  ble_active_profile_index : Int
  /-- Value of `zmk_ble_profile_status(i)`. -/
  ble_profile_status : Nat → Int
  /-- Value of `zmk_usb_get_conn_state()`. -/
  usb_conn_state : zmk_usb_conn_state
  /-- Value of `k_work_is_pending(&underglow_write_work)`. -/
  write_work_pending : Bool
  /-- Return value of `k_work_reschedule(&underglow_save_work, ...)`. -/
  k_work_reschedule_rc : Int

/-- The messages of the `LOG_ERR` calls modelled here. -/
inductive LogErr where
  | strip_update_failed (err : Int)
  | ext_power_examine_failed (c_power : Int)
  | ext_power_enable_failed (rc : Int)
  | ext_power_disable_failed (rc : Int)
  | invalid_peripheral_index
deriving DecidableEq, Repr

/-- Kernel timers of the module. -/
inductive Timer where
  | underglow_tick
  | underglow_status_update_timer
deriving DecidableEq, Repr

/-- Kernel work items of the module. -/
inductive Work where
  | underglow_tick_work
  | underglow_off_work
  | underglow_write_work
  | underglow_save_work
deriving DecidableEq, Repr

/-- A call that acts on a collaborator. -/
inductive Effect (N : Nat) where
  | led_strip_update_rgb (frame : PixelBuf N)
  | ext_power_enable
  | ext_power_disable
  | log_err (msg : LogErr)
  | k_timer_start (t : Timer)
  | k_timer_stop (t : Timer)
  | k_work_submit (w : Work)
  | k_work_reschedule (w : Work)
  | settings_save_one (value : List Nat)
  | settings_read_cb (len : Nat)

/-- Calls made on the power rail. -/
inductive RailCall where
  | enable
  | disable
deriving DecidableEq, Repr

/-- The frames handed to the transport by a run of effects, in order. -/
def frames {N : Nat} : List (Effect N) → List (PixelBuf N)
  | [] => []
  | Effect.led_strip_update_rgb f :: rest => f :: frames rest
  | _ :: rest => frames rest

/-- The power-rail calls made by a run of effects, in order. -/
def rail_calls {N : Nat} : List (Effect N) → List RailCall
  | [] => []
  | Effect.ext_power_enable :: rest => RailCall.enable :: rail_calls rest
  | Effect.ext_power_disable :: rest => RailCall.disable :: rail_calls rest
  | _ :: rest => rail_calls rest

/-- Errno values of Zephyr used by the module. -/
def EINVAL : Int := 22

/-- Errno `ENOTCONN` of Zephyr. -/
def ENOTCONN : Int := 128

/-- Errno `ENODEV` of Zephyr. -/
def ENODEV : Int := 19

/-- Errno `ENOTSUP` of Zephyr. -/
def ENOTSUP : Int := 134

/-- Errno `ENOENT` of Zephyr. -/
def ENOENT : Int := 2

/-- The macro `HUE_MAX`. -/
def HUE_MAX : Nat := 360

/-- The macro `SAT_MAX`. -/
def SAT_MAX : Nat := 100

/-- The macro `BRT_MAX` (the scale of the brightness field, not the
configured ceiling `CONFIG_ZMK_RGB_UNDERGLOW_BRT_MAX`). -/
def BRT_MAX : Nat := 100

/-- The enumerator `UNDERGLOW_EFFECT_NUMBER`: the number of effects. -/
def UNDERGLOW_EFFECT_NUMBER : Nat := 4

/-! ## Indicator colours -/

/-- The macro `HEXRGB(R, G, B)`: each channel scaled by the configured
maximum brightness and stored in eight bits. -/
def HEXRGB (cfg : Config) (R G B : Nat) : led_rgb :=
  { r := (cfg.BRT_MAX * R) / 0xff % 256
    g := (cfg.BRT_MAX * G) / 0xff % 256
    b := (cfg.BRT_MAX * B) / 0xff % 256 }

def red (cfg : Config) : led_rgb := HEXRGB cfg 0xff 0x00 0x00
def orange (cfg : Config) : led_rgb := HEXRGB cfg 0xff 0x88 0x00
def yellow (cfg : Config) : led_rgb := HEXRGB cfg 0xff 0xff 0x00
def green (cfg : Config) : led_rgb := HEXRGB cfg 0x00 0xff 0x00
def nice_blue (cfg : Config) : led_rgb := HEXRGB cfg 0x00 0xbe 0xff
def magenta (cfg : Config) : led_rgb := HEXRGB cfg 0xff 0x00 0xff
def white (cfg : Config) : led_rgb := HEXRGB cfg 0xff 0xff 0xff
def lilac (cfg : Config) : led_rgb := HEXRGB cfg 0x6b 0x1f 0xce
def greenish (cfg : Config) : led_rgb := HEXRGB cfg 0x00 0xff 0x44

/-! ## Custom layer painting -/

/-- The function `valdur_indicate_custom_layers` of the build with
indicators: paints key groups of the first active layer among lower (2),
gaming (1) and numeric (3) onto `pixels`. -/
def valdur_indicate_custom_layers_on {N : Nat} (cfg : Config) (env : Env)
    (pixels : PixelBuf N) : PixelBuf N :=
  let gaming_layer := 1
  let lower_layer := 2
  let numeric_layer := 3
  if env.layer_active lower_layer then
    px_write pixels
      [ (37, yellow cfg),
        (18, yellow cfg), (25, yellow cfg), (19, yellow cfg), (13, yellow cfg),
        (8, yellow cfg), (31, yellow cfg),
        (17, nice_blue cfg), (20, nice_blue cfg), (24, nice_blue cfg), (12, nice_blue cfg),
        (7, nice_blue cfg), (30, nice_blue cfg),
        (14, lilac cfg), (26, lilac cfg), (32, lilac cfg) ]
  else if env.layer_active gaming_layer then
    px_write pixels
      [ (38, red cfg),
        (18, red cfg), (25, red cfg), (19, red cfg), (13, red cfg),
        (5, lilac cfg), (27, lilac cfg), (33, lilac cfg) ]
  else if env.layer_active numeric_layer then
    px_write pixels
      [ (36, greenish cfg),
        (23, greenish cfg), (17, greenish cfg), (11, greenish cfg),
        (24, greenish cfg), (18, greenish cfg), (12, greenish cfg),
        (25, greenish cfg), (19, greenish cfg), (13, greenish cfg),
        (26, greenish cfg),
        (31, yellow cfg), (32, yellow cfg), (27, yellow cfg),
        (12, yellow cfg), (13, yellow cfg), (14, yellow cfg) ]
  else
    pixels

/-- The function `valdur_indicate_custom_layers`: the painting above when
the indicators node exists, the empty stub otherwise. -/
def valdur_indicate_custom_layers {N : Nat} (cfg : Config) (env : Env)
    (pixels : PixelBuf N) : PixelBuf N :=
  match cfg.indicators with
  | none => pixels
  | some _ => valdur_indicate_custom_layers_on cfg env pixels

/-! ## Status overlay generator -/

/-- The function `zmk_led_battery_level`: lights the positions of an
indicator whose threshold `i * 100 / (len - 1)` is at most the charge, in
a colour chosen by tier.  (For `len = 1` the C code divides by zero; the
model follows `Nat` division, giving threshold 0.) -/
def zmk_led_battery_level {N : Nat} (cfg : Config) (status_pixels : PixelBuf N)
    (bat_level : Nat) (addresses : List Nat) : PixelBuf N :=
  let bat_colour :=
    if bat_level > 40 then nice_blue cfg
    else if bat_level > 20 then yellow cfg
    else red cfg
  let addresses_len := addresses.length
  (List.range addresses_len).foldl
    (fun sp i =>
      let min_level := (i * 100) / (addresses_len - 1)
      if bat_level ≥ min_level then px_set sp (addresses.getD i 0) bat_colour else sp)
    status_pixels

/-- The function `zmk_led_fill`: every position of an indicator gets `color`. -/
def zmk_led_fill {N : Nat} (status_pixels : PixelBuf N) (color : led_rgb)
    (addresses : List Nat) : PixelBuf N :=
  (List.range addresses.length).foldl
    (fun sp i => px_set sp (addresses.getD i 0) color)
    status_pixels

/-- Conversion of a C `int` to `int16_t` (two's-complement wrap). -/
def to_int16 (x : Int) : Int := (x + 32768) % 65536 - 32768

/-- The blend envelope at the end of `zmk_led_generate_status`
(the statements from `int16_t blend = 256;` to `return blend;`). -/
def status_blend (status_animation_step : Nat) : Int :=
  let blend : Int :=
    if status_animation_step < 500 / 25 then
      to_int16 (((status_animation_step * 256) / (500 / 25) : Nat) : Int)
    else if status_animation_step > 8000 / 25 then
      to_int16 (256 - ((((status_animation_step - 8000 / 25) * 256) / (2000 / 25) : Nat) : Int))
    else
      256
  let blend := if blend < 0 then 0 else blend
  let blend := if blend > 256 then 256 else blend
  blend

/-- What `zmk_led_generate_status` leaves behind: the overlay buffer, the
returned blend weight, and the errors it logged. -/
structure StatusResult (N : Nat) where
  status_pixels : PixelBuf N
  blend : Int
  effects : List (Effect N)

/-- The function `zmk_led_generate_status` of the build with indicators. -/
def zmk_led_generate_status {N : Nat} (cfg : Config) (im : underglow_indicators)
    (env : Env) (state : rgb_underglow_state) : StatusResult N :=
  let sp : PixelBuf N := px_zero N
  -- BATTERY STATUS
  let sp := zmk_led_battery_level cfg sp env.battery im.bat_lhs
  let peripheral : PixelBuf N × List (Effect N) :=
    if cfg.SPLIT_BLE_CENTRAL_BATTERY_LEVEL_FETCHING then
      let rc := env.peripheral_rc
      if rc = 0 then
        (zmk_led_battery_level cfg sp (env.peripheral_level % 256) im.bat_rhs, [])
      else if rc = -ENOTCONN then
        (zmk_led_fill sp (red cfg) im.bat_rhs, [])
      else if rc = -EINVAL then
        (sp, [Effect.log_err LogErr.invalid_peripheral_index])
      else (sp, [])
    else (sp, [])
  let sp := peripheral.1
  let log := peripheral.2
  -- CAPSLOCK/NUMLOCK/SCROLLOCK STATUS
  let led_flags := env.hid_indicators
  let sp := if led_flags.testBit 1 then px_set sp im.capslock (yellow cfg) else sp
  let sp := if led_flags.testBit 0 then px_set sp im.numlock (yellow cfg) else sp
  let sp := if led_flags.testBit 2 then px_set sp im.scrolllock (yellow cfg) else sp
  -- LAYER STATUS
  let sp := (List.range im.layer_state.length).foldl
    (fun sp i =>
      if env.layer_active i then px_set sp (im.layer_state.getD i 0) (lilac cfg) else sp)
    sp
  let sp := if !env.preferred_transport_is_active then
      px_set sp im.output_fallback (red cfg) else sp
  let active_ble_profile_index := env.ble_active_profile_index
  let sp := (List.range (min cfg.ZMK_BLE_PROFILE_COUNT im.ble_state.length)).foldl
    (fun sp i =>
      let status := env.ble_profile_status i
      let ble_pixel := im.ble_state.getD i 0
      if status = 2 ∧ env.selected_transport = zmk_transport.BLE ∧
          active_ble_profile_index = (i : Int) then
        px_set sp ble_pixel (white cfg)
      else if status = 2 then px_set sp ble_pixel (nice_blue cfg)
      else if status = 1 then px_set sp ble_pixel (red cfg)
      else if status = 0 then px_set sp ble_pixel (lilac cfg)
      else sp)
    sp
  let usb_state := env.usb_conn_state
  let sp :=
    if usb_state = zmk_usb_conn_state.HID ∧ env.selected_transport = zmk_transport.USB then
      px_set sp im.usb_state (white cfg)
    else if usb_state = zmk_usb_conn_state.HID then px_set sp im.usb_state (nice_blue cfg)
    else if usb_state = zmk_usb_conn_state.POWERED then px_set sp im.usb_state (red cfg)
    else if usb_state = zmk_usb_conn_state.NONE then px_set sp im.usb_state (lilac cfg)
    else sp
  { status_pixels := sp
    blend := status_blend state.status_animation_step
    effects := log }

/-- The stub `zmk_led_generate_status` of the build without indicators: it
returns 0 and leaves the overlay buffer alone. -/
def zmk_led_generate_status_stub {N : Nat} (status_pixels : PixelBuf N) : StatusResult N :=
  { status_pixels := status_pixels, blend := 0, effects := [] }

/-! ## Power policy controller -/

/-- The function `zmk_rgb_set_ext_power` (build with
`CONFIG_ZMK_RGB_UNDERGLOW_EXT_POWER`, which `zmk_led_write_pixels` needs to
compile; `ext_power` comes from `DEVICE_DT_GET` and is never `NULL`).
Returns the state it was given next to the calls it made. -/
def zmk_rgb_set_ext_power {N : Nat} (env : Env) (state : rgb_underglow_state) :
    rgb_underglow_state × List (Effect N) :=
  let c_power := env.ext_power_get
  let log : List (Effect N) :=
    if c_power < 0 then [Effect.log_err (LogErr.ext_power_examine_failed c_power)] else []
  let c_power := if c_power < 0 then 0 else c_power
  let desired_state : Bool := state.is_on || state.status_active
  -- force power off, when battery low (<10%)
  let desired_state : Bool :=
    if state.is_on && !state.status_active then
      if env.battery < 10 then false else desired_state
    else desired_state
  if desired_state = true ∧ c_power = 0 then
    let rc := env.ext_power_enable_rc
    (state, log ++ [Effect.ext_power_enable] ++
      (if rc ≠ 0 then [Effect.log_err (LogErr.ext_power_enable_failed rc)] else []))
  else if desired_state = false ∧ c_power ≠ 0 then
    let rc := env.ext_power_disable_rc
    (state, log ++ [Effect.ext_power_disable] ++
      (if rc ≠ 0 then [Effect.log_err (LogErr.ext_power_disable_failed rc)] else []))
  else
    (state, log)

/-! ## Frame compositor -/

/-- The statements of `zmk_led_write_pixels` after the locals `bat0` and
`blend` have been computed: the fast path, the low-battery policy, the
blend of `status_pixels` over `pixels`, the dimming, the transport write
and the power-policy call. -/
def zmk_led_write_pixels_compose {N : Nat} (env : Env) (state : rgb_underglow_state)
    (pixels status_pixels : PixelBuf N) (blend : Int) : Engine N × List (Effect N) :=
  let bat0 := env.battery
  -- fast path: no status indicators, battery level OK
  if blend = 0 ∧ bat0 ≥ 20 then
    ({ state := state, pixels := pixels, status_pixels := status_pixels },
      [Effect.led_strip_update_rgb pixels])
  else
    -- battery below minimum charge
    let pixels : PixelBuf N := if bat0 < 10 then px_zero N else pixels
    let veto : Bool :=
      if bat0 < 10 then
        if state.is_on then
          let c_power := env.ext_power_get
          if c_power ≠ 0 ∧ state.status_active = false then true else false
        else false
      else false
    let state := if veto then { state with is_on := false } else state
    let reset_ext_power := veto
    let led_buffer : PixelBuf N :=
      if blend = 0 then
        fun i => pixels i
      else if blend ≥ 256 then
        fun i => status_pixels i
      else
        let blend_l := (blend % 65536).toNat
        let blend_r := ((256 - blend) % 65536).toNat
        fun i =>
          { r := ((((status_pixels i).r * blend_l) >>> 8) + (((pixels i).r * blend_r) >>> 8)) % 256
            g := ((((status_pixels i).g * blend_l) >>> 8) + (((pixels i).g * blend_r) >>> 8)) % 256
            b := ((((status_pixels i).b * blend_l) >>> 8) + (((pixels i).b * blend_r) >>> 8)) % 256 }
    -- battery below 20%, reduce LED brightness
    let led_buffer : PixelBuf N :=
      if bat0 < 20 then
        fun i =>
          { r := (led_buffer i).r >>> 1
            g := (led_buffer i).g >>> 1
            b := (led_buffer i).b >>> 1 }
      else led_buffer
    let err := env.led_strip_update_rc
    let write : List (Effect N) :=
      Effect.led_strip_update_rgb led_buffer ::
        (if err < 0 then [Effect.log_err (LogErr.strip_update_failed err)] else [])
    let power := if reset_ext_power then zmk_rgb_set_ext_power env state else (state, [])
    ({ state := power.1, pixels := pixels, status_pixels := status_pixels },
      write ++ power.2)

/-- The overlay stage of `zmk_led_write_pixels`: `blend = 0` unless the
status overlay is active, in which case `zmk_led_generate_status` of the
build at hand refreshes `status_pixels` and returns the weight. -/
def status_stage {N : Nat} (cfg : Config) (env : Env) (state : rgb_underglow_state)
    (status_pixels : PixelBuf N) : StatusResult N :=
  if state.status_active then
    match cfg.indicators with
    | none => zmk_led_generate_status_stub status_pixels
    | some im => zmk_led_generate_status cfg im env state
  else
    { status_pixels := status_pixels, blend := 0, effects := [] }

/-- The function `zmk_led_write_pixels`: one compositor pass. -/
def zmk_led_write_pixels {N : Nat} (cfg : Config) (env : Env) (e : Engine N) :
    Engine N × List (Effect N) :=
  let pixels := valdur_indicate_custom_layers cfg env e.pixels
  let st := status_stage cfg env e.state e.status_pixels
  let r := zmk_led_write_pixels_compose env e.state pixels st.status_pixels st.blend
  (r.1, st.effects ++ r.2)

/-! ## Status driver and status pulse -/

/-- The timer callback `zmk_rgb_underglow_status_update`: one tick of the
status driver. -/
def zmk_rgb_underglow_status_update {N : Nat} (env : Env) (e : Engine N) :
    Engine N × List (Effect N) :=
  if e.state.status_active = false then (e, [])
  else
    let state := { e.state with
      status_animation_step := (e.state.status_animation_step + 1) % 65536 }
    let expired : Bool := decide (state.status_animation_step > 10000 / 25)
    let state := if expired then { state with status_active := false } else state
    let stop : List (Effect N) :=
      if expired then [Effect.k_timer_stop Timer.underglow_status_update_timer] else []
    let submit : List (Effect N) :=
      if env.write_work_pending = false then [Effect.k_work_submit Work.underglow_write_work]
      else []
    ({ e with state := state }, stop ++ submit)

/-- The work handler `zmk_led_write_pixels_work`: a compositor pass, then the
power policy when the overlay is not active.  The rail may have been
switched by the pass, so the reading for the second call is `env2`. -/
def zmk_led_write_pixels_work {N : Nat} (cfg : Config) (env env2 : Env) (e : Engine N) :
    Engine N × List (Effect N) :=
  let r := zmk_led_write_pixels cfg env e
  if r.1.state.status_active = false then
    let p : rgb_underglow_state × List (Effect N) := zmk_rgb_set_ext_power env2 r.1.state
    ({ r.1 with state := p.1 }, r.2 ++ p.2)
  else r

/-- The command `zmk_rgb_underglow_status`: the status pulse.  (With the
overlay active the compositor pass makes no rail call, so one snapshot
serves both readings of the rail.) -/
def zmk_rgb_underglow_status {N : Nat} (cfg : Config) (env : Env) (e : Engine N) :
    (Engine N × List (Effect N)) × Int :=
  let state :=
    if e.state.status_active = false then
      { e.state with status_animation_step := 0 }
    else if e.state.status_animation_step > 500 / 25 then
      { e.state with status_animation_step := 500 / 25 }
    else e.state
  let state := { state with status_active := true }
  let r := zmk_led_write_pixels cfg env { e with state := state }
  let p : rgb_underglow_state × List (Effect N) := zmk_rgb_set_ext_power env r.1.state
  (({ r.1 with state := p.1 },
    r.2 ++ p.2 ++ [Effect.k_timer_start Timer.underglow_status_update_timer]), 0)

/-- A run of the status driver: each tick is `zmk_rgb_underglow_status_update`
followed, when `work` says the queued refresh runs before the next tick, by
`zmk_led_write_pixels_work`.  Every tick brings its own snapshots. -/
def status_driver_run {N : Nat} (cfg : Config) :
    List (Env × Env × Bool) → Engine N → Engine N
  | [], e => e
  | (env, env2, work) :: rest, e =>
    let e1 := (zmk_rgb_underglow_status_update env e).1
    let e2 := if work then (zmk_led_write_pixels_work cfg env env2 e1).1 else e1
    status_driver_run cfg rest e2

/-! ## Colour model -/

/-- The function `hsb_scale_min_max`: brightness remapped from [0,100] onto
the configured `[BRT_MIN, BRT_MAX]`, computed in `int` and stored in the
8-bit field. -/
def hsb_scale_min_max (cfg : Config) (hsb : zmk_led_hsb) : zmk_led_hsb :=
  { hsb with
    b := (((cfg.BRT_MIN : Int)
            + Int.tdiv (((cfg.BRT_MAX : Int) - (cfg.BRT_MIN : Int)) * (hsb.b : Int))
                (BRT_MAX : Int)) % 256).toNat }

/-- The function `hsb_scale_zero_max`: brightness remapped from [0,100] onto
`[0, BRT_MAX]`, stored in the 8-bit field. -/
def hsb_scale_zero_max (cfg : Config) (hsb : zmk_led_hsb) : zmk_led_hsb :=
  { hsb with b := (hsb.b * cfg.BRT_MAX / BRT_MAX) % 256 }

/-- Conversion of a `float` to `uint8_t` in a struct initialiser: the
fraction is dropped and the result stored in eight bits.  (A negative value
is undefined behaviour in C; the model gives 0.) -/
def float_to_uint8 (x : ℚ) : Nat := (Int.floor x).toNat % 256

/-- The function `hsb_to_rgb`, the sector algorithm.  The `float` arithmetic
of the C code is taken exactly, over the rationals.  Where a channel value is
a whole number in exact arithmetic the binary32 code can fall just below it
and truncate one lower: for (0, 60, 100) the exact value of `v * (1 - s)` is
102/255 and the model gives (255, 102, 102), while `1 - 0.6f` is slightly
less than 0.4 and the code gives (255, 101, 101).  The two agree at
brightness 0 and at the saturated primaries, the inputs at which statements
below evaluate this function; the other statements only name it. -/
def hsb_to_rgb (hsb : zmk_led_hsb) : led_rgb :=
  let i : Nat := (hsb.h / 60) % 256
  let v : ℚ := (hsb.b : ℚ) / (BRT_MAX : ℚ)
  let s : ℚ := (hsb.s : ℚ) / (SAT_MAX : ℚ)
  let f : ℚ := (hsb.h : ℚ) / (HUE_MAX : ℚ) * 6 - (i : ℚ)
  let p : ℚ := v * (1 - s)
  let q : ℚ := v * (1 - f * s)
  let t : ℚ := v * (1 - (1 - f) * s)
  let rgb : ℚ × ℚ × ℚ :=
    match i % 6 with
    | 0 => (v, t, p)
    | 1 => (q, v, p)
    | 2 => (p, v, t)
    | 3 => (p, q, v)
    | 4 => (t, p, v)
    | _ => (v, p, q)
  { r := float_to_uint8 (rgb.1 * 255)
    g := float_to_uint8 (rgb.2.1 * 255)
    b := float_to_uint8 (rgb.2.2 * 255) }

/-! ## Effect engine -/

/-- The function `zmk_rgb_underglow_effect_solid`. -/
def zmk_rgb_underglow_effect_solid {N : Nat} (cfg : Config) (e : Engine N) : Engine N :=
  { e with pixels := fun _ => hsb_to_rgb (hsb_scale_min_max cfg e.state.color) }

/-- The function `zmk_rgb_underglow_effect_breathe`. -/
def zmk_rgb_underglow_effect_breathe {N : Nat} (cfg : Config) (e : Engine N) : Engine N :=
  let pixels : PixelBuf N := fun _ =>
    let hsb := e.state.color
    let hsb := { hsb with
      b := (Int.natAbs ((e.state.animation_step : Int) - 1200) / 12) % 256 }
    hsb_to_rgb (hsb_scale_zero_max cfg hsb)
  let animation_step := (e.state.animation_step + e.state.animation_speed * 10) % 65536
  let animation_step := if animation_step > 2400 then 0 else animation_step
  { e with
    pixels := pixels
    state := { e.state with animation_step := animation_step } }

/-- The function `zmk_rgb_underglow_effect_spectrum`. -/
def zmk_rgb_underglow_effect_spectrum {N : Nat} (cfg : Config) (e : Engine N) : Engine N :=
  let pixels : PixelBuf N := fun _ =>
    let hsb := e.state.color
    let hsb := { hsb with h := e.state.animation_step }
    hsb_to_rgb (hsb_scale_min_max cfg hsb)
  let animation_step := (e.state.animation_step + e.state.animation_speed) % 65536
  let animation_step := animation_step % HUE_MAX
  { e with
    pixels := pixels
    state := { e.state with animation_step := animation_step } }

/-- The hue `zmk_rgb_underglow_effect_swirl` gives pixel `i` of a strip of
`N` pixels: the expression assigned to `hsb.h`. -/
def swirl_hue (N : Nat) (animation_step : Nat) (i : Nat) : Nat :=
  ((HUE_MAX / N * i + animation_step) % HUE_MAX) % 65536

/-- The function `zmk_rgb_underglow_effect_swirl`. -/
def zmk_rgb_underglow_effect_swirl {N : Nat} (cfg : Config) (e : Engine N) : Engine N :=
  let pixels : PixelBuf N := fun i =>
    let hsb := e.state.color
    let hsb := { hsb with h := swirl_hue N e.state.animation_step i.val }
    hsb_to_rgb (hsb_scale_min_max cfg hsb)
  let animation_step := (e.state.animation_step + e.state.animation_speed * 2) % 65536
  let animation_step := animation_step % HUE_MAX
  { e with
    pixels := pixels
    state := { e.state with animation_step := animation_step } }

/-- The work handler `zmk_rgb_underglow_tick`: the selected effect, then a
compositor pass. -/
def zmk_rgb_underglow_tick {N : Nat} (cfg : Config) (env : Env) (e : Engine N) :
    Engine N × List (Effect N) :=
  let e :=
    match e.state.current_effect with
    | 0 => zmk_rgb_underglow_effect_solid cfg e
    | 1 => zmk_rgb_underglow_effect_breathe cfg e
    | 2 => zmk_rgb_underglow_effect_spectrum cfg e
    | 3 => zmk_rgb_underglow_effect_swirl cfg e
    | _ => e
  zmk_led_write_pixels cfg env e

/-! ## Commands -/

/-- The function `zmk_rgb_underglow_save_state`: the debounced save request.
Returns the result code next to the kernel call it made. -/
def zmk_rgb_underglow_save_state {N : Nat} (cfg : Config) (env : Env) :
    Int × List (Effect N) :=
  if cfg.SETTINGS then
    let ret := env.k_work_reschedule_rc
    (min ret 0, [Effect.k_work_reschedule Work.underglow_save_work])
  else
    (0, [])

/-- The function `zmk_rgb_underglow_select_effect`.  `led_strip` says whether
the static pointer `led_strip` is set (a transport is attached). -/
def zmk_rgb_underglow_select_effect {N : Nat} (cfg : Config) (env : Env) (led_strip : Bool)
    (state : rgb_underglow_state) (effect : Int) :
    (rgb_underglow_state × List (Effect N)) × Int :=
  if led_strip = false then ((state, []), -ENODEV)
  else if effect < 0 ∨ effect ≥ (UNDERGLOW_EFFECT_NUMBER : Int) then ((state, []), -EINVAL)
  else
    let state := { state with current_effect := (effect % 256).toNat }
    let state := { state with animation_step := 0 }
    let r : Int × List (Effect N) := zmk_rgb_underglow_save_state cfg env
    ((state, r.2), r.1)

/-- The function `zmk_rgb_underglow_get_state`: the value stored through
`on_off` (when the call succeeds) and the result code. -/
def zmk_rgb_underglow_get_state (led_strip : Bool) (state : rgb_underglow_state) :
    Option Bool × Int :=
  if led_strip = false then (none, -ENODEV) else (some state.is_on, 0)

/-- The function `zmk_rgb_underglow_on`. -/
def zmk_rgb_underglow_on {N : Nat} (cfg : Config) (env : Env) (led_strip : Bool)
    (state : rgb_underglow_state) : (rgb_underglow_state × List (Effect N)) × Int :=
  if led_strip = false then ((state, []), -ENODEV)
  else
    let state := { state with is_on := true }
    let p : rgb_underglow_state × List (Effect N) := zmk_rgb_set_ext_power env state
    let state := { p.1 with animation_step := 0 }
    let r : Int × List (Effect N) := zmk_rgb_underglow_save_state cfg env
    ((state, p.2 ++ [Effect.k_timer_start Timer.underglow_tick] ++ r.2), r.1)

/-- The function `zmk_rgb_underglow_off`. -/
def zmk_rgb_underglow_off {N : Nat} (cfg : Config) (env : Env) (led_strip : Bool)
    (state : rgb_underglow_state) : (rgb_underglow_state × List (Effect N)) × Int :=
  if led_strip = false then ((state, []), -ENODEV)
  else
    let state := { state with is_on := false }
    let p : rgb_underglow_state × List (Effect N) := zmk_rgb_set_ext_power env state
    let r : Int × List (Effect N) := zmk_rgb_underglow_save_state cfg env
    ((p.1,
      [Effect.k_work_submit Work.underglow_off_work, Effect.k_timer_stop Timer.underglow_tick]
        ++ p.2 ++ r.2), r.1)

/-- The function `zmk_rgb_underglow_calc_effect`; the `%` of C truncates
towards zero. -/
def zmk_rgb_underglow_calc_effect (state : rgb_underglow_state) (direction : Int) : Int :=
  Int.tmod ((state.current_effect : Int) + (UNDERGLOW_EFFECT_NUMBER : Int) + direction)
    (UNDERGLOW_EFFECT_NUMBER : Int)

/-- The function `zmk_rgb_underglow_cycle_effect`. -/
def zmk_rgb_underglow_cycle_effect {N : Nat} (cfg : Config) (env : Env) (led_strip : Bool)
    (state : rgb_underglow_state) (direction : Int) :
    (rgb_underglow_state × List (Effect N)) × Int :=
  zmk_rgb_underglow_select_effect cfg env led_strip state
    (zmk_rgb_underglow_calc_effect state direction)

/-- The function `zmk_rgb_underglow_set_hsb`. -/
def zmk_rgb_underglow_set_hsb {N : Nat} (state : rgb_underglow_state) (color : zmk_led_hsb) :
    (rgb_underglow_state × List (Effect N)) × Int :=
  if color.h > HUE_MAX ∨ color.s > SAT_MAX ∨ color.b > BRT_MAX then ((state, []), -ENOTSUP)
  else (({ state with color := color }, []), 0)

/-- The function `zmk_rgb_underglow_calc_hue`: the sum is taken in `int`,
stored in the 16-bit field, then reduced modulo `HUE_MAX`. -/
def zmk_rgb_underglow_calc_hue (cfg : Config) (state : rgb_underglow_state)
    (direction : Int) : zmk_led_hsb :=
  let color := state.color
  let h : Nat :=
    (((color.h : Int) + ((HUE_MAX : Int) + direction * (cfg.HUE_STEP : Int))) % 65536).toNat
  let h := h % HUE_MAX
  { color with h := h }

/-- The function `zmk_rgb_underglow_calc_sat`. -/
def zmk_rgb_underglow_calc_sat (cfg : Config) (state : rgb_underglow_state)
    (direction : Int) : zmk_led_hsb :=
  let color := state.color
  let s : Int := (color.s : Int) + direction * (cfg.SAT_STEP : Int)
  let s : Int := if s < 0 then 0 else if s > (SAT_MAX : Int) then (SAT_MAX : Int) else s
  { color with s := (s % 256).toNat }

/-- The function `zmk_rgb_underglow_calc_brt`; `CLAMP(b, 0, BRT_MAX)` is
`b <= 0 ? 0 : MIN(b, BRT_MAX)`. -/
def zmk_rgb_underglow_calc_brt (cfg : Config) (state : rgb_underglow_state)
    (direction : Int) : zmk_led_hsb :=
  let color := state.color
  let b : Int := (color.b : Int) + direction * (cfg.BRT_STEP : Int)
  let b : Int := if b ≤ 0 then 0 else min b (BRT_MAX : Int)
  { color with b := (b % 256).toNat }

/-- The function `zmk_rgb_underglow_change_hue`. -/
def zmk_rgb_underglow_change_hue {N : Nat} (cfg : Config) (env : Env) (led_strip : Bool)
    (state : rgb_underglow_state) (direction : Int) :
    (rgb_underglow_state × List (Effect N)) × Int :=
  if led_strip = false then ((state, []), -ENODEV)
  else
    let state := { state with color := zmk_rgb_underglow_calc_hue cfg state direction }
    let r : Int × List (Effect N) := zmk_rgb_underglow_save_state cfg env
    ((state, r.2), r.1)

/-- The function `zmk_rgb_underglow_change_sat`. -/
def zmk_rgb_underglow_change_sat {N : Nat} (cfg : Config) (env : Env) (led_strip : Bool)
    (state : rgb_underglow_state) (direction : Int) :
    (rgb_underglow_state × List (Effect N)) × Int :=
  if led_strip = false then ((state, []), -ENODEV)
  else
    let state := { state with color := zmk_rgb_underglow_calc_sat cfg state direction }
    let r : Int × List (Effect N) := zmk_rgb_underglow_save_state cfg env
    ((state, r.2), r.1)

/-- The function `zmk_rgb_underglow_change_brt`. -/
def zmk_rgb_underglow_change_brt {N : Nat} (cfg : Config) (env : Env) (led_strip : Bool)
    (state : rgb_underglow_state) (direction : Int) :
    (rgb_underglow_state × List (Effect N)) × Int :=
  if led_strip = false then ((state, []), -ENODEV)
  else
    let state := { state with color := zmk_rgb_underglow_calc_brt cfg state direction }
    let r : Int × List (Effect N) := zmk_rgb_underglow_save_state cfg env
    ((state, r.2), r.1)

/-- The function `zmk_rgb_underglow_change_spd`; the sum is stored in the
8-bit speed field. -/
def zmk_rgb_underglow_change_spd {N : Nat} (cfg : Config) (env : Env) (led_strip : Bool)
    (state : rgb_underglow_state) (direction : Int) :
    (rgb_underglow_state × List (Effect N)) × Int :=
  if led_strip = false then ((state, []), -ENODEV)
  else if state.animation_speed = 1 ∧ direction < 0 then ((state, []), 0)
  else
    let speed : Nat := (((state.animation_speed : Int) + direction) % 256).toNat
    let speed := if speed > 5 then 5 else speed
    let state := { state with animation_speed := speed }
    let r : Int × List (Effect N) := zmk_rgb_underglow_save_state cfg env
    ((state, r.2), r.1)

/-- The number of save requests (`k_work_reschedule` of the save work item)
in a run of effects. -/
def save_requests {N : Nat} : List (Effect N) → Nat
  | [] => 0
  | Effect.k_work_reschedule Work.underglow_save_work :: rest => save_requests rest + 1
  | _ :: rest => save_requests rest

/-! ## Persistence -/

/-- The value of `sizeof(state)`: `struct rgb_underglow_state` as the ARM
EABI lays it out, with `struct zmk_led_hsb` being `uint16_t h; uint8_t s;
uint8_t b`.  No padding is needed. -/
def sizeof_state : Nat := 12

/-- The bytes of the object `state` (little-endian): `color.h` at 0–1,
`color.s` at 2, `color.b` at 3, `animation_speed` at 4, `current_effect` at
5, `animation_step` at 6–7, `on` at 8, `status_active` at 9,
`status_animation_step` at 10–11. -/
def state_bytes (s : rgb_underglow_state) : List Nat :=
  [ s.color.h % 256, s.color.h / 256 % 256, s.color.s % 256, s.color.b % 256,
    s.animation_speed % 256, s.current_effect % 256,
    s.animation_step % 256, s.animation_step / 256 % 256,
    (if s.is_on then 1 else 0), (if s.status_active then 1 else 0),
    s.status_animation_step % 256, s.status_animation_step / 256 % 256 ]

/-- The object `state` read back from its bytes. -/
def state_of_bytes (b : List Nat) : rgb_underglow_state :=
  { color :=
      { h := b.getD 0 0 % 256 + 256 * (b.getD 1 0 % 256)
        s := b.getD 2 0 % 256
        b := b.getD 3 0 % 256 }
    animation_speed := b.getD 4 0 % 256
    current_effect := b.getD 5 0 % 256
    animation_step := b.getD 6 0 % 256 + 256 * (b.getD 7 0 % 256)
    is_on := decide (b.getD 8 0 % 256 ≠ 0)
    status_active := decide (b.getD 9 0 % 256 ≠ 0)
    status_animation_step := b.getD 10 0 % 256 + 256 * (b.getD 11 0 % 256) }

/-- Every field of a state is within the range of its C type. -/
def state_in_range (s : rgb_underglow_state) : Prop :=
  s.color.h < 65536 ∧ s.color.s < 256 ∧ s.color.b < 256 ∧ s.animation_speed < 256
    ∧ s.current_effect < 256 ∧ s.animation_step < 65536 ∧ s.status_animation_step < 65536

instance (s : rgb_underglow_state) : Decidable (state_in_range s) :=
  inferInstanceAs (Decidable (_ ∧ _ ∧ _ ∧ _ ∧ _ ∧ _ ∧ _))

/-- The `name` argument of the settings handler, as
`settings_name_steq(name, "state", &next)` sees it. -/
inductive SettingsName where
  /-- The key `state`: the comparison succeeds and `next` is `NULL`. -/
  | state
  /-- A key below `state/`: the comparison succeeds and `next` is set. -/
  | state_subkey
  /-- Any other key: the comparison fails. -/
  | other
deriving DecidableEq, Repr

/-- What `read_cb(cb_arg, &state, sizeof(state))` does: its return code and
the bytes it copied to the start of the destination. -/
structure ReadCb where
  rc : Int
  data : List Nat
deriving DecidableEq, Repr

/-- The settings handler `rgb_settings_set`. -/
def rgb_settings_set {N : Nat} (name : SettingsName) (len : Nat) (read_cb : ReadCb)
    (state : rgb_underglow_state) : (rgb_underglow_state × List (Effect N)) × Int :=
  match name with
  | SettingsName.state =>
    if len ≠ sizeof_state then ((state, []), -EINVAL)
    else
      let image :=
        (read_cb.data ++ (state_bytes state).drop read_cb.data.length).take sizeof_state
      let state := state_of_bytes image
      let rc := read_cb.rc
      ((state, [Effect.settings_read_cb sizeof_state]), if rc ≥ 0 then 0 else rc)
  | _ => ((state, []), -ENOENT)

/-- The work handler `zmk_rgb_underglow_save_state_work`: the bytes of
`state` go to the store under the key `rgb/underglow/state`. -/
def zmk_rgb_underglow_save_state_work {N : Nat} (state : rgb_underglow_state) :
    List (Effect N) :=
  [Effect.settings_save_one (state_bytes state)]

/-! ## Idle and USB auto state -/

/-- The function `rgb_underglow_auto_state`.  The caller's `bool *prev_state`
is passed in and returned next to the engine state. -/
def rgb_underglow_auto_state {N : Nat} (cfg : Config) (env : Env) (led_strip : Bool)
    (state : rgb_underglow_state) (prev_state : Bool) (new_state : Bool) :
    ((rgb_underglow_state × Bool) × List (Effect N)) × Int :=
  if state.is_on = new_state then
    (((state, prev_state), []), 0)
  else if new_state then
    let state := { state with is_on := prev_state }
    let prev_state := false
    let r := zmk_rgb_underglow_on cfg env led_strip state
    (((r.1.1, prev_state), r.1.2), r.2)
  else
    let state := { state with is_on := false }
    let prev_state := true
    let r := zmk_rgb_underglow_off cfg env led_strip state
    (((r.1.1, prev_state), r.1.2), r.2)

/-! ## Stages of the status overlay generator -/

/-- The part of `zmk_led_generate_status` that runs before the loop over the
connection profiles: battery bars, lock indicators, layer indicators and the
output-fallback pixel, starting from the cleared overlay. -/
def status_before_ble {N : Nat} (cfg : Config) (im : underglow_indicators)
    (env : Env) : PixelBuf N :=
  let sp : PixelBuf N := px_zero N
  let sp := zmk_led_battery_level cfg sp env.battery im.bat_lhs
  let peripheral : PixelBuf N × List (Effect N) :=
    if cfg.SPLIT_BLE_CENTRAL_BATTERY_LEVEL_FETCHING then
      let rc := env.peripheral_rc
      if rc = 0 then
        (zmk_led_battery_level cfg sp (env.peripheral_level % 256) im.bat_rhs, [])
      else if rc = -ENOTCONN then
        (zmk_led_fill sp (red cfg) im.bat_rhs, [])
      else if rc = -EINVAL then
        (sp, [Effect.log_err LogErr.invalid_peripheral_index])
      else (sp, [])
    else (sp, [])
  let sp := peripheral.1
  let led_flags := env.hid_indicators
  let sp := if led_flags.testBit 1 then px_set sp im.capslock (yellow cfg) else sp
  let sp := if led_flags.testBit 0 then px_set sp im.numlock (yellow cfg) else sp
  let sp := if led_flags.testBit 2 then px_set sp im.scrolllock (yellow cfg) else sp
  let sp := (List.range im.layer_state.length).foldl
    (fun sp i =>
      if env.layer_active i then px_set sp (im.layer_state.getD i 0) (lilac cfg) else sp)
    sp
  let sp := if !env.preferred_transport_is_active then
      px_set sp im.output_fallback (red cfg) else sp
  sp

/-- One iteration of the loop over the connection profiles in
`zmk_led_generate_status`. -/
def status_ble_profile {N : Nat} (cfg : Config) (im : underglow_indicators)
    (env : Env) (sp : PixelBuf N) (i : Nat) : PixelBuf N :=
  let active_ble_profile_index := env.ble_active_profile_index
  let status := env.ble_profile_status i
  let ble_pixel := im.ble_state.getD i 0
  if status = 2 ∧ env.selected_transport = zmk_transport.BLE ∧
      active_ble_profile_index = (i : Int) then
    px_set sp ble_pixel (white cfg)
  else if status = 2 then px_set sp ble_pixel (nice_blue cfg)
  else if status = 1 then px_set sp ble_pixel (red cfg)
  else if status = 0 then px_set sp ble_pixel (lilac cfg)
  else sp

/-- The loop over the connection profiles in `zmk_led_generate_status`:
`i` runs below `MIN(ZMK_BLE_PROFILE_COUNT, DT_PROP_LEN(UNDERGLOW_INDICATORS,
ble_state))`. -/
def status_ble_profiles {N : Nat} (cfg : Config) (im : underglow_indicators)
    (env : Env) (sp : PixelBuf N) : PixelBuf N :=
  (List.range (min cfg.ZMK_BLE_PROFILE_COUNT im.ble_state.length)).foldl
    (status_ble_profile cfg im env) sp

/-- The last stage of `zmk_led_generate_status`: the pixel of the wired
connection. -/
def status_usb {N : Nat} (cfg : Config) (im : underglow_indicators)
    (env : Env) (sp : PixelBuf N) : PixelBuf N :=
  let usb_state := env.usb_conn_state
  if usb_state = zmk_usb_conn_state.HID ∧ env.selected_transport = zmk_transport.USB then
    px_set sp im.usb_state (white cfg)
  else if usb_state = zmk_usb_conn_state.HID then px_set sp im.usb_state (nice_blue cfg)
  else if usb_state = zmk_usb_conn_state.POWERED then px_set sp im.usb_state (red cfg)
  else if usb_state = zmk_usb_conn_state.NONE then px_set sp im.usb_state (lilac cfg)
  else sp

/-- The colour the profile loop gives to a slot whose status is 0, 1 or 2. -/
def ble_profile_colour (cfg : Config) (env : Env) (i : Nat) : led_rgb :=
  if env.ble_profile_status i = 2 then
    if env.selected_transport = zmk_transport.BLE ∧ env.ble_active_profile_index = (i : Int)
    then white cfg else nice_blue cfg
  else if env.ble_profile_status i = 1 then red cfg
  else lilac cfg

/-! ## Events of the status overlay -/

/-- What can happen to the status fields: a status pulse
(`zmk_rgb_underglow_status`) or a tick of the status driver
(`zmk_rgb_underglow_status_update`, followed by the compositor work item when
`work` says that it ran before the next event). -/
inductive StatusEvent where
  | pulse (env : Env)
  | tick (env env2 : Env) (work : Bool)

/-- Runs a sequence of status events on the engine. -/
def status_events_run {N : Nat} (cfg : Config) : List StatusEvent → Engine N → Engine N
  | [], e => e
  | StatusEvent.pulse env :: rest, e =>
      status_events_run cfg rest (zmk_rgb_underglow_status cfg env e).1.1
  | StatusEvent.tick env env2 work :: rest, e =>
      status_events_run cfg rest (status_driver_run cfg [(env, env2, work)] e)

/-! ## Key groups of the custom layers -/

/-- Pixels written by `valdur_indicate_custom_layers` for the lower layer. -/
def lower_layer_pixels : List Nat :=
  [37, 18, 25, 19, 13, 8, 31, 17, 20, 24, 12, 7, 30, 14, 26, 32]

/-- Pixels written by `valdur_indicate_custom_layers` for the gaming layer. -/
def gaming_layer_pixels : List Nat :=
  [38, 18, 25, 19, 13, 5, 27, 33]

/-- Pixels written by `valdur_indicate_custom_layers` for the numeric layer. -/
def numeric_layer_pixels : List Nat :=
  [36, 23, 17, 11, 24, 18, 12, 25, 19, 13, 26, 31, 32, 27, 14]

/-! ## Caps word (`behaviors/behavior_caps_word.c`) -/

/-- An entry of a key list (`struct zmk_key_param`). -/
structure zmk_key_param where
  modifiers : Nat
  page : Nat
  id : Nat
deriving DecidableEq

/-- The type `struct behavior_caps_word_config`; a `struct key_list` is the
list of its entries. -/
structure behavior_caps_word_config where
  continuations : List zmk_key_param
  shifted : List zmk_key_param
  idle_timeout_ms : Int
  mods : Nat
  no_default_keys : Bool
deriving DecidableEq

/-- The type `struct behavior_caps_word_data`; the idle timer is a kernel
object and shows up only in the calls made on it. -/
structure behavior_caps_word_data where
  active : Bool
deriving DecidableEq

/-- A caps-word instance: the `config` and `data` of an entry of `devs`. -/
structure caps_word_dev where
  config : behavior_caps_word_config
  data : behavior_caps_word_data
deriving DecidableEq

/-- The type `struct zmk_keycode_state_changed`. -/
structure zmk_keycode_state_changed where
  timestamp : Int
  keycode : Nat
  usage_page : Nat
  implicit_modifiers : Nat
  explicit_modifiers : Nat
  state : Bool
deriving DecidableEq

/-- What the caps-word code takes from headers and modules outside the
sources at hand: the HID usage constants, the predicate `is_mod`, and the
reading of `zmk_hid_get_explicit_mods()` during the call. -/
structure CapsEnv where
  HID_USAGE_KEY : Nat
  HID_USAGE_KEY_KEYBOARD_A : Nat
  HID_USAGE_KEY_KEYBOARD_Z : Nat
  HID_USAGE_KEY_KEYBOARD_1_AND_EXCLAMATION : Nat
  HID_USAGE_KEY_KEYBOARD_0_AND_RIGHT_PARENTHESIS : Nat
  is_mod : Nat → Nat → Bool
  zmk_hid_get_explicit_mods : Nat

/-- Calls on the idle timer of instance `dev` (its index in `devs`). -/
inductive CapsEffect where
  | k_work_schedule (dev : Nat) (ms : Int)
  | k_work_cancel_delayable (dev : Nat)
deriving DecidableEq

/-- The statics of the file: `devs` (with `dev_count` its length) and
`pressed_key_count`. -/
structure caps_word_state where
  devs : List caps_word_dev
  pressed_key_count : Int
deriving DecidableEq

/-- The value `ZMK_EV_EVENT_BUBBLE`. -/
def ZMK_EV_EVENT_BUBBLE : Int := 0

/-- The function `restart_caps_word_idle_timer`. -/
def restart_caps_word_idle_timer (i : Nat) (dev : caps_word_dev) : List CapsEffect :=
  if dev.config.idle_timeout_ms ≠ 0 then
    [CapsEffect.k_work_schedule i dev.config.idle_timeout_ms]
  else []

/-- The function `restart_caps_word_idle_timer_all_devs`, from index `i` on. -/
def restart_caps_word_idle_timer_all_devs (i : Nat) : List caps_word_dev → List CapsEffect
  | [] => []
  | dev :: rest =>
      restart_caps_word_idle_timer i dev ++ restart_caps_word_idle_timer_all_devs (i + 1) rest

/-- The function `cancel_caps_word_idle_timer`. -/
def cancel_caps_word_idle_timer (i : Nat) (dev : caps_word_dev) : List CapsEffect :=
  if dev.config.idle_timeout_ms ≠ 0 then [CapsEffect.k_work_cancel_delayable i] else []

/-- The function `activate_caps_word`. -/
def activate_caps_word (i : Nat) (dev : caps_word_dev) : caps_word_dev × List CapsEffect :=
  ({ dev with data := { dev.data with active := true } }, restart_caps_word_idle_timer i dev)

/-- The function `deactivate_caps_word`. -/
def deactivate_caps_word (i : Nat) (dev : caps_word_dev) : caps_word_dev × List CapsEffect :=
  ({ dev with data := { dev.data with active := false } }, cancel_caps_word_idle_timer i dev)

/-- The function `on_caps_word_binding_pressed`. -/
def on_caps_word_binding_pressed (i : Nat) (dev : caps_word_dev) :
    caps_word_dev × List CapsEffect :=
  if dev.data.active then deactivate_caps_word i dev else activate_caps_word i dev

/-- The function `key_list_contains`. -/
def key_list_contains (list : List zmk_key_param) (usage_page usage_id modifiers : Nat) :
    Bool :=
  list.any fun key =>
    key.page == usage_page && key.id == usage_id &&
      (key.modifiers &&& modifiers) == key.modifiers

/-- The function `caps_word_is_alpha`. -/
def caps_word_is_alpha (henv : CapsEnv) (usage_page usage_id : Nat) : Bool :=
  usage_page == henv.HID_USAGE_KEY && decide (usage_id ≥ henv.HID_USAGE_KEY_KEYBOARD_A) &&
    decide (usage_id ≤ henv.HID_USAGE_KEY_KEYBOARD_Z)

/-- The function `caps_word_is_numeric`. -/
def caps_word_is_numeric (henv : CapsEnv) (usage_page usage_id : Nat) : Bool :=
  usage_page == henv.HID_USAGE_KEY &&
    decide (usage_id ≥ henv.HID_USAGE_KEY_KEYBOARD_1_AND_EXCLAMATION) &&
    decide (usage_id ≤ henv.HID_USAGE_KEY_KEYBOARD_0_AND_RIGHT_PARENTHESIS)

/-- The function `caps_word_should_enhance`; `modifiers` is an 8-bit
`zmk_mod_flags_t`. -/
def caps_word_should_enhance (henv : CapsEnv) (config : behavior_caps_word_config)
    (ev : zmk_keycode_state_changed) : Bool :=
  if !config.no_default_keys && caps_word_is_alpha henv ev.usage_page ev.keycode then
    true
  else
    let modifiers := (ev.implicit_modifiers ||| henv.zmk_hid_get_explicit_mods) % 256
    key_list_contains config.shifted ev.usage_page ev.keycode modifiers

/-- The function `caps_word_is_continuation`. -/
def caps_word_is_continuation (henv : CapsEnv) (config : behavior_caps_word_config)
    (ev : zmk_keycode_state_changed) : Bool :=
  if henv.is_mod ev.usage_page ev.keycode || caps_word_should_enhance henv config ev then
    true
  else if !config.no_default_keys && caps_word_is_numeric henv ev.usage_page ev.keycode then
    true
  else
    let modifiers := (ev.implicit_modifiers ||| henv.zmk_hid_get_explicit_mods) % 256
    key_list_contains config.continuations ev.usage_page ev.keycode modifiers

/-- The body of the loop over `devs` in
`caps_word_keycode_state_changed_listener` for the instance at index `i`:
the instance afterwards, the event afterwards, and the timer calls. -/
def caps_word_listener_dev (henv : CapsEnv) (i : Nat) (dev : caps_word_dev)
    (ev : zmk_keycode_state_changed) :
    caps_word_dev × zmk_keycode_state_changed × List CapsEffect :=
  if !dev.data.active then
    (dev, ev, [])
  else
    let fx := cancel_caps_word_idle_timer i dev
    let ev :=
      if caps_word_should_enhance henv dev.config ev then
        { ev with implicit_modifiers := (ev.implicit_modifiers ||| dev.config.mods) % 256 }
      else ev
    if !caps_word_is_continuation henv dev.config ev then
      let d := deactivate_caps_word i dev
      (d.1, ev, fx ++ d.2)
    else
      (dev, ev, fx)

/-- The loop over `devs` in `caps_word_keycode_state_changed_listener`, from
index `i` on. -/
def caps_word_listener_devs (henv : CapsEnv) (i : Nat) :
    List caps_word_dev → zmk_keycode_state_changed →
      List caps_word_dev × zmk_keycode_state_changed × List CapsEffect
  | [], ev => ([], ev, [])
  | dev :: rest, ev =>
      let r := caps_word_listener_dev henv i dev ev
      let rs := caps_word_listener_devs henv (i + 1) rest r.2.1
      (r.1 :: rs.1, rs.2.1, r.2.2 ++ rs.2.2)

/-- What `caps_word_keycode_state_changed_listener` leaves behind: the
statics, the event it was handed (which it may have modified in place), the
timer calls, and its return value. -/
structure caps_word_result where
  st : caps_word_state
  ev : Option zmk_keycode_state_changed
  effects : List CapsEffect
  ret : Int

/-- The function `caps_word_keycode_state_changed_listener`.  The event is
`none` when `as_zmk_keycode_state_changed` returns `NULL`. -/
def caps_word_keycode_state_changed_listener (henv : CapsEnv) (st : caps_word_state)
    (eh : Option zmk_keycode_state_changed) : caps_word_result :=
  match eh with
  | none => { st := st, ev := none, effects := [], ret := ZMK_EV_EVENT_BUBBLE }
  | some ev =>
    if !ev.state then
      let pressed_key_count := st.pressed_key_count - 1
      let pressed_key_count := max pressed_key_count 0
      let fx :=
        if pressed_key_count = 0 then restart_caps_word_idle_timer_all_devs 0 st.devs else []
      { st := { st with pressed_key_count := pressed_key_count }
        ev := some ev, effects := fx, ret := ZMK_EV_EVENT_BUBBLE }
    else
      let pressed_key_count := st.pressed_key_count + 1
      let r := caps_word_listener_devs henv 0 st.devs ev
      { st := { devs := r.1, pressed_key_count := pressed_key_count }
        ev := some r.2.1, effects := r.2.2, ret := ZMK_EV_EVENT_BUBBLE }

/-- A sequence of calls of the listener, each with the reading of
`zmk_hid_get_explicit_mods()` of its moment; the statics are threaded
through. -/
def caps_word_listener_run :
    List (CapsEnv × Option zmk_keycode_state_changed) → caps_word_state → caps_word_state
  | [], st => st
  | (henv, eh) :: rest, st =>
      caps_word_listener_run rest (caps_word_keycode_state_changed_listener henv st eh).st

/-! ## Peripheral layers (`split/bluetooth/peripheral_layers.c`) -/

/-- The macro `BIT(n)`, `1UL << n` in the 32-bit `unsigned long` of the
target. -/
def BIT (n : Nat) : Nat := (1 <<< n) % 2 ^ 32

/-- The function `set_peripheral_layers_state`: the value of the static
`peripheral_layers` (a `uint32_t`) after the call. -/
def set_peripheral_layers_state (new_layers : Nat) : Nat := new_layers % 2 ^ 32

/-- The function `peripheral_layer_active`, reading the static
`peripheral_layers`; `layer` is a `uint8_t`. -/
def peripheral_layer_active (peripheral_layers : Nat) (layer : Nat) : Bool :=
  (peripheral_layers &&& BIT (layer % 256)) == BIT (layer % 256)

/-- The static `peripheral_layers` after a sequence of calls of
`set_peripheral_layers_state`, starting from its initial value 0. -/
def peripheral_layers_after (calls : List Nat) : Nat :=
  calls.foldl (fun _ new_layers => set_peripheral_layers_state new_layers) 0

/-! ## Predicates and reference definitions used by the statements -/

/-- All three channels of a pixel fit in eight bits. -/
def is_8bit (c : led_rgb) : Prop := c.r < 256 ∧ c.g < 256 ∧ c.b < 256

instance (c : led_rgb) : Decidable (is_8bit c) :=
  inferInstanceAs (Decidable (c.r < 256 ∧ c.g < 256 ∧ c.b < 256))

/-- Every pixel of a buffer fits in eight bits per channel. -/
def buf_8bit {N : Nat} (buf : PixelBuf N) : Prop := ∀ i : Fin N, is_8bit (buf i)

instance {N : Nat} (buf : PixelBuf N) : Decidable (buf_8bit buf) :=
  inferInstanceAs (Decidable (∀ i : Fin N, is_8bit (buf i)))

/-- The condition under which `zmk_led_write_pixels` takes the battery
veto: charge below 10, lighting on, rail reading non-zero, overlay inactive. -/
def veto_fires (env : Env) (state : rgb_underglow_state) : Prop :=
  env.battery < 10 ∧ state.is_on = true ∧ env.ext_power_get ≠ 0 ∧ state.status_active = false

instance (env : Env) (state : rgb_underglow_state) : Decidable (veto_fires env state) :=
  inferInstanceAs (Decidable (_ ∧ _ ∧ _ ∧ _))

/-- Follows the spec's words (§4.4): the blended channel
`(overlay·w)>>8 + (base·(256−w))>>8`. -/
def spec_blend_channel (overlay base w : Nat) : Nat :=
  ((overlay * w) >>> 8) + ((base * (256 - w)) >>> 8)

/-- Follows the spec's words (§4.4): the blend rule applied to the three
channels of a pixel. -/
def spec_blend_pixel (overlay base : led_rgb) (w : Nat) : led_rgb :=
  { r := spec_blend_channel overlay.r base.r w
    g := spec_blend_channel overlay.g base.g w
    b := spec_blend_channel overlay.b base.b w }

/-- Follows the spec's words (§4.4): output = base if `w == 0`, output =
overlay if `w >= 256`, otherwise the per-channel blend. -/
def spec_compose {N : Nat} (base overlay : PixelBuf N) (w : Nat) : PixelBuf N :=
  if w = 0 then base
  else if 256 ≤ w then overlay
  else fun i => spec_blend_pixel (overlay i) (base i) w

/-- Follows the spec's words (§4.4 b): every channel halved by a one-bit
right shift. -/
def spec_halve {N : Nat} (buf : PixelBuf N) : PixelBuf N :=
  fun i => { r := (buf i).r >>> 1, g := (buf i).g >>> 1, b := (buf i).b >>> 1 }

/-! ## Concrete inputs used to exercise the statements -/

/-- A four-pixel indicator map: battery on pixels 0 and 1, profile 0 on
pixel 1, layer 0 on pixel 2, everything else on pixel 3. -/
def ex_indicators : underglow_indicators :=
  { layer_state := [2]
    ble_state := [1]
    bat_lhs := [0, 1]
    bat_rhs := []
    capslock := 3
    numlock := 3
    scrolllock := 3
    output_fallback := 3
    usb_state := 3 }

/-- A build with indicators and full brightness. -/
def ex_cfg : Config :=
  { BRT_MAX := 100
    indicators := some ex_indicators
    SPLIT_BLE_CENTRAL_BATTERY_LEVEL_FETCHING := false
    ZMK_BLE_PROFILE_COUNT := 4
    BRT_MIN := 0
    SETTINGS := true
    HUE_STEP := 10
    SAT_STEP := 10
    BRT_STEP := 10 }

/-- Collaborators: charge 50, only layer 0 active, rail on, USB active. -/
def ex_env : Env :=
  { battery := 50
    layer_active := fun i => decide (i = 0)
    ext_power_get := 1
    ext_power_enable_rc := 0
    ext_power_disable_rc := 0
    led_strip_update_rc := 0
    peripheral_rc := 0
    peripheral_level := 0
    hid_indicators := 0
    selected_transport := zmk_transport.USB
    preferred_transport_is_active := true
    ble_active_profile_index := 0
    ble_profile_status := fun _ => 0
    usb_conn_state := zmk_usb_conn_state.HID
    write_work_pending := false
    k_work_reschedule_rc := 1 }

/-- The same collaborators at charge 5 with the rail on. -/
def ex_env_low : Env := { ex_env with battery := 5 }

/-- The same collaborators at charge 5 with the rail off. -/
def ex_env_low_rail_off : Env := { ex_env with battery := 5, ext_power_get := 0 }

/-- Lighting on, overlay active and half-way through the fade-in
(step 10, weight 128). -/
def ex_state : rgb_underglow_state :=
  { color := { h := 200, s := 80, b := 60 }
    animation_speed := 3
    current_effect := 0
    animation_step := 0
    is_on := true
    status_active := true
    status_animation_step := 10 }

/-- Lighting on, overlay inactive. -/
def ex_state_idle : rgb_underglow_state :=
  { ex_state with status_active := false, status_animation_step := 0 }

/-- A base buffer with odd channel values. -/
def ex_base : PixelBuf 4 := fun _ => { r := 1, g := 3, b := 255 }

/-- Another base buffer. -/
def ex_base2 : PixelBuf 4 := fun i => { r := 10 * i.val, g := 7, b := 200 }

/-- An overlay buffer. -/
def ex_overlay : PixelBuf 4 := fun i => { r := 41, g := 12 + i.val, b := 80 }

/-- Breathe selected at speed 1, phase 0. -/
def ex_state_breathe : rgb_underglow_state :=
  { ex_state with animation_speed := 1, current_effect := 1, animation_step := 0 }

/-- The example engine with breathe selected at speed 1, phase 0. -/
def ex_engine_breathe : Engine 4 :=
  { state := ex_state_breathe, pixels := ex_base, status_pixels := ex_overlay }

/-- The example collaborators with a save request that the kernel refuses
(`-EBUSY`). -/
def ex_env_save_refused : Env := { ex_env with k_work_reschedule_rc := -16 }

/-- A build with a brightness floor of 10 and a ceiling of 80. -/
def ex_cfg_floor : Config := { ex_cfg with BRT_MIN := 10, BRT_MAX := 80 }

/-- The example collaborators with every profile connected while the wired
transport is the selected one (profile 0 is the active profile). -/
def ex_env_profiles_connected : Env := { ex_env with ble_profile_status := fun _ => 2 }

/-- Example HID constants (keyboard page 7, letters 4..29, digits 30..39,
modifier keys 224..231) with no explicit modifiers held. -/
def ex_caps_env : CapsEnv :=
  { HID_USAGE_KEY := 7
    HID_USAGE_KEY_KEYBOARD_A := 4
    HID_USAGE_KEY_KEYBOARD_Z := 29
    HID_USAGE_KEY_KEYBOARD_1_AND_EXCLAMATION := 30
    HID_USAGE_KEY_KEYBOARD_0_AND_RIGHT_PARENTHESIS := 39
    is_mod := fun page id => page == 7 && decide (224 ≤ id) && decide (id ≤ 231)
    zmk_hid_get_explicit_mods := 0 }

/-- An example caps-word configuration: left shift (2) is applied, minus
(45) is shifted, backspace (42) continues the word, 5 s idle timeout. -/
def ex_caps_config : behavior_caps_word_config :=
  { continuations := [{ modifiers := 0, page := 7, id := 42 }]
    shifted := [{ modifiers := 0, page := 7, id := 45 }]
    idle_timeout_ms := 5000
    mods := 2
    no_default_keys := false }

/-- An active instance of the example configuration. -/
def ex_caps_dev : caps_word_dev := { config := ex_caps_config, data := { active := true } }

/-- A press of the letter A (usage 4). -/
def ex_key_a : zmk_keycode_state_changed :=
  { timestamp := 0, keycode := 4, usage_page := 7, implicit_modifiers := 0
    explicit_modifiers := 0, state := true }

/-- A press of the space bar (usage 44), which ends the word. -/
def ex_key_space : zmk_keycode_state_changed := { ex_key_a with keycode := 44 }

/-! ## Lemmas on effects and buffers -/

@[simp] theorem frames_nil {N : Nat} : frames ([] : List (Effect N)) = [] := rfl

@[simp] theorem frames_cons_update {N : Nat} (f : PixelBuf N) (l : List (Effect N)) :
    frames (Effect.led_strip_update_rgb f :: l) = f :: frames l := rfl

@[simp] theorem frames_cons_log {N : Nat} (m : LogErr) (l : List (Effect N)) :
    frames (Effect.log_err m :: l) = frames l := rfl

@[simp] theorem frames_cons_enable {N : Nat} (l : List (Effect N)) :
    frames (Effect.ext_power_enable :: l) = frames l := rfl

@[simp] theorem frames_cons_disable {N : Nat} (l : List (Effect N)) :
    frames (Effect.ext_power_disable :: l) = frames l := rfl

theorem frames_append {N : Nat} (a b : List (Effect N)) :
    frames (a ++ b) = frames a ++ frames b := by
  induction a with
  | nil => rfl
  | cons x xs ih => cases x <;> simp [frames, ih]

@[simp] theorem rail_calls_nil {N : Nat} : rail_calls ([] : List (Effect N)) = [] := rfl

@[simp] theorem rail_calls_cons_update {N : Nat} (f : PixelBuf N) (l : List (Effect N)) :
    rail_calls (Effect.led_strip_update_rgb f :: l) = rail_calls l := rfl

@[simp] theorem rail_calls_cons_log {N : Nat} (m : LogErr) (l : List (Effect N)) :
    rail_calls (Effect.log_err m :: l) = rail_calls l := rfl

@[simp] theorem rail_calls_cons_enable {N : Nat} (l : List (Effect N)) :
    rail_calls (Effect.ext_power_enable :: l) = RailCall.enable :: rail_calls l := rfl

@[simp] theorem rail_calls_cons_disable {N : Nat} (l : List (Effect N)) :
    rail_calls (Effect.ext_power_disable :: l) = RailCall.disable :: rail_calls l := rfl

theorem rail_calls_append {N : Nat} (a b : List (Effect N)) :
    rail_calls (a ++ b) = rail_calls a ++ rail_calls b := by
  induction a with
  | nil => rfl
  | cons x xs ih => cases x <;> simp [rail_calls, ih]

/-- The power policy makes no transport write. -/
theorem set_ext_power_frames {N : Nat} (env : Env) (state : rgb_underglow_state) :
    frames (zmk_rgb_set_ext_power env state : rgb_underglow_state × List (Effect N)).2 = [] := by
  unfold zmk_rgb_set_ext_power
  simp only
  split_ifs <;> simp [frames_append]

/-- The power policy returns the state it was given. -/
theorem set_ext_power_state {N : Nat} (env : Env) (state : rgb_underglow_state) :
    (zmk_rgb_set_ext_power env state : rgb_underglow_state × List (Effect N)).1 = state := by
  unfold zmk_rgb_set_ext_power
  simp only
  split_ifs <;> rfl

/-- The blend of two 8-bit channels fits in eight bits. -/
theorem spec_blend_channel_lt (o b w : Nat) (ho : o < 256) (hb : b < 256) (hw : w ≤ 256) :
    spec_blend_channel o b w < 256 := by
  unfold spec_blend_channel
  simp only [Nat.shiftRight_eq_div_pow]
  have h1 : o * w ≤ 255 * w := Nat.mul_le_mul_right w (by omega)
  have h2 : b * (256 - w) ≤ 255 * (256 - w) := Nat.mul_le_mul_right (256 - w) (by omega)
  omega


theorem px_zero_8bit (N : Nat) : buf_8bit (px_zero N) := by
  intro i; simp [px_zero, is_8bit]

theorem blend_l_cast (w : Nat) (hw : w ≤ 256) : (((w : Int)) % 65536).toNat = w := by
  omega

theorem blend_r_cast (w : Nat) (hw : w ≤ 256) : ((256 - (w : Int)) % 65536).toNat = 256 - w := by
  omega

/-- The blending loop of the compositor computes the blend rule exactly:
the 8-bit store loses nothing. -/
theorem blend_store_exact (o b : led_rgb) (w : Nat) (hw : w ≤ 256)
    (ho : is_8bit o) (hb : is_8bit b) :
    ({ r := (((o.r * w) >>> 8) + ((b.r * (256 - w)) >>> 8)) % 256
       g := (((o.g * w) >>> 8) + ((b.g * (256 - w)) >>> 8)) % 256
       b := (((o.b * w) >>> 8) + ((b.b * (256 - w)) >>> 8)) % 256 } : led_rgb)
      = spec_blend_pixel o b w := by
  obtain ⟨h1, h2, h3⟩ := ho
  obtain ⟨h4, h5, h6⟩ := hb
  have e1 := spec_blend_channel_lt o.r b.r w h1 h4 hw
  have e2 := spec_blend_channel_lt o.g b.g w h2 h5 hw
  have e3 := spec_blend_channel_lt o.b b.b w h3 h6 hw
  unfold spec_blend_pixel
  unfold spec_blend_channel at *
  rw [Nat.mod_eq_of_lt e1, Nat.mod_eq_of_lt e2, Nat.mod_eq_of_lt e3]


theorem power_frames {N : Nat} (c : Bool) (env : Env) (s : rgb_underglow_state) :
    frames (if c = true then zmk_rgb_set_ext_power env s
      else (s, ([] : List (Effect N)))).2 = [] := by
  cases c <;> simp [set_ext_power_frames]

theorem log_frames {N : Nat} (c : Prop) [Decidable c] (m : LogErr) :
    frames (if c then [Effect.log_err m] else ([] : List (Effect N))) = [] := by
  split_ifs <;> rfl

/-- The three-way loop of the compositor equals the blend rule. -/
theorem blend_loop_eq {N : Nat} (B overlay : PixelBuf N) (w : Nat) (hw : w ≤ 256)
    (hB : buf_8bit B) (ho : buf_8bit overlay) :
    (if (w : Int) = 0 then fun i => B i
      else if (w : Int) ≥ 256 then fun i => overlay i
      else fun i =>
        ({ r := (((overlay i).r * w) >>> 8 + ((B i).r * (256 - w)) >>> 8) % 256
           g := (((overlay i).g * w) >>> 8 + ((B i).g * (256 - w)) >>> 8) % 256
           b := (((overlay i).b * w) >>> 8 + ((B i).b * (256 - w)) >>> 8) % 256 } : led_rgb))
      = spec_compose B overlay w := by
  unfold spec_compose
  by_cases h0 : w = 0
  · simp [h0]
  · by_cases h256 : 256 ≤ w
    · have : (w : Int) ≥ 256 := by omega
      have h0i : ¬ (w : Int) = 0 := by omega
      simp [h0, h256, h0i, this]
    · have : ¬ (w : Int) ≥ 256 := by omega
      have h0i : ¬ (w : Int) = 0 := by omega
      rw [if_neg h0i, if_neg this, if_neg h0, if_neg h256]
      funext i
      exact blend_store_exact (overlay i) (B i) w hw (ho i) (hB i)

/-- The frame written by the statements after `blend` is known, for every
battery charge. -/
theorem compose_frames {N : Nat} (env : Env) (state : rgb_underglow_state)
    (base overlay : PixelBuf N) (w : Nat) (hw : w ≤ 256)
    (hb : buf_8bit base) (ho : buf_8bit overlay) :
    frames (zmk_led_write_pixels_compose env state base overlay (w : Int)).2 =
      [if env.battery < 20 then
         spec_halve (spec_compose (if env.battery < 10 then px_zero N else base) overlay w)
       else spec_compose base overlay w] := by
  have hb2 : buf_8bit (if env.battery < 10 then px_zero N else base) := by
    split_ifs
    · exact px_zero_8bit N
    · exact hb
  unfold zmk_led_write_pixels_compose
  simp only [blend_l_cast w hw, blend_r_cast w hw]
  by_cases hfast : ((w : Int) = 0 ∧ env.battery ≥ 20)
  · rw [if_pos hfast]
    obtain ⟨h0, h20⟩ := hfast
    have h0n : w = 0 := by omega
    have : ¬ env.battery < 20 := by omega
    simp [this, spec_compose, h0n]
  · rw [if_neg hfast]
    simp only [frames_append, frames_cons_update, power_frames, log_frames, List.append_nil]
    by_cases h20 : env.battery < 20
    · simp only [if_pos h20]
      rw [blend_loop_eq _ overlay w hw hb2 ho]
      rfl
    · have h10 : ¬ env.battery < 10 := by omega
      simp only [if_neg h20, if_neg h10]
      rw [blend_loop_eq _ overlay w hw hb ho]


/-! ## Eight-bit channels are preserved -/

theorem HEXRGB_8bit (cfg : Config) (R G B : Nat) : is_8bit (HEXRGB cfg R G B) := by
  unfold is_8bit HEXRGB
  refine ⟨?_, ?_, ?_⟩ <;> exact Nat.mod_lt _ (by decide)

theorem px_set_8bit {N : Nat} (buf : PixelBuf N) (idx : Nat) (c : led_rgb)
    (hbuf : buf_8bit buf) (hc : is_8bit c) : buf_8bit (px_set buf idx c) := by
  intro j
  unfold px_set
  split_ifs
  · exact hc
  · exact hbuf j

theorem foldl_8bit {N : Nat} {α : Type} (f : PixelBuf N → α → PixelBuf N)
    (hf : ∀ sp a, buf_8bit sp → buf_8bit (f sp a)) (l : List α) (init : PixelBuf N)
    (hinit : buf_8bit init) : buf_8bit (l.foldl f init) := by
  induction l generalizing init with
  | nil => exact hinit
  | cons x xs ih => exact ih _ (hf init x hinit)

theorem px_write_8bit {N : Nat} (buf : PixelBuf N) (ws : List (Nat × led_rgb))
    (hbuf : buf_8bit buf) (hws : ∀ w ∈ ws, is_8bit w.2) : buf_8bit (px_write buf ws) := by
  induction ws generalizing buf with
  | nil => exact hbuf
  | cons x xs ih =>
    unfold px_write
    rw [List.foldl_cons]
    exact ih _ (px_set_8bit buf x.1 x.2 hbuf (hws x (List.mem_cons_self _ _)))
      (fun w hw => hws w (List.mem_cons_of_mem _ hw))

theorem custom_layers_8bit {N : Nat} (cfg : Config) (env : Env) (pixels : PixelBuf N)
    (h : buf_8bit pixels) : buf_8bit (valdur_indicate_custom_layers cfg env pixels) := by
  unfold valdur_indicate_custom_layers
  cases cfg.indicators with
  | none => exact h
  | some im =>
    simp only
    unfold valdur_indicate_custom_layers_on
    simp only
    split_ifs
    all_goals first
      | exact h
      | (apply px_write_8bit _ _ h
         simp [yellow, nice_blue, lilac, red, greenish, HEXRGB_8bit])

theorem battery_level_8bit {N : Nat} (cfg : Config) (sp : PixelBuf N) (lvl : Nat)
    (addresses : List Nat) (h : buf_8bit sp) :
    buf_8bit (zmk_led_battery_level cfg sp lvl addresses) := by
  unfold zmk_led_battery_level
  simp only
  apply foldl_8bit _ _ _ _ h
  intro sp a hsp
  split_ifs <;> first
    | exact hsp
    | (apply px_set_8bit _ _ _ hsp; exact HEXRGB_8bit _ _ _ _)

theorem led_fill_8bit {N : Nat} (sp : PixelBuf N) (c : led_rgb) (addresses : List Nat)
    (h : buf_8bit sp) (hc : is_8bit c) : buf_8bit (zmk_led_fill sp c addresses) := by
  unfold zmk_led_fill
  apply foldl_8bit _ _ _ _ h
  intro sp a hsp
  exact px_set_8bit _ _ _ hsp hc


theorem ite_8bit {N : Nat} (c : Prop) [Decidable c] (a b : PixelBuf N)
    (ha : buf_8bit a) (hb : buf_8bit b) : buf_8bit (if c then a else b) := by
  split_ifs
  · exact ha
  · exact hb

theorem generate_status_8bit {N : Nat} (cfg : Config) (im : underglow_indicators)
    (env : Env) (state : rgb_underglow_state) :
    buf_8bit (zmk_led_generate_status cfg im env state : StatusResult N).status_pixels := by
  unfold zmk_led_generate_status
  lift_lets
  extract_lets a1 a2 a3 a4 a5 a6 a7 a8 a9 a10 a11 a12 a13 a14 a15 a16
  have hy := HEXRGB_8bit cfg
  have h2 : buf_8bit a2 := battery_level_8bit _ _ _ _ (px_zero_8bit N)
  have h5 : buf_8bit a5 := by
    show buf_8bit a4.1
    simp only [a4]
    split_ifs
    · exact battery_level_8bit _ _ _ _ h2
    · exact led_fill_8bit _ _ _ h2 (hy _ _ _)
    all_goals exact h2
  have h8 : buf_8bit a8 := ite_8bit _ _ _ (px_set_8bit _ _ _ h5 (hy _ _ _)) h5
  have h9 : buf_8bit a9 := ite_8bit _ _ _ (px_set_8bit _ _ _ h8 (hy _ _ _)) h8
  have h10 : buf_8bit a10 := ite_8bit _ _ _ (px_set_8bit _ _ _ h9 (hy _ _ _)) h9
  have h11 : buf_8bit a11 :=
    foldl_8bit _ (fun sp _ hsp => ite_8bit _ _ _ (px_set_8bit _ _ _ hsp (hy _ _ _)) hsp) _ _ h10
  have h12 : buf_8bit a12 := ite_8bit _ _ _ (px_set_8bit _ _ _ h11 (hy _ _ _)) h11
  have h14 : buf_8bit a14 := by
    apply foldl_8bit _ _ _ _ h12
    intro sp i hsp
    simp only
    split_ifs <;> first | exact hsp | exact px_set_8bit _ _ _ hsp (hy _ _ _)
  show buf_8bit a16
  simp only [a16]
  split_ifs <;> first | exact h14 | exact px_set_8bit _ _ _ h14 (hy _ _ _)

theorem status_blend_bounds (s : Nat) : 0 ≤ status_blend s ∧ status_blend s ≤ 256 := by
  unfold status_blend
  simp only
  split_ifs <;> omega


/-! ## Facts about the overlay stage -/

theorem status_stage_blend_bounds {N : Nat} (cfg : Config) (env : Env)
    (state : rgb_underglow_state) (sp : PixelBuf N) :
    0 ≤ (status_stage cfg env state sp).blend ∧ (status_stage cfg env state sp).blend ≤ 256 := by
  unfold status_stage
  split_ifs
  · cases cfg.indicators with
    | none => simp [zmk_led_generate_status_stub]
    | some im => exact status_blend_bounds _
  · simp

theorem status_stage_8bit {N : Nat} (cfg : Config) (env : Env)
    (state : rgb_underglow_state) (sp : PixelBuf N) (h : buf_8bit sp) :
    buf_8bit (status_stage cfg env state sp).status_pixels := by
  unfold status_stage
  split_ifs
  · cases cfg.indicators with
    | none => exact h
    | some im => exact generate_status_8bit cfg im env state
  · exact h

theorem generate_status_effects {N : Nat} (cfg : Config) (im : underglow_indicators)
    (env : Env) (state : rgb_underglow_state) :
    frames (zmk_led_generate_status cfg im env state : StatusResult N).effects = [] ∧
    rail_calls (zmk_led_generate_status cfg im env state : StatusResult N).effects = [] := by
  unfold zmk_led_generate_status
  simp only
  split_ifs <;> exact ⟨rfl, rfl⟩

theorem status_stage_effects {N : Nat} (cfg : Config) (env : Env)
    (state : rgb_underglow_state) (sp : PixelBuf N) :
    frames (status_stage cfg env state sp).effects = [] ∧
    rail_calls (status_stage cfg env state sp).effects = [] := by
  unfold status_stage
  split_ifs
  · cases cfg.indicators with
    | none => exact ⟨rfl, rfl⟩
    | some im => exact generate_status_effects cfg im env state
  · exact ⟨rfl, rfl⟩

/-- The frame of a full compositor pass is the frame of the statements after
`blend`, run on the painted base and the refreshed overlay. -/
theorem write_pixels_frames {N : Nat} (cfg : Config) (env : Env) (e : Engine N) :
    frames (zmk_led_write_pixels cfg env e).2 =
      frames (zmk_led_write_pixels_compose env e.state
        (valdur_indicate_custom_layers cfg env e.pixels)
        (status_stage cfg env e.state e.status_pixels).status_pixels
        (status_stage cfg env e.state e.status_pixels).blend).2 := by
  unfold zmk_led_write_pixels
  simp only [frames_append, (status_stage_effects cfg env e.state e.status_pixels).1,
    List.nil_append]

/-! ## Facts about the power policy and the state after a pass -/

/-- The rail calls of the power policy, by case. -/
theorem set_ext_power_rail {N : Nat} (env : Env) (state : rgb_underglow_state) :
    rail_calls (zmk_rgb_set_ext_power env state : rgb_underglow_state × List (Effect N)).2 =
      if ((state.is_on || state.status_active)
            && !(state.is_on && !state.status_active && decide (env.battery < 10))) = true
          ∧ ¬ 0 < env.ext_power_get then [RailCall.enable]
      else if ((state.is_on || state.status_active)
            && !(state.is_on && !state.status_active && decide (env.battery < 10))) = false
          ∧ 0 < env.ext_power_get then [RailCall.disable]
      else [] := by
  unfold zmk_rgb_set_ext_power
  cases hon : state.is_on <;> cases hsa : state.status_active <;>
    by_cases hb : env.battery < 10 <;>
    rcases lt_trichotomy env.ext_power_get 0 with hg | hg | hg <;>
    simp [hb, hg, rail_calls_append, not_lt_of_gt, le_of_lt] <;>
    first
      | omega
      | (split_ifs <;> simp [rail_calls_append] <;> omega)

theorem log_rail_calls {N : Nat} (c : Prop) [Decidable c] (m : LogErr) :
    rail_calls (if c then [Effect.log_err m] else ([] : List (Effect N))) = [] := by
  split_ifs <;> rfl

/-- State and rail calls after the statements that follow `blend`. -/
theorem compose_state_rail {N : Nat} (env : Env) (state : rgb_underglow_state)
    (pixels sp : PixelBuf N) (blend : Int) :
    (zmk_led_write_pixels_compose env state pixels sp blend).1.state
        = (if veto_fires env state then { state with is_on := false } else state)
      ∧ rail_calls (zmk_led_write_pixels_compose env state pixels sp blend).2
        = (if veto_fires env state then
            rail_calls (zmk_rgb_set_ext_power env { state with is_on := false } :
              rgb_underglow_state × List (Effect N)).2
          else []) := by
  unfold zmk_led_write_pixels_compose veto_fires
  by_cases hfast : (blend = 0 ∧ env.battery ≥ 20)
  · have : ¬ env.battery < 10 := by omega
    simp [hfast, this]
  · rw [if_neg hfast]
    by_cases h10 : env.battery < 10 <;> by_cases hon : state.is_on = true <;>
      by_cases hsa : state.status_active = false <;> by_cases hg : env.ext_power_get = 0 <;>
      simp [h10, hon, hsa, hg, rail_calls_append, set_ext_power_state, log_rail_calls]

/-- State and rail calls of a full compositor pass. -/
theorem write_pixels_state_rail {N : Nat} (cfg : Config) (env : Env) (e : Engine N) :
    (zmk_led_write_pixels cfg env e).1.state
        = (if veto_fires env e.state then { e.state with is_on := false } else e.state)
      ∧ rail_calls (zmk_led_write_pixels cfg env e).2
        = (if veto_fires env e.state then
            rail_calls (zmk_rgb_set_ext_power env { e.state with is_on := false } :
              rgb_underglow_state × List (Effect N)).2
          else []) := by
  unfold zmk_led_write_pixels
  simp only [rail_calls_append, (status_stage_effects cfg env e.state e.status_pixels).2,
    List.nil_append]
  exact compose_state_rail env e.state _ _ _

/-! ## Facts about the status fields -/

/-- The weight returned by the overlay generator is the envelope. -/
theorem generate_status_blend {N : Nat} (cfg : Config) (im : underglow_indicators)
    (env : Env) (state : rgb_underglow_state) :
    (zmk_led_generate_status cfg im env state : StatusResult N).blend
      = status_blend state.status_animation_step := rfl

/-- A compositor pass leaves the two status fields alone. -/
theorem write_pixels_status_fields {N : Nat} (cfg : Config) (env : Env) (e : Engine N) :
    (zmk_led_write_pixels cfg env e).1.state.status_active = e.state.status_active
      ∧ (zmk_led_write_pixels cfg env e).1.state.status_animation_step
          = e.state.status_animation_step := by
  rw [(write_pixels_state_rail cfg env e).1]
  split_ifs <;> exact ⟨rfl, rfl⟩

/-- The refresh work item leaves the two status fields alone. -/
theorem write_pixels_work_status_fields {N : Nat} (cfg : Config) (env env2 : Env)
    (e : Engine N) :
    (zmk_led_write_pixels_work cfg env env2 e).1.state.status_active = e.state.status_active
      ∧ (zmk_led_write_pixels_work cfg env env2 e).1.state.status_animation_step
          = e.state.status_animation_step := by
  unfold zmk_led_write_pixels_work
  simp only
  split_ifs
  · simp only [set_ext_power_state]
    exact write_pixels_status_fields cfg env e
  · exact write_pixels_status_fields cfg env e

/-- The status fields after a status pulse. -/
theorem status_pulse_fields {N : Nat} (cfg : Config) (env : Env) (e : Engine N) :
    (zmk_rgb_underglow_status cfg env e).1.1.state.status_active = true
      ∧ (zmk_rgb_underglow_status cfg env e).1.1.state.status_animation_step
          = (if e.state.status_active = false then 0
             else if e.state.status_animation_step > 20 then 20
             else e.state.status_animation_step) := by
  unfold zmk_rgb_underglow_status
  simp only [set_ext_power_state]
  rw [(write_pixels_status_fields cfg env _).1, (write_pixels_status_fields cfg env _).2]
  refine ⟨rfl, ?_⟩
  split_ifs <;> rfl

/-- One tick of the status driver on an active overlay below the window end. -/
theorem status_update_active {N : Nat} (env : Env) (e : Engine N)
    (ha : e.state.status_active = true) (hs : e.state.status_animation_step ≤ 400) :
    (zmk_rgb_underglow_status_update env e).1.state.status_animation_step
        = e.state.status_animation_step + 1
      ∧ (zmk_rgb_underglow_status_update env e).1.state.status_active
        = decide (e.state.status_animation_step < 400) := by
  unfold zmk_rgb_underglow_status_update
  have hmod : (e.state.status_animation_step + 1) % 65536 = e.state.status_animation_step + 1 := by
    omega
  simp only [ha, hmod]
  by_cases h : e.state.status_animation_step < 400
  · have : ¬ e.state.status_animation_step + 1 > 10000 / 25 := by omega
    simp [this, h]
  · have : e.state.status_animation_step + 1 > 10000 / 25 := by omega
    simp [this, h]

/-- One step of a status-driver run on an active overlay. -/
theorem status_driver_step {N : Nat} (cfg : Config) (t : Env × Env × Bool) (e : Engine N)
    (ha : e.state.status_active = true) (hs : e.state.status_animation_step ≤ 400) :
    (status_driver_run cfg [t] e).state.status_animation_step
        = e.state.status_animation_step + 1
      ∧ (status_driver_run cfg [t] e).state.status_active
        = decide (e.state.status_animation_step < 400) := by
  obtain ⟨env, env2, work⟩ := t
  have h := status_update_active env e ha hs
  unfold status_driver_run status_driver_run
  cases work
  · exact h
  · simp only [if_true]
    rw [(write_pixels_work_status_fields cfg env env2 _).1,
      (write_pixels_work_status_fields cfg env env2 _).2]
    exact h

theorem status_driver_run_cons {N : Nat} (cfg : Config) (t : Env × Env × Bool)
    (rest : List (Env × Env × Bool)) (e : Engine N) :
    status_driver_run cfg (t :: rest) e
      = status_driver_run cfg rest (status_driver_run cfg [t] e) := by
  obtain ⟨env, env2, work⟩ := t
  simp only [status_driver_run]

/-- While the window lasts, every tick adds one to the step and the overlay
stays active. -/
theorem status_driver_run_within {N : Nat} (cfg : Config) (ticks : List (Env × Env × Bool))
    (e : Engine N) (ha : e.state.status_active = true)
    (hs : e.state.status_animation_step + ticks.length ≤ 400) :
    (status_driver_run cfg ticks e).state.status_animation_step
        = e.state.status_animation_step + ticks.length
      ∧ (status_driver_run cfg ticks e).state.status_active = true := by
  induction ticks generalizing e with
  | nil => exact ⟨rfl, ha⟩
  | cons t rest ih =>
    simp only [List.length_cons] at hs
    have h1 := status_driver_step cfg t e ha (by omega)
    rw [status_driver_run_cons]
    have ha1 : (status_driver_run cfg [t] e).state.status_active = true := by
      rw [h1.2]; exact decide_eq_true (by omega)
    have := ih (status_driver_run cfg [t] e) ha1 (by rw [h1.1]; omega)
    rw [h1.1] at this
    refine ⟨by rw [this.1, List.length_cons]; omega, this.2⟩

/-- The tick that takes the step past the window end clears the overlay. -/
theorem status_driver_run_expire {N : Nat} (cfg : Config)
    (ticks : List (Env × Env × Bool)) (e : Engine N) (ha : e.state.status_active = true)
    (hs : e.state.status_animation_step + ticks.length = 401) (hne : ticks ≠ []) :
    (status_driver_run cfg ticks e).state.status_animation_step = 401
      ∧ (status_driver_run cfg ticks e).state.status_active = false := by
  induction ticks generalizing e with
  | nil => exact absurd rfl hne
  | cons t rest ih =>
    simp only [List.length_cons] at hs
    have h1 := status_driver_step cfg t e ha (by omega)
    rw [status_driver_run_cons]
    cases rest with
    | nil =>
      simp only [List.length_nil] at hs
      rw [show status_driver_run cfg [] (status_driver_run cfg [t] e)
        = status_driver_run cfg [t] e from rfl]
      refine ⟨by rw [h1.1]; omega, ?_⟩
      rw [h1.2]
      exact decide_eq_false (by omega)
    | cons t2 rest2 =>
      simp only [List.length_cons] at hs
      have ha1 : (status_driver_run cfg [t] e).state.status_active = true := by
        rw [h1.2]; exact decide_eq_true (by omega)
      exact ih (status_driver_run cfg [t] e) ha1
        (by rw [h1.1]; simp only [List.length_cons]; omega) (List.cons_ne_nil _ _)

/-! ## Claims -/

/-- C1. Frame composition with battery charge at least 20: for every base
buffer, overlay buffer and blend weight `w` in [0,256] the frame handed to
the transport is the base buffer when `w = 0`, the overlay buffer when
`w ≥ 256`, and otherwise the per-channel blend
`((overlay·w) >> 8) + ((base·(256−w)) >> 8)`; a full pass of
`zmk_led_write_pixels` hands over exactly that frame for the painted base,
the overlay and the weight produced by its overlay stage. -/
theorem frame_composition_blend_rule {N : Nat} (cfg : Config) (env : Env)
    (state : rgb_underglow_state) (base overlay : PixelBuf N) (w : Nat)
    (hbat : 20 ≤ env.battery) (hw : w ≤ 256)
    (hb : buf_8bit base) (ho : buf_8bit overlay) :
    frames (zmk_led_write_pixels_compose env state base overlay (w : Int)).2
        = [spec_compose base overlay w]
      ∧ (w = 0 → spec_compose base overlay w = base)
      ∧ (256 ≤ w → spec_compose base overlay w = overlay)
      ∧ (0 < w → w < 256 → ∀ i : Fin N,
          (spec_compose base overlay w i).r
              = (((overlay i).r * w) >>> 8) + (((base i).r * (256 - w)) >>> 8)
            ∧ (spec_compose base overlay w i).g
              = (((overlay i).g * w) >>> 8) + (((base i).g * (256 - w)) >>> 8)
            ∧ (spec_compose base overlay w i).b
              = (((overlay i).b * w) >>> 8) + (((base i).b * (256 - w)) >>> 8))
      ∧ (∃ w2 : Nat, w2 ≤ 256
          ∧ (status_stage cfg env state overlay).blend = (w2 : Int)
          ∧ frames (zmk_led_write_pixels cfg env
                { state := state, pixels := base, status_pixels := overlay }).2
              = [spec_compose (valdur_indicate_custom_layers cfg env base)
                  (status_stage cfg env state overlay).status_pixels w2]) := by
  have h20 : ¬ env.battery < 20 := by omega
  refine ⟨?_, ?_, ?_, ?_, ?_⟩
  · rw [compose_frames env state base overlay w hw hb ho, if_neg h20]
  · intro h0
    simp [spec_compose, h0]
  · intro h256
    have : w ≠ 0 := by omega
    simp [spec_compose, this, h256]
  · intro h0 h256 i
    have h1 : w ≠ 0 := by omega
    have h2 : ¬ 256 ≤ w := by omega
    simp [spec_compose, h1, h2, spec_blend_pixel, spec_blend_channel]
  · obtain ⟨hlo, hhi⟩ := status_stage_blend_bounds cfg env state overlay
    obtain ⟨w2, hw2⟩ : ∃ w2 : Nat, (status_stage cfg env state overlay).blend = (w2 : Int) :=
      ⟨(status_stage cfg env state overlay).blend.toNat, by omega⟩
    refine ⟨w2, by omega, hw2, ?_⟩
    rw [write_pixels_frames]
    simp only
    rw [hw2, compose_frames env state _ _ _ (by omega)
      (custom_layers_8bit cfg env base hb) (status_stage_8bit cfg env state overlay ho),
      if_neg h20]


/-- Witness for C1: the blend rule at weight 128 on a four-pixel strip at
charge 50. -/
theorem frame_composition_blend_rule_witness :
    (20 ≤ ex_env.battery ∧ (128 : Nat) ≤ 256 ∧ buf_8bit ex_base ∧ buf_8bit ex_overlay)
      ∧ frames (zmk_led_write_pixels_compose ex_env ex_state ex_base ex_overlay
          ((128 : Nat) : Int)).2 = [spec_compose ex_base ex_overlay 128] :=
  ⟨⟨by decide, by decide, by decide, by decide⟩,
    (frame_composition_blend_rule ex_cfg ex_env ex_state ex_base ex_overlay 128
      (by decide) (by decide) (by decide) (by decide)).1⟩

/-- C2, refuted as stated: at weight 128 and charge 50 the compositor pass
on the example strip writes red channel 20 to pixel 2, where the overlay
holds 41 and the base holds 1, whereas `(41 + 1) >> 1 = 21`; the pass is
through the fade-in at step 10, where the envelope is 128. -/
theorem blend_half_weight_counterexample :
    20 ≤ ex_env.battery
      ∧ (status_stage ex_cfg ex_env ex_state ex_overlay).blend = 128
      ∧ ((status_stage ex_cfg ex_env ex_state ex_overlay).status_pixels 2).r = 41
      ∧ (valdur_indicate_custom_layers ex_cfg ex_env ex_base 2).r = 1
      ∧ (frames (zmk_led_write_pixels ex_cfg ex_env
            { state := ex_state, pixels := ex_base, status_pixels := ex_overlay }).2).map
          (fun f => (f 2).r) = [20]
      ∧ (frames (zmk_led_write_pixels ex_cfg ex_env
            { state := ex_state, pixels := ex_base, status_pixels := ex_overlay }).2).map
          (fun f => (f 2).r)
        ≠ [(((status_stage ex_cfg ex_env ex_state ex_overlay).status_pixels 2).r
              + (valdur_indicate_custom_layers ex_cfg ex_env ex_base 2).r) >>> 1] := by
  refine ⟨by decide, by decide, by decide, by decide, by decide, by decide⟩


/-- C2 (amended). Frame composition with blend weight 128 and battery charge
at least 20: every output channel of every pixel equals
`(overlay >> 1) + (base >> 1)`, which is `(overlay + base) >> 1` unless both
channel values are odd, in which case it is one less; a full pass whose
overlay stage returns weight 128 hands over that frame. -/
theorem blend_half_weight {N : Nat} (cfg : Config) (env : Env)
    (state : rgb_underglow_state) (base overlay : PixelBuf N)
    (hbat : 20 ≤ env.battery) (hb : buf_8bit base) (ho : buf_8bit overlay) :
    (∃ f : PixelBuf N,
        frames (zmk_led_write_pixels_compose env state base overlay 128).2 = [f]
        ∧ ∀ i : Fin N,
            (f i).r = ((overlay i).r >>> 1) + ((base i).r >>> 1)
          ∧ (f i).g = ((overlay i).g >>> 1) + ((base i).g >>> 1)
          ∧ (f i).b = ((overlay i).b >>> 1) + ((base i).b >>> 1)
          ∧ (f i).r = (((overlay i).r + (base i).r) >>> 1)
              - (if (overlay i).r % 2 = 1 ∧ (base i).r % 2 = 1 then 1 else 0)
          ∧ (f i).g = (((overlay i).g + (base i).g) >>> 1)
              - (if (overlay i).g % 2 = 1 ∧ (base i).g % 2 = 1 then 1 else 0)
          ∧ (f i).b = (((overlay i).b + (base i).b) >>> 1)
              - (if (overlay i).b % 2 = 1 ∧ (base i).b % 2 = 1 then 1 else 0))
      ∧ ((status_stage cfg env state overlay).blend = 128 →
          ∃ f : PixelBuf N,
            frames (zmk_led_write_pixels cfg env
              { state := state, pixels := base, status_pixels := overlay }).2 = [f]
            ∧ ∀ i : Fin N,
                (f i).r = (((status_stage cfg env state overlay).status_pixels i).r >>> 1)
                    + ((valdur_indicate_custom_layers cfg env base i).r >>> 1)
              ∧ (f i).g = (((status_stage cfg env state overlay).status_pixels i).g >>> 1)
                    + ((valdur_indicate_custom_layers cfg env base i).g >>> 1)
              ∧ (f i).b = (((status_stage cfg env state overlay).status_pixels i).b >>> 1)
                    + ((valdur_indicate_custom_layers cfg env base i).b >>> 1)) := by
  have h20 : ¬ env.battery < 20 := by omega
  have hch : ∀ o b : Nat, spec_blend_channel o b 128 = (o >>> 1) + (b >>> 1)
      ∧ spec_blend_channel o b 128
          = ((o + b) >>> 1) - (if o % 2 = 1 ∧ b % 2 = 1 then 1 else 0) := by
    intro o b
    unfold spec_blend_channel
    simp only [Nat.shiftRight_eq_div_pow]
    split_ifs <;> omega
  have hsc : ∀ (B O : PixelBuf N) (i : Fin N),
      spec_compose B O 128 i = spec_blend_pixel (O i) (B i) 128 := by
    intro B O i
    simp [spec_compose]
  constructor
  · refine ⟨spec_compose base overlay 128, ?_, ?_⟩
    · have := compose_frames env state base overlay 128 (by decide) hb ho
      rw [if_neg h20] at this
      exact this
    · intro i
      rw [hsc]
      simp only [spec_blend_pixel]
      exact ⟨(hch _ _).1, (hch _ _).1, (hch _ _).1, (hch _ _).2, (hch _ _).2, (hch _ _).2⟩
  · intro hblend
    refine ⟨spec_compose (valdur_indicate_custom_layers cfg env base)
      (status_stage cfg env state overlay).status_pixels 128, ?_, ?_⟩
    · rw [write_pixels_frames]
      simp only
      rw [hblend]
      have := compose_frames env state (valdur_indicate_custom_layers cfg env base)
        (status_stage cfg env state overlay).status_pixels 128 (by decide)
        (custom_layers_8bit cfg env base hb) (status_stage_8bit cfg env state overlay ho)
      rw [if_neg h20] at this
      exact this
    · intro i
      rw [hsc]
      simp only [spec_blend_pixel]
      exact ⟨(hch _ _).1, (hch _ _).1, (hch _ _).1⟩

/-- Witness for C2 (amended): weight 128 on the example strip at charge 50. -/
theorem blend_half_weight_witness :
    (20 ≤ ex_env.battery ∧ buf_8bit ex_base ∧ buf_8bit ex_overlay)
      ∧ ∃ f : PixelBuf 4,
        frames (zmk_led_write_pixels_compose ex_env ex_state ex_base ex_overlay 128).2 = [f]
        ∧ ∀ i : Fin 4,
            (f i).r = ((ex_overlay i).r >>> 1) + ((ex_base i).r >>> 1)
          ∧ (f i).g = ((ex_overlay i).g >>> 1) + ((ex_base i).g >>> 1)
          ∧ (f i).b = ((ex_overlay i).b >>> 1) + ((ex_base i).b >>> 1)
          ∧ (f i).r = (((ex_overlay i).r + (ex_base i).r) >>> 1)
              - (if (ex_overlay i).r % 2 = 1 ∧ (ex_base i).r % 2 = 1 then 1 else 0)
          ∧ (f i).g = (((ex_overlay i).g + (ex_base i).g) >>> 1)
              - (if (ex_overlay i).g % 2 = 1 ∧ (ex_base i).g % 2 = 1 then 1 else 0)
          ∧ (f i).b = (((ex_overlay i).b + (ex_base i).b) >>> 1)
              - (if (ex_overlay i).b % 2 = 1 ∧ (ex_base i).b % 2 = 1 then 1 else 0) :=
  ⟨⟨by decide, by decide, by decide⟩,
    (blend_half_weight ex_cfg ex_env ex_state ex_base ex_overlay
      (by decide) (by decide) (by decide)).1⟩


/-- C3, refuted as stated: with lighting on, overlay inactive, charge 5 and
the power rail currently off, a compositor pass leaves `on` true and makes no
power-rail call. -/
theorem battery_veto_counterexample :
    ex_state_idle.is_on = true ∧ ex_state_idle.status_active = false
      ∧ ex_env_low_rail_off.battery = 5 ∧ ex_env_low_rail_off.ext_power_get = 0
      ∧ (zmk_led_write_pixels ex_cfg ex_env_low_rail_off
          { state := ex_state_idle, pixels := ex_base, status_pixels := ex_overlay }).1.state.is_on
          = true
      ∧ rail_calls (zmk_led_write_pixels ex_cfg ex_env_low_rail_off
          { state := ex_state_idle, pixels := ex_base, status_pixels := ex_overlay }).2 = []
      ∧ ¬ ((zmk_led_write_pixels ex_cfg ex_env_low_rail_off
            { state := ex_state_idle, pixels := ex_base, status_pixels := ex_overlay }
            ).1.state.is_on = false
          ∧ (rail_calls (zmk_led_write_pixels ex_cfg ex_env_low_rail_off
            { state := ex_state_idle, pixels := ex_base, status_pixels := ex_overlay }).2).length
            = 1) := by
  refine ⟨by decide, by decide, by decide, by decide, by decide, by decide, by decide⟩

/-- C3 (amended). Battery veto: for every state with `on` true and the overlay
inactive and every charge below 10, if the power rail is currently on, one
compositor pass sets `on` to false and makes exactly one power-rail call, a
disable; a second pass, whatever the collaborators then answer, leaves `on`
unchanged and makes no power-rail call.  If the rail is currently off, the
pass leaves `on` true and makes no power-rail call. -/
theorem battery_veto {N : Nat} (cfg : Config) (env env2 : Env) (e : Engine N)
    (hon : e.state.is_on = true) (hsa : e.state.status_active = false)
    (hbat : env.battery < 10) :
    (0 < env.ext_power_get →
        (zmk_led_write_pixels cfg env e).1.state.is_on = false
        ∧ rail_calls (zmk_led_write_pixels cfg env e).2 = [RailCall.disable]
        ∧ (zmk_led_write_pixels cfg env2 (zmk_led_write_pixels cfg env e).1).1.state.is_on
            = (zmk_led_write_pixels cfg env e).1.state.is_on
        ∧ rail_calls (zmk_led_write_pixels cfg env2 (zmk_led_write_pixels cfg env e).1).2 = [])
      ∧ (env.ext_power_get = 0 →
        (zmk_led_write_pixels cfg env e).1.state.is_on = true
        ∧ rail_calls (zmk_led_write_pixels cfg env e).2 = []) := by
  constructor
  · intro hrail
    have hv : veto_fires env e.state := ⟨hbat, hon, by omega, hsa⟩
    have h1 := write_pixels_state_rail cfg env e
    rw [if_pos hv, if_pos hv] at h1
    obtain ⟨hs, hr⟩ := h1
    have hnv : ¬ veto_fires env2 (zmk_led_write_pixels cfg env e).1.state := by
      rintro ⟨_, h, _, _⟩
      rw [hs] at h
      simp at h
    have h2 := write_pixels_state_rail cfg env2 (zmk_led_write_pixels cfg env e).1
    rw [if_neg hnv, if_neg hnv] at h2
    refine ⟨by rw [hs], ?_, by rw [h2.1], h2.2⟩
    rw [hr, set_ext_power_rail]
    simp [hsa, hrail]
  · intro hrail
    have hv : ¬ veto_fires env e.state := by
      rintro ⟨_, _, h, _⟩
      exact h hrail
    have h1 := write_pixels_state_rail cfg env e
    rw [if_neg hv, if_neg hv] at h1
    exact ⟨by rw [h1.1]; exact hon, h1.2⟩

/-- Witness for C3 (amended): charge 5, rail on, on the example strip. -/
theorem battery_veto_witness :
    (ex_state_idle.is_on = true ∧ ex_state_idle.status_active = false
        ∧ ex_env_low.battery < 10 ∧ 0 < ex_env_low.ext_power_get)
      ∧ (zmk_led_write_pixels ex_cfg ex_env_low
          { state := ex_state_idle, pixels := ex_base, status_pixels := ex_overlay }).1.state.is_on
          = false
      ∧ rail_calls (zmk_led_write_pixels ex_cfg ex_env_low
          { state := ex_state_idle, pixels := ex_base, status_pixels := ex_overlay }).2
          = [RailCall.disable] :=
  ⟨⟨by decide, by decide, by decide, by decide⟩,
    ((battery_veto ex_cfg ex_env_low ex_env_low
        { state := ex_state_idle, pixels := ex_base, status_pixels := ex_overlay }
        (by decide) (by decide) (by decide)).1 (by decide)).1,
    ((battery_veto ex_cfg ex_env_low ex_env_low
        { state := ex_state_idle, pixels := ex_base, status_pixels := ex_overlay }
        (by decide) (by decide) (by decide)).1 (by decide)).2.1⟩


/-- Below charge 10 the statements after `blend` never read the base buffer. -/
theorem compose_low_battery {N : Nat} (env : Env) (state : rgb_underglow_state)
    (base overlay : PixelBuf N) (w : Int) (hbat : env.battery < 10) :
    frames (zmk_led_write_pixels_compose env state base overlay w).2
      = frames (zmk_led_write_pixels_compose env state (px_zero N) overlay w).2 := by
  have hfast : ∀ b : Int, ¬ (b = 0 ∧ env.battery ≥ 20) := fun b h => by omega
  unfold zmk_led_write_pixels_compose
  simp only [if_neg (hfast w), if_pos hbat]

/-- C4. Low-battery blackout: when the charge is below 10 the frame handed to
the transport does not depend on the base buffer (two passes that differ
only in the base buffer hand over equal frames, for the statements after
`blend` at every weight and for the full pass), and with blend weight 0
every output pixel is (0,0,0). -/
theorem low_battery_blackout {N : Nat} (cfg : Config) (env : Env)
    (state : rgb_underglow_state) (base1 base2 overlay : PixelBuf N) (w : Int)
    (hbat : env.battery < 10) :
    frames (zmk_led_write_pixels_compose env state base1 overlay w).2
        = frames (zmk_led_write_pixels_compose env state base2 overlay w).2
      ∧ frames (zmk_led_write_pixels cfg env
            { state := state, pixels := base1, status_pixels := overlay }).2
        = frames (zmk_led_write_pixels cfg env
            { state := state, pixels := base2, status_pixels := overlay }).2
      ∧ frames (zmk_led_write_pixels_compose env state base1 overlay 0).2
        = [fun _ => { r := 0, g := 0, b := 0 }]
      ∧ ((status_stage cfg env state overlay).blend = 0 →
          frames (zmk_led_write_pixels cfg env
            { state := state, pixels := base1, status_pixels := overlay }).2
          = [fun _ => { r := 0, g := 0, b := 0 }]) := by
  have hzero : ∀ sp : PixelBuf N,
      frames (zmk_led_write_pixels_compose env state (px_zero N) sp 0).2
        = [fun _ => { r := 0, g := 0, b := 0 }] := by
    intro sp
    have h20 : env.battery < 20 := by omega
    have h20n : ¬ env.battery ≥ 20 := by omega
    unfold zmk_led_write_pixels_compose
    simp [h20n, hbat, h20, frames_append, power_frames, log_frames, px_zero]
    split_ifs <;> simp [set_ext_power_frames]
  refine ⟨?_, ?_, ?_, ?_⟩
  · rw [compose_low_battery env state base1 overlay w hbat,
      compose_low_battery env state base2 overlay w hbat]
  · rw [write_pixels_frames, write_pixels_frames]
    simp only
    rw [compose_low_battery env state _ _ _ hbat]
    exact (compose_low_battery env state _ _ _ hbat).symm
  · rw [compose_low_battery env state base1 overlay 0 hbat]
    exact hzero overlay
  · intro h0
    rw [write_pixels_frames]
    simp only
    rw [h0, compose_low_battery env state _ _ _ hbat]
    exact hzero _

/-- Witness for C4: charge 5 on the example strip with two base buffers. -/
theorem low_battery_blackout_witness :
    ex_env_low.battery < 10
      ∧ frames (zmk_led_write_pixels ex_cfg ex_env_low
            { state := ex_state, pixels := ex_base, status_pixels := ex_overlay }).2
        = frames (zmk_led_write_pixels ex_cfg ex_env_low
            { state := ex_state, pixels := ex_base2, status_pixels := ex_overlay }).2 :=
  ⟨by decide,
    (low_battery_blackout ex_cfg ex_env_low ex_state ex_base ex_base2 ex_overlay 128
      (by decide)).2.1⟩

/-- C5. Low-battery dimming: for every base, overlay and blend weight, when
the charge is below 20 every channel of every pixel of the frame handed to
the transport is the blended channel value shifted right by one bit (the
blend being taken over the base contribution, which is black below charge
10); when the charge is at least 20 the frame is the blended value,
unshifted.  The same holds for a full pass with the weight of its overlay
stage. -/
theorem low_battery_dimming {N : Nat} (cfg : Config) (env : Env)
    (state : rgb_underglow_state) (base overlay : PixelBuf N) (w : Nat)
    (hw : w ≤ 256) (hb : buf_8bit base) (ho : buf_8bit overlay) :
    (env.battery < 20 → ∃ f : PixelBuf N,
        frames (zmk_led_write_pixels_compose env state base overlay (w : Int)).2 = [f]
        ∧ ∀ i : Fin N,
            (f i).r = (spec_compose (if env.battery < 10 then px_zero N else base)
                        overlay w i).r >>> 1
          ∧ (f i).g = (spec_compose (if env.battery < 10 then px_zero N else base)
                        overlay w i).g >>> 1
          ∧ (f i).b = (spec_compose (if env.battery < 10 then px_zero N else base)
                        overlay w i).b >>> 1)
      ∧ (20 ≤ env.battery →
          frames (zmk_led_write_pixels_compose env state base overlay (w : Int)).2
            = [spec_compose base overlay w])
      ∧ (∃ w2 : Nat, w2 ≤ 256 ∧ (status_stage cfg env state overlay).blend = (w2 : Int)
          ∧ (env.battery < 20 → ∃ f : PixelBuf N,
              frames (zmk_led_write_pixels cfg env
                { state := state, pixels := base, status_pixels := overlay }).2 = [f]
              ∧ ∀ i : Fin N,
                  (f i).r = (spec_compose
                      (if env.battery < 10 then px_zero N
                        else valdur_indicate_custom_layers cfg env base)
                      (status_stage cfg env state overlay).status_pixels w2 i).r >>> 1
                ∧ (f i).g = (spec_compose
                      (if env.battery < 10 then px_zero N
                        else valdur_indicate_custom_layers cfg env base)
                      (status_stage cfg env state overlay).status_pixels w2 i).g >>> 1
                ∧ (f i).b = (spec_compose
                      (if env.battery < 10 then px_zero N
                        else valdur_indicate_custom_layers cfg env base)
                      (status_stage cfg env state overlay).status_pixels w2 i).b >>> 1)
          ∧ (20 ≤ env.battery →
              frames (zmk_led_write_pixels cfg env
                { state := state, pixels := base, status_pixels := overlay }).2
              = [spec_compose (valdur_indicate_custom_layers cfg env base)
                  (status_stage cfg env state overlay).status_pixels w2])) := by
  refine ⟨?_, ?_, ?_⟩
  · intro h20
    refine ⟨spec_halve (spec_compose (if env.battery < 10 then px_zero N else base) overlay w),
      ?_, fun i => ⟨rfl, rfl, rfl⟩⟩
    rw [compose_frames env state base overlay w hw hb ho, if_pos h20]
  · intro h20
    rw [compose_frames env state base overlay w hw hb ho, if_neg (by omega)]
  · obtain ⟨hlo, hhi⟩ := status_stage_blend_bounds cfg env state overlay
    obtain ⟨w2, hw2⟩ : ∃ w2 : Nat, (status_stage cfg env state overlay).blend = (w2 : Int) :=
      ⟨(status_stage cfg env state overlay).blend.toNat, by omega⟩
    have hfr := compose_frames env state (valdur_indicate_custom_layers cfg env base)
      (status_stage cfg env state overlay).status_pixels w2 (by omega)
      (custom_layers_8bit cfg env base hb) (status_stage_8bit cfg env state overlay ho)
    refine ⟨w2, by omega, hw2, ?_, ?_⟩
    · intro h20
      refine ⟨spec_halve (spec_compose
          (if env.battery < 10 then px_zero N else valdur_indicate_custom_layers cfg env base)
          (status_stage cfg env state overlay).status_pixels w2),
        ?_, fun i => ⟨rfl, rfl, rfl⟩⟩
      rw [write_pixels_frames]
      simp only
      rw [hw2, hfr, if_pos h20]
    · intro h20
      rw [write_pixels_frames]
      simp only
      rw [hw2, hfr, if_neg (by omega)]

/-- Witness for C5: weight 128 at charge 5 on the example strip. -/
theorem low_battery_dimming_witness :
    ((128 : Nat) ≤ 256 ∧ buf_8bit ex_base ∧ buf_8bit ex_overlay ∧ ex_env_low.battery < 20)
      ∧ ∃ f : PixelBuf 4,
        frames (zmk_led_write_pixels_compose ex_env_low ex_state ex_base ex_overlay
          ((128 : Nat) : Int)).2 = [f]
        ∧ ∀ i : Fin 4,
            (f i).r = (spec_compose (if ex_env_low.battery < 10 then px_zero 4 else ex_base)
                        ex_overlay 128 i).r >>> 1
          ∧ (f i).g = (spec_compose (if ex_env_low.battery < 10 then px_zero 4 else ex_base)
                        ex_overlay 128 i).g >>> 1
          ∧ (f i).b = (spec_compose (if ex_env_low.battery < 10 then px_zero 4 else ex_base)
                        ex_overlay 128 i).b >>> 1 :=
  ⟨⟨by decide, by decide, by decide, by decide⟩,
    (low_battery_dimming ex_cfg ex_env_low ex_state ex_base ex_overlay 128
      (by decide) (by decide) (by decide)).1 (by decide)⟩

/-- C6. Power policy: with `desired = (on || statusActive) && !(on &&
!statusActive && charge < 10)` and the rail counted as on when
`ext_power_get` is positive, `zmk_rgb_set_ext_power` enables the rail exactly
when `desired` holds and the rail is off, disables it exactly when `desired`
fails and the rail is on, makes no rail call when `desired` agrees with the
rail, never makes more than one call, and returns the engine state unchanged
whatever the rail calls return. -/
theorem power_policy_edge_triggered {N : Nat} (env : Env) (state : rgb_underglow_state) :
    (rail_calls (zmk_rgb_set_ext_power env state : rgb_underglow_state × List (Effect N)).2
          = [RailCall.enable]
        ↔ (((state.is_on || state.status_active)
              && !(state.is_on && !state.status_active && decide (env.battery < 10))) = true
            ∧ ¬ 0 < env.ext_power_get))
      ∧ (rail_calls (zmk_rgb_set_ext_power env state : rgb_underglow_state × List (Effect N)).2
          = [RailCall.disable]
        ↔ (((state.is_on || state.status_active)
              && !(state.is_on && !state.status_active && decide (env.battery < 10))) = false
            ∧ 0 < env.ext_power_get))
      ∧ (rail_calls (zmk_rgb_set_ext_power env state : rgb_underglow_state × List (Effect N)).2
          = []
        ↔ ((((state.is_on || state.status_active)
              && !(state.is_on && !state.status_active && decide (env.battery < 10))) = true
            ↔ 0 < env.ext_power_get)))
      ∧ (rail_calls (zmk_rgb_set_ext_power env state :
            rgb_underglow_state × List (Effect N)).2).length ≤ 1
      ∧ (zmk_rgb_set_ext_power env state : rgb_underglow_state × List (Effect N)).1 = state := by
  rw [set_ext_power_rail, set_ext_power_state]
  generalize ((state.is_on || state.status_active)
    && !(state.is_on && !state.status_active && decide (env.battery < 10))) = desired
  cases desired <;> by_cases hg : 0 < env.ext_power_get <;> simp [hg]


/-- C7. Blend envelope at the 25 ms tick: for every `statusStep` in [0,400]
the weight returned by `zmk_led_generate_status` is `statusStep*256/20` when
`statusStep < 20`, 256 when `20 ≤ statusStep ≤ 320`, and
`256 - ((statusStep-320)*256)/80` when `320 < statusStep ≤ 400`; hence 0 at
step 0, 256 throughout the hold and 0 at step 400. -/
theorem blend_envelope {N : Nat} (cfg : Config) (im : underglow_indicators) (env : Env)
    (state : rgb_underglow_state) (h : state.status_animation_step ≤ 400) :
    (zmk_led_generate_status cfg im env state : StatusResult N).blend
        = (if state.status_animation_step < 20 then
            (((state.status_animation_step * 256) / 20 : Nat) : Int)
          else if state.status_animation_step ≤ 320 then 256
          else 256 - ((((state.status_animation_step - 320) * 256) / 80 : Nat) : Int))
      ∧ (state.status_animation_step = 0 →
          (zmk_led_generate_status cfg im env state : StatusResult N).blend = 0)
      ∧ (20 ≤ state.status_animation_step → state.status_animation_step ≤ 320 →
          (zmk_led_generate_status cfg im env state : StatusResult N).blend = 256)
      ∧ (state.status_animation_step = 400 →
          (zmk_led_generate_status cfg im env state : StatusResult N).blend = 0) := by
  rw [generate_status_blend]
  generalize state.status_animation_step = s at h ⊢
  have key : status_blend s
      = (if s < 20 then (((s * 256) / 20 : Nat) : Int)
         else if s ≤ 320 then 256
         else 256 - ((((s - 320) * 256) / 80 : Nat) : Int)) := by
    unfold status_blend to_int16
    simp only [Nat.reduceDiv]
    obtain ⟨q1, hq1⟩ : ∃ q : Nat, q = s * 256 / 20 := ⟨_, rfl⟩
    obtain ⟨q2, hq2⟩ : ∃ q : Nat, q = (s - 320) * 256 / 80 := ⟨_, rfl⟩
    have hb1 : s < 20 → q1 ≤ 243 := by omega
    have hb2 : q2 ≤ 256 := by omega
    rw [← hq1, ← hq2]
    clear hq1 hq2
    split_ifs <;> omega
  refine ⟨key, ?_, ?_, ?_⟩
  · intro h0
    subst h0
    decide
  · intro h1 h2
    rw [key]
    split_ifs <;> omega
  · intro h0
    subst h0
    decide

/-- Witness for C7: the envelope at step 10 (weight 128). -/
theorem blend_envelope_witness :
    ex_state.status_animation_step ≤ 400
      ∧ (zmk_led_generate_status ex_cfg ex_indicators ex_env ex_state : StatusResult 4).blend
        = (if ex_state.status_animation_step < 20 then
            (((ex_state.status_animation_step * 256) / 20 : Nat) : Int)
          else if ex_state.status_animation_step ≤ 320 then 256
          else 256 - ((((ex_state.status_animation_step - 320) * 256) / 80 : Nat) : Int)) :=
  ⟨by decide, (blend_envelope ex_cfg ex_indicators ex_env ex_state (by decide)).1⟩

/-- C8. For every value of `statusStep` and every collaborator input the
blend weight returned by `zmk_led_generate_status` lies in [0,256]; so does
the weight a compositor pass works with, in either build. -/
theorem blend_weight_range {N : Nat} (cfg : Config) (im : underglow_indicators) (env : Env)
    (state : rgb_underglow_state) (sp : PixelBuf N) :
    0 ≤ (zmk_led_generate_status cfg im env state : StatusResult N).blend
      ∧ (zmk_led_generate_status cfg im env state : StatusResult N).blend ≤ 256
      ∧ 0 ≤ (status_stage cfg env state sp).blend
      ∧ (status_stage cfg env state sp).blend ≤ 256 := by
  rw [generate_status_blend]
  exact ⟨(status_blend_bounds _).1, (status_blend_bounds _).2,
    (status_stage_blend_bounds cfg env state sp).1,
    (status_stage_blend_bounds cfg env state sp).2⟩

/-- C9. Status pulse: after `zmk_rgb_underglow_status`, from every prior
state, `statusActive` is true and `statusStep ≤ 20`; `statusStep` is 0 if the
overlay was inactive, unchanged if it was active with `statusStep ≤ 20`, and
20 if it was active with `statusStep > 20`; a pulse issued during hold or
fade-out (active, `statusStep ≥ 20`) leaves the envelope at full weight
256. -/
theorem status_pulse_restart {N : Nat} (cfg : Config) (env : Env) (e : Engine N) :
    (zmk_rgb_underglow_status cfg env e).1.1.state.status_active = true
      ∧ (zmk_rgb_underglow_status cfg env e).1.1.state.status_animation_step ≤ 20
      ∧ (e.state.status_active = false →
          (zmk_rgb_underglow_status cfg env e).1.1.state.status_animation_step = 0)
      ∧ (e.state.status_active = true → e.state.status_animation_step ≤ 20 →
          (zmk_rgb_underglow_status cfg env e).1.1.state.status_animation_step
            = e.state.status_animation_step)
      ∧ (e.state.status_active = true → e.state.status_animation_step > 20 →
          (zmk_rgb_underglow_status cfg env e).1.1.state.status_animation_step = 20)
      ∧ (e.state.status_active = true → e.state.status_animation_step ≥ 20 →
          ∀ (im : underglow_indicators) (env2 : Env),
            (zmk_led_generate_status cfg im env2
              (zmk_rgb_underglow_status cfg env e).1.1.state : StatusResult N).blend = 256) := by
  obtain ⟨ha, hs⟩ := status_pulse_fields cfg env e
  refine ⟨ha, ?_, ?_, ?_, ?_, ?_⟩
  · rw [hs]; split_ifs <;> omega
  · intro h; rw [hs, if_pos h]
  · intro h1 h2
    rw [hs, if_neg (by simp [h1]), if_neg (by omega)]
  · intro h1 h2
    rw [hs, if_neg (by simp [h1]), if_pos h2]
  · intro h1 h2 im env2
    have h20 : (zmk_rgb_underglow_status cfg env e).1.1.state.status_animation_step = 20 := by
      rw [hs, if_neg (by simp [h1])]
      split_ifs <;> omega
    rw [generate_status_blend, h20]
    decide

/-- C10. Status driver: a tick while `statusActive` is false leaves the
engine unchanged and has no effect; starting from an inactive overlay, after
one status pulse and no further pulses, every run of at most 400 ticks (each
optionally followed by the queued refresh) ends with `statusStep` equal to
the number of ticks and `statusActive` still true, and every run of 401
ticks ends with `statusStep = 401` and `statusActive` false. -/
theorem status_driver_window {N : Nat} (cfg : Config) (env env0 : Env) (e : Engine N)
    (ticks : List (Env × Env × Bool)) (hinactive : e.state.status_active = false) :
    zmk_rgb_underglow_status_update env e = (e, [])
      ∧ (ticks.length ≤ 400 →
          (status_driver_run cfg ticks
              (zmk_rgb_underglow_status cfg env0 e).1.1).state.status_animation_step
            = ticks.length
          ∧ (status_driver_run cfg ticks
              (zmk_rgb_underglow_status cfg env0 e).1.1).state.status_active = true)
      ∧ (ticks.length = 401 →
          (status_driver_run cfg ticks
              (zmk_rgb_underglow_status cfg env0 e).1.1).state.status_animation_step = 401
          ∧ (status_driver_run cfg ticks
              (zmk_rgb_underglow_status cfg env0 e).1.1).state.status_active = false) := by
  obtain ⟨ha, hs⟩ := status_pulse_fields cfg env0 e
  rw [if_pos hinactive] at hs
  refine ⟨?_, ?_, ?_⟩
  · unfold zmk_rgb_underglow_status_update
    rw [if_pos hinactive]
  · intro hlen
    have := status_driver_run_within cfg ticks _ ha (by rw [hs]; omega)
    rw [hs] at this
    exact ⟨by rw [this.1]; omega, this.2⟩
  · intro hlen
    have hne : ticks ≠ [] := by
      intro h0
      rw [h0] at hlen
      simp at hlen
    exact status_driver_run_expire cfg ticks _ ha (by rw [hs]; omega) hne

/-- Witness for C10: three ticks after a pulse on the example strip. -/
theorem status_driver_window_witness :
    ex_state_idle.status_active = false
      ∧ (status_driver_run ex_cfg
            [(ex_env, ex_env, true), (ex_env, ex_env, false), (ex_env_low, ex_env, true)]
            (zmk_rgb_underglow_status ex_cfg ex_env
              { state := ex_state_idle, pixels := ex_base, status_pixels := ex_overlay }).1.1
          ).state.status_animation_step = 3 :=
  ⟨by decide,
    ((status_driver_window ex_cfg ex_env ex_env
        { state := ex_state_idle, pixels := ex_base, status_pixels := ex_overlay }
        [(ex_env, ex_env, true), (ex_env, ex_env, false), (ex_env_low, ex_env, true)]
        (by decide)).2.1 (by decide)).1⟩


/-! ## Facts about the colour model and the effects -/

/-- With brightness 0 the sector algorithm gives black in every sector. -/
theorem hsb_to_rgb_black (h s : Nat) : hsb_to_rgb { h := h, s := s, b := 0 } = ⟨0, 0, 0⟩ := by
  unfold hsb_to_rgb
  simp only [Nat.cast_zero, zero_div, zero_mul]
  split <;> simp [float_to_uint8]

/-- Brightness 0 stays 0 under `hsb_scale_zero_max`. -/
theorem hsb_scale_zero_max_zero (cfg : Config) (h s : Nat) :
    hsb_scale_zero_max cfg { h := h, s := s, b := 0 } = { h := h, s := s, b := 0 } := by
  simp [hsb_scale_zero_max]

/-- The brightness computed by `hsb_scale_min_max`, in natural numbers, when
the configured floor is not above the ceiling. -/
theorem hsb_scale_min_max_b (cfg : Config) (hsb : zmk_led_hsb)
    (hmin : cfg.BRT_MIN ≤ cfg.BRT_MAX) (hmax : cfg.BRT_MAX ≤ 100) (hb : hsb.b ≤ 100) :
    (hsb_scale_min_max cfg hsb).b = cfg.BRT_MIN + (cfg.BRT_MAX - cfg.BRT_MIN) * hsb.b / 100 := by
  unfold hsb_scale_min_max BRT_MAX
  simp only
  have hcast : ((cfg.BRT_MAX : Int) - (cfg.BRT_MIN : Int)) * (hsb.b : Int)
      = (((cfg.BRT_MAX - cfg.BRT_MIN) * hsb.b : Nat) : Int) := by
    push_cast [Nat.cast_sub hmin]
    ring
  rw [hcast, Int.tdiv_eq_ediv (Int.natCast_nonneg _) (by decide)]
  have hm : (cfg.BRT_MAX - cfg.BRT_MIN) * hsb.b ≤ (cfg.BRT_MAX - cfg.BRT_MIN) * 100 :=
    Nat.mul_le_mul_left _ hb
  generalize (cfg.BRT_MAX - cfg.BRT_MIN) * hsb.b = m at hm ⊢
  omega

/-- One breathe tick on a phase within the period, in natural numbers. -/
theorem breathe_step (cfg : Config) {N : Nat} (e : Engine N)
    (hstep : e.state.animation_step ≤ 2400) (hspeed : e.state.animation_speed ≤ 255) :
    (zmk_rgb_underglow_effect_breathe cfg e).state
      = { e.state with
          animation_step :=
            if e.state.animation_step + 10 * e.state.animation_speed ≤ 2400 then
              e.state.animation_step + 10 * e.state.animation_speed
            else 0 } := by
  unfold zmk_rgb_underglow_effect_breathe
  have hmod : (e.state.animation_step + e.state.animation_speed * 10) % 65536
      = e.state.animation_step + 10 * e.state.animation_speed := by omega
  simp only [hmod]
  by_cases h : e.state.animation_step + 10 * e.state.animation_speed ≤ 2400
  · rw [if_pos h, if_neg (by omega)]
  · rw [if_neg h, if_pos (by omega)]

/-- At speed 1 the first 240 breathe ticks from phase 0 climb by 10 each. -/
theorem breathe_iterate_climb (cfg : Config) {N : Nat} (e : Engine N)
    (hspeed : e.state.animation_speed = 1) (hstep : e.state.animation_step = 0)
    (k : Nat) (hk : k ≤ 240) :
    (Nat.iterate (zmk_rgb_underglow_effect_breathe cfg) k e).state.animation_step = 10 * k
      ∧ (Nat.iterate (zmk_rgb_underglow_effect_breathe cfg) k e).state.animation_speed = 1 := by
  induction k with
  | zero => exact ⟨by simpa using hstep, by simpa using hspeed⟩
  | succ n ih =>
    obtain ⟨h1, h2⟩ := ih (by omega)
    rw [Function.iterate_succ_apply']
    rw [breathe_step cfg _ (by omega) (by omega)]
    simp only [h1, h2]
    refine ⟨?_, trivial⟩
    rw [if_pos (by omega)]
    omega

/-! ## Claims on the colour model, the effects and effect selection -/

/-- C11, refuted as stated: at speed 1 and from phase 0, after 240 breathe
ticks the phase is 2400, not 0. -/
theorem breathe_period_counterexample :
    ex_engine_breathe.state.animation_speed = 1
      ∧ ex_engine_breathe.state.animation_step = 0
      ∧ (Nat.iterate (zmk_rgb_underglow_effect_breathe ex_cfg) 240
          ex_engine_breathe).state.animation_step = 2400
      ∧ (Nat.iterate (zmk_rgb_underglow_effect_breathe ex_cfg) 240
          ex_engine_breathe).state.animation_step ≠ 0 := by
  have h := (breathe_iterate_climb ex_cfg ex_engine_breathe (by decide) (by decide) 240
    (by decide)).1
  refine ⟨by decide, by decide, h, ?_⟩
  rw [h]
  decide

/-- C11 (amended). Breathe period: with speed 1 and starting from phase 0,
repeated application of the breathe effect returns the phase to 0 for the
first time after exactly 241 ticks: after `k` ticks, `1 ≤ k ≤ 240`, the phase
is `10·k` (2400 after 240 ticks), and the 241st tick wraps it to 0. -/
theorem breathe_period (cfg : Config) {N : Nat} (e : Engine N)
    (hspeed : e.state.animation_speed = 1) (hstep : e.state.animation_step = 0) :
    (∀ k : Nat, 1 ≤ k → k ≤ 240 →
        (Nat.iterate (zmk_rgb_underglow_effect_breathe cfg) k e).state.animation_step = 10 * k
        ∧ (Nat.iterate (zmk_rgb_underglow_effect_breathe cfg) k e).state.animation_step ≠ 0)
      ∧ (Nat.iterate (zmk_rgb_underglow_effect_breathe cfg) 241 e).state.animation_step = 0 := by
  constructor
  · intro k h1 h240
    have h := (breathe_iterate_climb cfg e hspeed hstep k h240).1
    exact ⟨h, by rw [h]; omega⟩
  · obtain ⟨h1, h2⟩ := breathe_iterate_climb cfg e hspeed hstep 240 (by decide)
    rw [Function.iterate_succ_apply']
    rw [breathe_step cfg _ (by omega) (by omega)]
    simp only [h1, h2]
    decide

/-- Witness for C11 (amended): the example engine with breathe at speed 1. -/
theorem breathe_period_witness :
    (ex_engine_breathe.state.animation_speed = 1 ∧ ex_engine_breathe.state.animation_step = 0)
      ∧ (Nat.iterate (zmk_rgb_underglow_effect_breathe ex_cfg) 241
          ex_engine_breathe).state.animation_step = 0 :=
  ⟨⟨by decide, by decide⟩, (breathe_period ex_cfg ex_engine_breathe (by decide) (by decide)).2⟩

/-- C12. Breathe brightness: for every phase in [0,2400] the brightness the
breathe effect uses is `|phaseStep − 1200| / 12`, which lies in [0,100], is
100 at phase 0 and at phase 2400 and 0 at phase 1200; every pixel gets the
colour `hsb_to_rgb (hsb_scale_zero_max {hue, sat, that brightness})`. -/
theorem breathe_brightness (cfg : Config) {N : Nat} (e : Engine N) (i : Fin N)
    (hstep : e.state.animation_step ≤ 2400) :
    (zmk_rgb_underglow_effect_breathe cfg e).pixels i
        = hsb_to_rgb (hsb_scale_zero_max cfg
            { h := e.state.color.h
              s := e.state.color.s
              b := Int.natAbs ((e.state.animation_step : Int) - 1200) / 12 })
      ∧ Int.natAbs ((e.state.animation_step : Int) - 1200) / 12 ≤ 100
      ∧ (e.state.animation_step = 0 →
          Int.natAbs ((e.state.animation_step : Int) - 1200) / 12 = 100)
      ∧ (e.state.animation_step = 2400 →
          Int.natAbs ((e.state.animation_step : Int) - 1200) / 12 = 100)
      ∧ (e.state.animation_step = 1200 →
          Int.natAbs ((e.state.animation_step : Int) - 1200) / 12 = 0) := by
  have hb : Int.natAbs ((e.state.animation_step : Int) - 1200) / 12 ≤ 100 := by omega
  refine ⟨?_, hb, ?_, ?_, ?_⟩
  · unfold zmk_rgb_underglow_effect_breathe
    simp only
    rw [Nat.mod_eq_of_lt (by omega)]
  · intro h; rw [h]; decide
  · intro h; rw [h]; decide
  · intro h; rw [h]; decide

/-- Witness for C12: the example engine at phase 0. -/
theorem breathe_brightness_witness :
    ex_engine_breathe.state.animation_step ≤ 2400
      ∧ Int.natAbs ((ex_engine_breathe.state.animation_step : Int) - 1200) / 12 ≤ 100 :=
  ⟨by decide, (breathe_brightness ex_cfg ex_engine_breathe 0 (by decide)).2.1⟩

/-- C13. Breathe phase advance: for every phase at most 2400 and speed in
[1,5], one breathe tick sets the phase to `phaseStep + 10·speed` if that is
at most 2400 and to 0 otherwise, so the phase stays at most 2400; no other
field of the state changes. -/
theorem breathe_phase_advance (cfg : Config) {N : Nat} (e : Engine N)
    (hstep : e.state.animation_step ≤ 2400)
    (hs1 : 1 ≤ e.state.animation_speed) (hs5 : e.state.animation_speed ≤ 5) :
    (zmk_rgb_underglow_effect_breathe cfg e).state.animation_step
        = (if e.state.animation_step + 10 * e.state.animation_speed ≤ 2400 then
            e.state.animation_step + 10 * e.state.animation_speed
          else 0)
      ∧ (zmk_rgb_underglow_effect_breathe cfg e).state.animation_step ≤ 2400
      ∧ (zmk_rgb_underglow_effect_breathe cfg e).state
        = { e.state with
            animation_step := (zmk_rgb_underglow_effect_breathe cfg e).state.animation_step } := by
  rw [breathe_step cfg e hstep (by omega)]
  refine ⟨rfl, ?_, rfl⟩
  simp only
  split_ifs <;> omega

/-- Witness for C13: the example engine with breathe at speed 1. -/
theorem breathe_phase_advance_witness :
    (ex_engine_breathe.state.animation_step ≤ 2400
        ∧ 1 ≤ ex_engine_breathe.state.animation_speed
        ∧ ex_engine_breathe.state.animation_speed ≤ 5)
      ∧ (zmk_rgb_underglow_effect_breathe ex_cfg ex_engine_breathe).state.animation_step ≤ 2400 :=
  ⟨⟨by decide, by decide, by decide⟩,
    (breathe_phase_advance ex_cfg ex_engine_breathe (by decide) (by decide) (by decide)).2.1⟩

/-- C14. Breathe reaches true black: at phase 1200, for every stored hue and
saturation and every configured `BRT_MAX`, the breathe effect fills every
pixel of the base buffer with (0,0,0); and
`hsb_to_rgb (hsb_scale_zero_max {h, s, 0}) = (0,0,0)` for every `h`, `s`. -/
theorem breathe_true_black (cfg : Config) {N : Nat} (e : Engine N)
    (hstep : e.state.animation_step = 1200) :
    (∀ i : Fin N, (zmk_rgb_underglow_effect_breathe cfg e).pixels i = ⟨0, 0, 0⟩)
      ∧ (∀ h s : Nat,
          hsb_to_rgb (hsb_scale_zero_max cfg { h := h, s := s, b := 0 }) = ⟨0, 0, 0⟩) := by
  have hz : ∀ h s : Nat,
      hsb_to_rgb (hsb_scale_zero_max cfg { h := h, s := s, b := 0 }) = ⟨0, 0, 0⟩ := by
    intro h s
    rw [hsb_scale_zero_max_zero, hsb_to_rgb_black]
  refine ⟨?_, hz⟩
  intro i
  unfold zmk_rgb_underglow_effect_breathe
  simp only [hstep]
  exact hz _ _

/-- Witness for C14: the example engine moved to phase 1200. -/
theorem breathe_true_black_witness :
    ({ ex_engine_breathe with
        state := { ex_state_breathe with animation_step := 1200 } } : Engine 4
      ).state.animation_step = 1200
      ∧ ∀ i : Fin 4,
        (zmk_rgb_underglow_effect_breathe ex_cfg
          { ex_engine_breathe with
            state := { ex_state_breathe with animation_step := 1200 } }).pixels i
          = ⟨0, 0, 0⟩ :=
  ⟨by decide,
    (breathe_true_black ex_cfg
      { ex_engine_breathe with state := { ex_state_breathe with animation_step := 1200 } }
      (by decide)).1⟩

/-- C15. Spectrum effect: for every state with phase below 360 and speed in
[1,5], one spectrum tick fills every pixel with
`hsb_to_rgb (hsb_scale_min_max {hue = phaseStep, stored saturation, stored
brightness})`, sets the phase to `(phaseStep + speed) mod 360` and changes no
other field of the state; from every phase whatever the phase after the
tick is below 360. -/
theorem spectrum_effect (cfg : Config) {N : Nat} (e : Engine N)
    (hstep : e.state.animation_step < 360)
    (hs1 : 1 ≤ e.state.animation_speed) (hs5 : e.state.animation_speed ≤ 5) :
    (∀ i : Fin N, (zmk_rgb_underglow_effect_spectrum cfg e).pixels i
        = hsb_to_rgb (hsb_scale_min_max cfg
            { h := e.state.animation_step, s := e.state.color.s, b := e.state.color.b }))
      ∧ (zmk_rgb_underglow_effect_spectrum cfg e).state
        = { e.state with
            animation_step := (e.state.animation_step + e.state.animation_speed) % 360 }
      ∧ (∀ e2 : Engine N,
          (zmk_rgb_underglow_effect_spectrum cfg e2).state.animation_step < 360) := by
  refine ⟨fun i => rfl, ?_, ?_⟩
  · unfold zmk_rgb_underglow_effect_spectrum HUE_MAX
    simp only
    rw [Nat.mod_eq_of_lt (show e.state.animation_step + e.state.animation_speed < 65536 by omega)]
  · intro e2
    unfold zmk_rgb_underglow_effect_spectrum HUE_MAX
    exact Nat.mod_lt _ (by decide)

/-- Witness for C15: the example engine (phase 0, speed 3). -/
theorem spectrum_effect_witness :
    (ex_state.animation_step < 360 ∧ 1 ≤ ex_state.animation_speed
        ∧ ex_state.animation_speed ≤ 5)
      ∧ (zmk_rgb_underglow_effect_spectrum ex_cfg
          ({ state := ex_state, pixels := ex_base, status_pixels := ex_overlay } : Engine 4)).state
        = { ex_state with
            animation_step := (ex_state.animation_step + ex_state.animation_speed) % 360 } :=
  ⟨⟨by decide, by decide, by decide⟩,
    (spectrum_effect ex_cfg
      ({ state := ex_state, pixels := ex_base, status_pixels := ex_overlay } : Engine 4)
      (by decide) (by decide) (by decide)).2.1⟩

/-- C16. Swirl effect: for every strip length `N ≥ 1`, every state with phase
below 360 and every pixel index `i < N`, pixel `i` gets
`hsb_to_rgb (hsb_scale_min_max {hue, stored saturation, stored brightness})`
with hue `((360/N)·i + phaseStep) mod 360`, which is below 360; one swirl
tick sets the phase to `(phaseStep + 2·speed) mod 360` and changes no other
field of the state. -/
theorem swirl_effect (cfg : Config) {N : Nat} (e : Engine N) (i : Fin N)
    (hstep : e.state.animation_step < 360) (hspeed : e.state.animation_speed < 256) :
    (zmk_rgb_underglow_effect_swirl cfg e).pixels i
        = hsb_to_rgb (hsb_scale_min_max cfg
            { h := ((360 / N) * i.val + e.state.animation_step) % 360
              s := e.state.color.s
              b := e.state.color.b })
      ∧ ((360 / N) * i.val + e.state.animation_step) % 360 < 360
      ∧ (zmk_rgb_underglow_effect_swirl cfg e).state
        = { e.state with
            animation_step := (e.state.animation_step + 2 * e.state.animation_speed) % 360 } := by
  have hlt : ((360 / N) * i.val + e.state.animation_step) % 360 < 360 :=
    Nat.mod_lt _ (by decide)
  refine ⟨?_, hlt, ?_⟩
  · unfold zmk_rgb_underglow_effect_swirl swirl_hue HUE_MAX
    simp only
    rw [Nat.mod_eq_of_lt (show ((360 / N) * i.val + e.state.animation_step) % 360 < 65536 by omega)]
  · unfold zmk_rgb_underglow_effect_swirl HUE_MAX
    simp only
    rw [Nat.mod_eq_of_lt
      (show e.state.animation_step + e.state.animation_speed * 2 < 65536 by omega)]
    rw [Nat.mul_comm e.state.animation_speed 2]

/-- Witness for C16: pixel 3 of the four-pixel example strip (a strip
length of at least 1 is what makes a pixel index exist). -/
theorem swirl_effect_witness :
    (ex_state.animation_step < 360 ∧ ex_state.animation_speed < 256)
      ∧ (zmk_rgb_underglow_effect_swirl ex_cfg
          ({ state := ex_state, pixels := ex_base, status_pixels := ex_overlay } : Engine 4)).state
        = { ex_state with
            animation_step := (ex_state.animation_step + 2 * ex_state.animation_speed) % 360 } :=
  ⟨⟨by decide, by decide⟩,
    (swirl_effect ex_cfg
      ({ state := ex_state, pixels := ex_base, status_pixels := ex_overlay } : Engine 4) 3
      (by decide) (by decide)).2.2⟩

/-- C17. Solid effect: for every state, one call of the solid effect sets
every pixel of the base buffer to the same value
`hsb_to_rgb (hsb_scale_min_max color)` and leaves every field of the state,
the phase included, unchanged. -/
theorem solid_effect (cfg : Config) {N : Nat} (e : Engine N) :
    (∀ i : Fin N, (zmk_rgb_underglow_effect_solid cfg e).pixels i
        = hsb_to_rgb (hsb_scale_min_max cfg e.state.color))
      ∧ (zmk_rgb_underglow_effect_solid cfg e).state = e.state
      ∧ (zmk_rgb_underglow_effect_solid cfg e).status_pixels = e.status_pixels :=
  ⟨fun _ => rfl, rfl, rfl⟩

/-- C18. The sector algorithm on the primaries, its arithmetic taken exactly:
`hsb_to_rgb (0,100,100) = (255,0,0)`, `hsb_to_rgb (120,100,100) = (0,255,0)`
and `hsb_to_rgb (240,100,100) = (0,0,255)`. -/
theorem hsb_to_rgb_primaries :
    hsb_to_rgb { h := 0, s := 100, b := 100 } = ⟨255, 0, 0⟩
      ∧ hsb_to_rgb { h := 120, s := 100, b := 100 } = ⟨0, 255, 0⟩
      ∧ hsb_to_rgb { h := 240, s := 100, b := 100 } = ⟨0, 0, 255⟩ := by
  refine ⟨?_, ?_, ?_⟩
  · simp [hsb_to_rgb, float_to_uint8, BRT_MAX, SAT_MAX, HUE_MAX]
  · simp [hsb_to_rgb, float_to_uint8, BRT_MAX, SAT_MAX, HUE_MAX]
    norm_num
  · simp [hsb_to_rgb, float_to_uint8, BRT_MAX, SAT_MAX, HUE_MAX]
    norm_num

/-- C19. The function `hsb_scale_min_max`: for every configuration with
`0 ≤ BRT_MIN ≤ BRT_MAX ≤ 100` and every brightness `b` in [0,100] the result
brightness is `BRT_MIN + (BRT_MAX − BRT_MIN)·b/100`, lies in
`[BRT_MIN, BRT_MAX]`, is `BRT_MIN` at `b = 0` and `BRT_MAX` at `b = 100`, is
non-decreasing in `b`, and hue and saturation are unchanged. -/
theorem scale_min_max_range (cfg : Config) (hsb : zmk_led_hsb)
    (hmin : cfg.BRT_MIN ≤ cfg.BRT_MAX) (hmax : cfg.BRT_MAX ≤ 100) (hb : hsb.b ≤ 100) :
    (hsb_scale_min_max cfg hsb).b
        = cfg.BRT_MIN + (cfg.BRT_MAX - cfg.BRT_MIN) * hsb.b / 100
      ∧ cfg.BRT_MIN ≤ (hsb_scale_min_max cfg hsb).b
      ∧ (hsb_scale_min_max cfg hsb).b ≤ cfg.BRT_MAX
      ∧ (hsb.b = 0 → (hsb_scale_min_max cfg hsb).b = cfg.BRT_MIN)
      ∧ (hsb.b = 100 → (hsb_scale_min_max cfg hsb).b = cfg.BRT_MAX)
      ∧ (∀ hsb2 : zmk_led_hsb, hsb.b ≤ hsb2.b → hsb2.b ≤ 100 →
          (hsb_scale_min_max cfg hsb).b ≤ (hsb_scale_min_max cfg hsb2).b)
      ∧ (hsb_scale_min_max cfg hsb).h = hsb.h
      ∧ (hsb_scale_min_max cfg hsb).s = hsb.s := by
  have hval := hsb_scale_min_max_b cfg hsb hmin hmax hb
  have hm : (cfg.BRT_MAX - cfg.BRT_MIN) * hsb.b ≤ (cfg.BRT_MAX - cfg.BRT_MIN) * 100 :=
    Nat.mul_le_mul_left _ hb
  refine ⟨hval, ?_, ?_, ?_, ?_, ?_, rfl, rfl⟩
  · rw [hval]; omega
  · rw [hval]
    generalize (cfg.BRT_MAX - cfg.BRT_MIN) * hsb.b = m at hm ⊢
    omega
  · intro h0
    rw [hval, h0]
    simp
  · intro h100
    rw [hval, h100, Nat.mul_div_cancel _ (by decide : 0 < 100)]
    omega
  · intro hsb2 hle h2
    rw [hval, hsb_scale_min_max_b cfg hsb2 hmin hmax h2]
    exact Nat.add_le_add_left (Nat.div_le_div_right (Nat.mul_le_mul_left _ hle)) _

/-- Witness for C19: floor 10, ceiling 80, brightness 60. -/
theorem scale_min_max_range_witness :
    (ex_cfg_floor.BRT_MIN ≤ ex_cfg_floor.BRT_MAX ∧ ex_cfg_floor.BRT_MAX ≤ 100
        ∧ ex_state.color.b ≤ 100)
      ∧ (hsb_scale_min_max ex_cfg_floor ex_state.color).b
        = ex_cfg_floor.BRT_MIN
          + (ex_cfg_floor.BRT_MAX - ex_cfg_floor.BRT_MIN) * ex_state.color.b / 100 :=
  ⟨⟨by decide, by decide, by decide⟩,
    (scale_min_max_range ex_cfg_floor ex_state.color (by decide) (by decide) (by decide)).1⟩

/-- C20, refuted as stated: with a transport attached and index 2, which is
in [0,3], the call does not succeed when the kernel refuses the save request:
it applies the change and returns the refusal code −16. -/
theorem select_effect_counterexample :
    (0 : Int) ≤ 2 ∧ (2 : Int) ≤ 3
      ∧ (zmk_rgb_underglow_select_effect ex_cfg ex_env_save_refused true ex_state 2 :
          (rgb_underglow_state × List (Effect 4)) × Int).2 = -16
      ∧ (zmk_rgb_underglow_select_effect ex_cfg ex_env_save_refused true ex_state 2 :
          (rgb_underglow_state × List (Effect 4)) × Int).2 ≠ 0
      ∧ (zmk_rgb_underglow_select_effect ex_cfg ex_env_save_refused true ex_state 2 :
          (rgb_underglow_state × List (Effect 4)) × Int).1.1.current_effect = 2 := by
  refine ⟨by decide, by decide, by decide, by decide, by decide⟩

/-- C20 (amended). The function `zmk_rgb_underglow_select_effect` with a
transport attached: for every integer index outside [0,3] the call fails
with `-EINVAL`, leaves the whole state unchanged and requests nothing; for
every index in [0,3] it sets the current effect to the index, resets the
phase to 0, changes no other field and returns the result of the save
request, which is 0 (success) unless the kernel refuses to schedule the
save, and then the kernel's negative code. -/
theorem select_effect_validates {N : Nat} (cfg : Config) (env : Env)
    (state : rgb_underglow_state) (effect : Int) :
    ((effect < 0 ∨ 3 < effect) →
        (zmk_rgb_underglow_select_effect cfg env true state effect :
          (rgb_underglow_state × List (Effect N)) × Int) = ((state, []), -EINVAL))
      ∧ (0 ≤ effect → effect ≤ 3 →
        (zmk_rgb_underglow_select_effect cfg env true state effect :
            (rgb_underglow_state × List (Effect N)) × Int).1.1
          = { state with current_effect := effect.toNat, animation_step := 0 }
        ∧ (zmk_rgb_underglow_select_effect cfg env true state effect :
            (rgb_underglow_state × List (Effect N)) × Int).2
          = (zmk_rgb_underglow_save_state cfg env : Int × List (Effect N)).1
        ∧ (zmk_rgb_underglow_select_effect cfg env true state effect :
            (rgb_underglow_state × List (Effect N)) × Int).2
          = (if cfg.SETTINGS = true ∧ env.k_work_reschedule_rc < 0 then
              env.k_work_reschedule_rc else 0)) := by
  constructor
  · intro h
    unfold zmk_rgb_underglow_select_effect UNDERGLOW_EFFECT_NUMBER
    have h4 : effect < 0 ∨ effect ≥ ((4 : Nat) : Int) := by omega
    rw [if_neg (by decide), if_pos h4]
  · intro h0 h3
    unfold zmk_rgb_underglow_select_effect UNDERGLOW_EFFECT_NUMBER
    have hn : ¬ (effect < 0 ∨ effect ≥ ((4 : Nat) : Int)) := by omega
    have hmod : (effect % 256).toNat = effect.toNat := by omega
    rw [if_neg (by decide), if_neg hn]
    refine ⟨by simp only [hmod], rfl, ?_⟩
    show (zmk_rgb_underglow_save_state cfg env : Int × List (Effect N)).1 = _
    unfold zmk_rgb_underglow_save_state
    by_cases hs : cfg.SETTINGS = true
    · by_cases hr : env.k_work_reschedule_rc < 0
      · simp [hs, hr, le_of_lt]
      · simp [hs, hr]
        omega
    · simp [hs]

/-- Witness for C20 (amended): index 2 with an accepted save request. -/
theorem select_effect_validates_witness :
    ((0 : Int) ≤ 2 ∧ (2 : Int) ≤ 3)
      ∧ (zmk_rgb_underglow_select_effect ex_cfg ex_env true ex_state 2 :
            (rgb_underglow_state × List (Effect 4)) × Int).1.1
          = { ex_state with current_effect := (2 : Int).toNat, animation_step := 0 }
      ∧ (zmk_rgb_underglow_select_effect ex_cfg ex_env true ex_state 2 :
            (rgb_underglow_state × List (Effect 4)) × Int).2
          = (if ex_cfg.SETTINGS = true ∧ ex_env.k_work_reschedule_rc < 0 then
              ex_env.k_work_reschedule_rc else 0) :=
  ⟨⟨by decide, by decide⟩,
    ((select_effect_validates ex_cfg ex_env ex_state 2).2 (by decide) (by decide)).1,
    ((select_effect_validates ex_cfg ex_env ex_state 2).2 (by decide) (by decide)).2.2⟩

/-! ## Facts about the commands -/

/-- The remainder of C on a non-negative dividend. -/
theorem tmod_four_nonneg (x : Int) (hx : 0 ≤ x) : Int.tmod x 4 = x % 4 :=
  Int.tmod_eq_emod hx (by decide)

/-- The remainder of C on a negative dividend: zero or negative. -/
theorem tmod_four_neg (x : Int) (hx : x < 0) : Int.tmod x 4 = -((-x) % 4) := by
  have h : x = -(-x) := by omega
  have hd : (-x).tdiv 4 = (-x) / 4 := Int.tdiv_eq_ediv (by omega) (by decide)
  rw [Int.tmod_def]
  conv_lhs => rw [h, Int.neg_tdiv, hd]
  omega

/-- The save request, by build and kernel answer. -/
theorem save_state_result {N : Nat} (cfg : Config) (env : Env) :
    (zmk_rgb_underglow_save_state cfg env : Int × List (Effect N)).1
      = (if cfg.SETTINGS = true ∧ env.k_work_reschedule_rc < 0 then
          env.k_work_reschedule_rc else 0) := by
  unfold zmk_rgb_underglow_save_state
  by_cases hs : cfg.SETTINGS = true
  · by_cases hr : env.k_work_reschedule_rc < 0
    · simp [hs, hr, le_of_lt]
    · simp [hs, hr]
      omega
  · simp [hs]

/-- Effect selection with a valid index and a transport attached. -/
theorem select_effect_valid {N : Nat} (cfg : Config) (env : Env)
    (state : rgb_underglow_state) (effect : Int) (h0 : 0 ≤ effect) (h3 : effect ≤ 3) :
    (zmk_rgb_underglow_select_effect cfg env true state effect :
        (rgb_underglow_state × List (Effect N)) × Int)
      = (({ state with current_effect := effect.toNat, animation_step := 0 },
          (zmk_rgb_underglow_save_state cfg env : Int × List (Effect N)).2),
         (zmk_rgb_underglow_save_state cfg env : Int × List (Effect N)).1) := by
  unfold zmk_rgb_underglow_select_effect UNDERGLOW_EFFECT_NUMBER
  have hn : ¬ (effect < 0 ∨ effect ≥ ((4 : Nat) : Int)) := by omega
  have hmod : (effect % 256).toNat = effect.toNat := by omega
  rw [if_neg (by decide), if_neg hn]
  simp only [hmod]

/-- Effect selection with an invalid index and a transport attached. -/
theorem select_effect_invalid {N : Nat} (cfg : Config) (env : Env)
    (state : rgb_underglow_state) (effect : Int) (h : effect < 0 ∨ 3 < effect) :
    (zmk_rgb_underglow_select_effect cfg env true state effect :
        (rgb_underglow_state × List (Effect N)) × Int) = ((state, []), -EINVAL) := by
  unfold zmk_rgb_underglow_select_effect UNDERGLOW_EFFECT_NUMBER
  have h4 : effect < 0 ∨ effect ≥ ((4 : Nat) : Int) := by omega
  rw [if_neg (by decide), if_pos h4]

/-- The value of `zmk_rgb_underglow_calc_effect`, by sign of the sum. -/
theorem calc_effect_value (state : rgb_underglow_state) (d : Int) :
    (0 ≤ (state.current_effect : Int) + 4 + d →
        zmk_rgb_underglow_calc_effect state d = ((state.current_effect : Int) + d) % 4)
      ∧ ((state.current_effect : Int) + 4 + d < 0 →
        zmk_rgb_underglow_calc_effect state d
          = -((-((state.current_effect : Int) + 4 + d)) % 4)) := by
  unfold zmk_rgb_underglow_calc_effect UNDERGLOW_EFFECT_NUMBER
  constructor
  · intro h
    have := tmod_four_nonneg _ h
    simp only [Nat.cast_ofNat] at this ⊢
    rw [this]
    omega
  · intro h
    have := tmod_four_neg _ h
    simp only [Nat.cast_ofNat] at this ⊢
    rw [this]


/-! ## Claims on the commands and on persistence -/

/-- C21. Effect cycling by one step: for every current effect `e` in [0,3],
`zmk_rgb_underglow_calc_effect (+1)` is `(e+1) mod 4` and
`zmk_rgb_underglow_calc_effect (−1)` is `(e+3) mod 4`, and with a transport
attached `zmk_rgb_underglow_cycle_effect` leaves the current effect at that
value; so −1 from Solid (0) gives Swirl (3), +1 from Swirl gives Solid, and
+1 followed by −1 restores the original effect. -/
theorem cycle_effect_one_step {N : Nat} (cfg : Config) (env env2 : Env)
    (state : rgb_underglow_state) (he : state.current_effect ≤ 3) :
    zmk_rgb_underglow_calc_effect state 1 = (((state.current_effect + 1) % 4 : Nat) : Int)
      ∧ zmk_rgb_underglow_calc_effect state (-1)
          = (((state.current_effect + 3) % 4 : Nat) : Int)
      ∧ (zmk_rgb_underglow_cycle_effect cfg env true state 1 :
            (rgb_underglow_state × List (Effect N)) × Int).1.1.current_effect
          = (state.current_effect + 1) % 4
      ∧ (zmk_rgb_underglow_cycle_effect cfg env true state (-1) :
            (rgb_underglow_state × List (Effect N)) × Int).1.1.current_effect
          = (state.current_effect + 3) % 4
      ∧ (state.current_effect = 0 →
          (zmk_rgb_underglow_cycle_effect cfg env true state (-1) :
            (rgb_underglow_state × List (Effect N)) × Int).1.1.current_effect = 3)
      ∧ (state.current_effect = 3 →
          (zmk_rgb_underglow_cycle_effect cfg env true state 1 :
            (rgb_underglow_state × List (Effect N)) × Int).1.1.current_effect = 0)
      ∧ (zmk_rgb_underglow_cycle_effect cfg env2 true
            (zmk_rgb_underglow_cycle_effect cfg env true state 1 :
              (rgb_underglow_state × List (Effect N)) × Int).1.1 (-1) :
            (rgb_underglow_state × List (Effect N)) × Int).1.1.current_effect
          = state.current_effect := by
  have hp : zmk_rgb_underglow_calc_effect state 1
      = (((state.current_effect + 1) % 4 : Nat) : Int) := by
    rw [(calc_effect_value state 1).1 (by omega)]
    omega
  have hm : ∀ s : rgb_underglow_state, s.current_effect ≤ 3 →
      zmk_rgb_underglow_calc_effect s (-1) = (((s.current_effect + 3) % 4 : Nat) : Int) := by
    intro s hs
    rw [(calc_effect_value s (-1)).1 (by omega)]
    omega
  have hcp : (zmk_rgb_underglow_cycle_effect cfg env true state 1 :
      (rgb_underglow_state × List (Effect N)) × Int).1.1
      = { state with current_effect := (state.current_effect + 1) % 4, animation_step := 0 } := by
    unfold zmk_rgb_underglow_cycle_effect
    rw [hp, select_effect_valid cfg env state _ (by omega) (by omega)]
    simp only [Int.toNat_ofNat]
  have hcm : ∀ (s : rgb_underglow_state) (en : Env), s.current_effect ≤ 3 →
      (zmk_rgb_underglow_cycle_effect cfg en true s (-1) :
        (rgb_underglow_state × List (Effect N)) × Int).1.1.current_effect
        = (s.current_effect + 3) % 4 := by
    intro s en hs
    unfold zmk_rgb_underglow_cycle_effect
    rw [hm s hs, select_effect_valid cfg en s _ (by omega) (by omega)]
    simp only [Int.toNat_ofNat]
  refine ⟨hp, hm state he, by rw [hcp], hcm state env he, ?_, ?_, ?_⟩
  · intro h0
    rw [hcm state env he, h0]
  · intro h3
    rw [hcp, h3]
  · rw [hcm _ env2 (by rw [hcp]; simp only; omega), hcp]
    simp only
    omega

/-- Witness for C21: the example state, whose effect is Solid (0). -/
theorem cycle_effect_one_step_witness :
    ex_state.current_effect ≤ 3
      ∧ (zmk_rgb_underglow_cycle_effect ex_cfg ex_env true ex_state (-1) :
          (rgb_underglow_state × List (Effect 4)) × Int).1.1.current_effect
        = (ex_state.current_effect + 3) % 4 :=
  ⟨by decide,
    (cycle_effect_one_step ex_cfg ex_env ex_env ex_state (by decide)).2.2.2.1⟩

/-- C22, refuted as stated: from Solid (0), with a transport attached and the
save request accepted, `zmk_rgb_underglow_cycle_effect (−5)` fails with
`-EINVAL` and leaves the effect at 0, whereas the residue of `0 − 5` modulo 4
is 3. -/
theorem cycle_effect_wraps_counterexample :
    ex_state.current_effect = 0
      ∧ zmk_rgb_underglow_calc_effect ex_state (-5) = -1
      ∧ (zmk_rgb_underglow_cycle_effect ex_cfg ex_env true ex_state (-5) :
          (rgb_underglow_state × List (Effect 4)) × Int).2 = -EINVAL
      ∧ (zmk_rgb_underglow_cycle_effect ex_cfg ex_env true ex_state (-5) :
          (rgb_underglow_state × List (Effect 4)) × Int).1.1.current_effect = 0
      ∧ (((ex_state.current_effect : Int) + (-5)) % 4).toNat = 3 := by
  refine ⟨by decide, by decide, by decide, by decide, by decide⟩

/-- C22 (amended). Effect cycling for every direction, with a transport
attached: for every current effect `e` (in [0,3]) and every integer direction
`d` with `e + 4 + d ≥ 0` (so every `d ≥ −4`), the call leaves the current
effect equal to the non-negative residue of `e + d` modulo 4, resets the
phase and returns the result of the save request (0 unless the kernel refuses
to schedule the save); for `e + 4 + d < 0` it does the same when `e + d` is a
multiple of 4, and otherwise fails with `-EINVAL` and leaves the state
unchanged. -/
theorem cycle_effect_wraps {N : Nat} (cfg : Config) (env : Env)
    (state : rgb_underglow_state) (d : Int) :
    ((0 ≤ (state.current_effect : Int) + 4 + d ∨ ((state.current_effect : Int) + d) % 4 = 0) →
        (zmk_rgb_underglow_cycle_effect cfg env true state d :
            (rgb_underglow_state × List (Effect N)) × Int).1.1
          = { state with
              current_effect := (((state.current_effect : Int) + d) % 4).toNat
              animation_step := 0 }
        ∧ (zmk_rgb_underglow_cycle_effect cfg env true state d :
            (rgb_underglow_state × List (Effect N)) × Int).2
          = (if cfg.SETTINGS = true ∧ env.k_work_reschedule_rc < 0 then
              env.k_work_reschedule_rc else 0))
      ∧ ((state.current_effect : Int) + 4 + d < 0 →
          ((state.current_effect : Int) + d) % 4 ≠ 0 →
          (zmk_rgb_underglow_cycle_effect cfg env true state d :
            (rgb_underglow_state × List (Effect N)) × Int) = ((state, []), -EINVAL)) := by
  constructor
  · intro h
    have hv : zmk_rgb_underglow_calc_effect state d = ((state.current_effect : Int) + d) % 4 := by
      by_cases h0 : 0 ≤ (state.current_effect : Int) + 4 + d
      · exact (calc_effect_value state d).1 h0
      · rw [(calc_effect_value state d).2 (by omega)]
        omega
    unfold zmk_rgb_underglow_cycle_effect
    rw [hv, select_effect_valid cfg env state _ (by omega) (by omega)]
    exact ⟨rfl, save_state_result cfg env⟩
  · intro hneg hnz
    unfold zmk_rgb_underglow_cycle_effect
    rw [(calc_effect_value state d).2 hneg]
    exact select_effect_invalid cfg env state _ (by omega)

/-- Witness for C22 (amended): direction −4 from Solid wraps to Solid. -/
theorem cycle_effect_wraps_witness :
    (ex_state.current_effect ≤ 3 ∧ 0 ≤ (ex_state.current_effect : Int) + 4 + (-4))
      ∧ (zmk_rgb_underglow_cycle_effect ex_cfg ex_env true ex_state (-4) :
            (rgb_underglow_state × List (Effect 4)) × Int).1.1
          = { ex_state with
              current_effect := (((ex_state.current_effect : Int) + (-4)) % 4).toNat
              animation_step := 0 } :=
  ⟨⟨by decide, by decide⟩,
    ((cycle_effect_wraps ex_cfg ex_env ex_state (-4)).1
      (Or.inl (by decide))).1⟩


/-- The hue computed by `zmk_rgb_underglow_calc_hue` for a step of one
either way. -/
theorem calc_hue_value (cfg : Config) (state : rgb_underglow_state) (d : Int)
    (hh : state.color.h < 360) (hS : cfg.HUE_STEP ≤ 360) (hd : d = 1 ∨ d = -1) :
    zmk_rgb_underglow_calc_hue cfg state d
      = { state.color with
          h := (((state.color.h : Int) + d * (cfg.HUE_STEP : Int)) % 360).toNat } := by
  unfold zmk_rgb_underglow_calc_hue HUE_MAX
  simp only
  have key : (((state.color.h : Int) + (((360 : Nat) : Int) + d * (cfg.HUE_STEP : Int)))
      % 65536).toNat % 360
      = (((state.color.h : Int) + d * (cfg.HUE_STEP : Int)) % 360).toNat := by
    rcases hd with hd | hd <;> subst hd
    · have e1 : ((state.color.h : Int) + (((360 : Nat) : Int) + 1 * (cfg.HUE_STEP : Int)))
          % 65536 = (((state.color.h + 360 + cfg.HUE_STEP : Nat)) : Int) := by omega
      rw [e1, Int.toNat_ofNat]
      omega
    · have e1 : ((state.color.h : Int) + (((360 : Nat) : Int) + -1 * (cfg.HUE_STEP : Int)))
          % 65536 = (((state.color.h + 360 - cfg.HUE_STEP : Nat)) : Int) := by omega
      rw [e1, Int.toNat_ofNat]
      omega
  rw [key]

/-- C23. Hue change wraps: for every stored hue `h < 360`, every configured
hue step `S` with `0 < S ≤ 360` and direction `d` in {−1, +1},
`zmk_rgb_underglow_calc_hue d` returns hue `(h + d·S) mod 360` (the
non-negative residue), which is below 360, with saturation and brightness
unchanged; with a transport attached `zmk_rgb_underglow_change_hue d` stores
exactly that colour (so the stored hue is the wrapped one) and writes no other
field, and without a transport it changes nothing and returns `-ENODEV`;
`zmk_rgb_underglow_change_hue (+1)` followed by
`zmk_rgb_underglow_change_hue (−1)` restores `h`. -/
theorem change_hue_wraps {N : Nat} (cfg : Config) (env env2 : Env) (led_strip : Bool)
    (state : rgb_underglow_state) (d : Int)
    (hh : state.color.h < 360) (hS0 : 0 < cfg.HUE_STEP) (hS : cfg.HUE_STEP ≤ 360)
    (hd : d = 1 ∨ d = -1) :
    (zmk_rgb_underglow_calc_hue cfg state d).h
        = (((state.color.h : Int) + d * (cfg.HUE_STEP : Int)) % 360).toNat
      ∧ (zmk_rgb_underglow_calc_hue cfg state d).h < 360
      ∧ (zmk_rgb_underglow_calc_hue cfg state d).s = state.color.s
      ∧ (zmk_rgb_underglow_calc_hue cfg state d).b = state.color.b
      ∧ (zmk_rgb_underglow_change_hue cfg env2 led_strip
            (zmk_rgb_underglow_change_hue cfg env led_strip state 1 :
              (rgb_underglow_state × List (Effect N)) × Int).1.1 (-1) :
            (rgb_underglow_state × List (Effect N)) × Int).1.1.color.h
          = state.color.h
      ∧ (zmk_rgb_underglow_change_hue cfg env true state d :
            (rgb_underglow_state × List (Effect N)) × Int).1.1
          = { state with color := zmk_rgb_underglow_calc_hue cfg state d }
      ∧ (zmk_rgb_underglow_change_hue cfg env true state d :
            (rgb_underglow_state × List (Effect N)) × Int).1.1.color
          = { h := (((state.color.h : Int) + d * (cfg.HUE_STEP : Int)) % 360).toNat
              s := state.color.s
              b := state.color.b }
      ∧ (zmk_rgb_underglow_change_hue cfg env true state d :
            (rgb_underglow_state × List (Effect N)) × Int).1.1.color.h < 360
      ∧ (zmk_rgb_underglow_change_hue cfg env2 true
            (zmk_rgb_underglow_change_hue cfg env true state 1 :
              (rgb_underglow_state × List (Effect N)) × Int).1.1 (-1) :
            (rgb_underglow_state × List (Effect N)) × Int).1.1
          = state
      ∧ (zmk_rgb_underglow_change_hue cfg env false state d :
            (rgb_underglow_state × List (Effect N)) × Int) = ((state, []), -ENODEV) := by
  have hv := calc_hue_value cfg state d hh hS hd
  have hstore : (zmk_rgb_underglow_change_hue cfg env true state d :
      (rgb_underglow_state × List (Effect N)) × Int).1.1
      = { state with color := zmk_rgb_underglow_calc_hue cfg state d } := rfl
  have hback : (zmk_rgb_underglow_change_hue cfg env2 true
      (zmk_rgb_underglow_change_hue cfg env true state 1 :
        (rgb_underglow_state × List (Effect N)) × Int).1.1 (-1) :
      (rgb_underglow_state × List (Effect N)) × Int).1.1 = state := by
    have h1 : (zmk_rgb_underglow_change_hue cfg env true state 1 :
        (rgb_underglow_state × List (Effect N)) × Int).1.1
        = { state with color := zmk_rgb_underglow_calc_hue cfg state 1 } := rfl
    have h2 : ∀ s : rgb_underglow_state,
        (zmk_rgb_underglow_change_hue cfg env2 true s (-1) :
          (rgb_underglow_state × List (Effect N)) × Int).1.1
        = { s with color := zmk_rgb_underglow_calc_hue cfg s (-1) } := fun _ => rfl
    rw [h2, h1]
    simp only
    rw [calc_hue_value cfg _ (-1) (by
      simp only
      rw [calc_hue_value cfg state 1 hh hS (Or.inl rfl)]
      simp only
      omega) hS (Or.inr rfl)]
    simp only
    rw [calc_hue_value cfg state 1 hh hS (Or.inl rfl)]
    simp only
    have hhue : ((((((state.color.h : Int) + 1 * (cfg.HUE_STEP : Int)) % 360).toNat : Int)
        + -1 * (cfg.HUE_STEP : Int)) % 360).toNat = state.color.h := by
      omega
    rw [hhue]
  refine ⟨by rw [hv], by rw [hv]; simp only; omega, by rw [hv], by rw [hv], ?_,
    hstore, by rw [hstore, hv], by rw [hstore, hv]; simp only; omega, hback, rfl⟩
  cases led_strip
  · rfl
  · have h1 : (zmk_rgb_underglow_change_hue cfg env true state 1 :
        (rgb_underglow_state × List (Effect N)) × Int).1.1
        = { state with color := zmk_rgb_underglow_calc_hue cfg state 1 } := rfl
    have h2 : ∀ s : rgb_underglow_state,
        (zmk_rgb_underglow_change_hue cfg env2 true s (-1) :
          (rgb_underglow_state × List (Effect N)) × Int).1.1
        = { s with color := zmk_rgb_underglow_calc_hue cfg s (-1) } := fun _ => rfl
    rw [h2, h1]
    simp only
    rw [calc_hue_value cfg _ (-1) (by
      simp only
      rw [calc_hue_value cfg state 1 hh hS (Or.inl rfl)]
      simp only
      omega) hS (Or.inr rfl)]
    simp only
    rw [calc_hue_value cfg state 1 hh hS (Or.inl rfl)]
    simp only
    omega

/-- Witness for C23: hue 200 and step 10; the command stores hue 190. -/
theorem change_hue_wraps_witness :
    (ex_state.color.h < 360 ∧ 0 < ex_cfg.HUE_STEP ∧ ex_cfg.HUE_STEP ≤ 360)
      ∧ (zmk_rgb_underglow_calc_hue ex_cfg ex_state (-1)).h
        = (((ex_state.color.h : Int) + (-1) * (ex_cfg.HUE_STEP : Int)) % 360).toNat
      ∧ (zmk_rgb_underglow_change_hue ex_cfg ex_env true ex_state (-1) :
            (rgb_underglow_state × List (Effect 4)) × Int).1.1.color
          = { h := 190, s := ex_state.color.s, b := ex_state.color.b } :=
  ⟨⟨by decide, by decide, by decide⟩,
    (change_hue_wraps (N := 4) ex_cfg ex_env ex_env true ex_state (-1)
      (by decide) (by decide) (by decide) (Or.inr rfl)).1,
    by decide⟩

/-- C24. Saturation and brightness changes clamp: for every stored value `x`,
every configured step `S ≥ 0` and every integer direction `d`, the changed
channel becomes `min(100, max(0, x + d·S))`, hence lies in [0,100], and the
other two colour channels are unchanged; with a transport attached the
commands store exactly that colour and write no other field. -/
theorem change_sat_brt_clamp {N : Nat} (cfg : Config) (env : Env)
    (state : rgb_underglow_state) (d : Int) :
    (zmk_rgb_underglow_calc_sat cfg state d).s
        = (min 100 (max 0 ((state.color.s : Int) + d * (cfg.SAT_STEP : Int)))).toNat
      ∧ (zmk_rgb_underglow_calc_sat cfg state d).s ≤ 100
      ∧ (zmk_rgb_underglow_calc_sat cfg state d).h = state.color.h
      ∧ (zmk_rgb_underglow_calc_sat cfg state d).b = state.color.b
      ∧ (zmk_rgb_underglow_calc_brt cfg state d).b
        = (min 100 (max 0 ((state.color.b : Int) + d * (cfg.BRT_STEP : Int)))).toNat
      ∧ (zmk_rgb_underglow_calc_brt cfg state d).b ≤ 100
      ∧ (zmk_rgb_underglow_calc_brt cfg state d).h = state.color.h
      ∧ (zmk_rgb_underglow_calc_brt cfg state d).s = state.color.s
      ∧ (zmk_rgb_underglow_change_sat cfg env true state d :
            (rgb_underglow_state × List (Effect N)) × Int).1.1
          = { state with color := zmk_rgb_underglow_calc_sat cfg state d }
      ∧ (zmk_rgb_underglow_change_brt cfg env true state d :
            (rgb_underglow_state × List (Effect N)) × Int).1.1
          = { state with color := zmk_rgb_underglow_calc_brt cfg state d } := by
  have hs : (zmk_rgb_underglow_calc_sat cfg state d).s
      = (min 100 (max 0 ((state.color.s : Int) + d * (cfg.SAT_STEP : Int)))).toNat := by
    unfold zmk_rgb_underglow_calc_sat SAT_MAX
    simp only
    generalize (state.color.s : Int) + d * (cfg.SAT_STEP : Int) = x
    split_ifs <;> omega
  have hb : (zmk_rgb_underglow_calc_brt cfg state d).b
      = (min 100 (max 0 ((state.color.b : Int) + d * (cfg.BRT_STEP : Int)))).toNat := by
    unfold zmk_rgb_underglow_calc_brt BRT_MAX
    simp only
    generalize (state.color.b : Int) + d * (cfg.BRT_STEP : Int) = x
    split_ifs <;> omega
  refine ⟨hs, ?_, rfl, rfl, hb, ?_, rfl, rfl, rfl, rfl⟩
  · rw [hs]; omega
  · rw [hb]; omega

/-- C25, refuted as stated: with a transport attached, speed 3 and direction
−3, `zmk_rgb_underglow_change_spd` leaves the speed at 0, outside [1,5]. -/
theorem change_spd_counterexample :
    1 ≤ ex_state.animation_speed ∧ ex_state.animation_speed ≤ 5
      ∧ (zmk_rgb_underglow_change_spd ex_cfg ex_env true ex_state (-3) :
          (rgb_underglow_state × List (Effect 4)) × Int).1.1.animation_speed = 0
      ∧ ¬ (1 ≤ (zmk_rgb_underglow_change_spd ex_cfg ex_env true ex_state (-3) :
          (rgb_underglow_state × List (Effect 4)) × Int).1.1.animation_speed) := by
  refine ⟨by decide, by decide, by decide, by decide⟩

/-- C25 (amended). Speed change is clamped to [1,5] for single steps: for
every state with speed in [1,5] and every integer direction `d` with
`−1 ≤ d ≤ 250`, after `zmk_rgb_underglow_change_spd d` the speed is in
[1,5]; with a transport attached it equals `min(5, max(1, speed + d))`,
without one the state is unchanged. -/
theorem change_spd_clamped {N : Nat} (cfg : Config) (env : Env) (led_strip : Bool)
    (state : rgb_underglow_state) (d : Int)
    (h1 : 1 ≤ state.animation_speed) (h5 : state.animation_speed ≤ 5)
    (hd1 : -1 ≤ d) (hd2 : d ≤ 250) :
    1 ≤ (zmk_rgb_underglow_change_spd cfg env led_strip state d :
          (rgb_underglow_state × List (Effect N)) × Int).1.1.animation_speed
      ∧ (zmk_rgb_underglow_change_spd cfg env led_strip state d :
          (rgb_underglow_state × List (Effect N)) × Int).1.1.animation_speed ≤ 5
      ∧ (led_strip = true →
          (zmk_rgb_underglow_change_spd cfg env led_strip state d :
            (rgb_underglow_state × List (Effect N)) × Int).1.1.animation_speed
          = (min 5 (max 1 ((state.animation_speed : Int) + d))).toNat)
      ∧ (led_strip = false →
          (zmk_rgb_underglow_change_spd cfg env led_strip state d :
            (rgb_underglow_state × List (Effect N)) × Int).1.1 = state) := by
  have hval : (zmk_rgb_underglow_change_spd cfg env true state d :
      (rgb_underglow_state × List (Effect N)) × Int).1.1.animation_speed
      = (min 5 (max 1 ((state.animation_speed : Int) + d))).toNat := by
    unfold zmk_rgb_underglow_change_spd
    rw [if_neg (by decide)]
    by_cases he : state.animation_speed = 1 ∧ d < 0
    · rw [if_pos he]
      simp only
      omega
    · rw [if_neg he]
      simp only
      split_ifs <;> omega
  cases led_strip
  · exact ⟨h1, h5, fun h => absurd h (by decide), fun _ => rfl⟩
  · refine ⟨?_, ?_, fun _ => hval, fun h => absurd h (by decide)⟩
    · rw [hval]; omega
    · rw [hval]; omega

/-- Witness for C25 (amended): speed 3, one step down. -/
theorem change_spd_clamped_witness :
    (1 ≤ ex_state.animation_speed ∧ ex_state.animation_speed ≤ 5
        ∧ (-1 : Int) ≤ -1 ∧ (-1 : Int) ≤ 250)
      ∧ 1 ≤ (zmk_rgb_underglow_change_spd ex_cfg ex_env true ex_state (-1) :
          (rgb_underglow_state × List (Effect 4)) × Int).1.1.animation_speed :=
  ⟨⟨by decide, by decide, by decide, by decide⟩,
    (change_spd_clamped ex_cfg ex_env true ex_state (-1)
      (by decide) (by decide) (by decide) (by decide)).1⟩

/-- C26. Direct colour set rejects out-of-range input atomically: for every
colour in which hue exceeds 360, saturation exceeds 100 or brightness exceeds
100, `zmk_rgb_underglow_set_hsb` returns the failure code `-ENOTSUP`, leaves
the whole state unchanged and calls no collaborator. -/
theorem set_hsb_rejects {N : Nat} (state : rgb_underglow_state) (color : zmk_led_hsb)
    (h : color.h > 360 ∨ color.s > 100 ∨ color.b > 100) :
    (zmk_rgb_underglow_set_hsb state color :
        (rgb_underglow_state × List (Effect N)) × Int) = ((state, []), -ENOTSUP)
      ∧ (zmk_rgb_underglow_set_hsb state color :
        (rgb_underglow_state × List (Effect N)) × Int).2 < 0
      ∧ (zmk_rgb_underglow_set_hsb state color :
        (rgb_underglow_state × List (Effect N)) × Int).1.1 = state := by
  have he : (zmk_rgb_underglow_set_hsb state color :
      (rgb_underglow_state × List (Effect N)) × Int) = ((state, []), -ENOTSUP) := by
    unfold zmk_rgb_underglow_set_hsb HUE_MAX SAT_MAX BRT_MAX
    rw [if_pos h]
  rw [he]
  exact ⟨rfl, show -ENOTSUP < 0 by decide, rfl⟩

/-- Witness for C26: the colour (400, 50, 50). -/
theorem set_hsb_rejects_witness :
    ((400 : Nat) > 360 ∨ (50 : Nat) > 100 ∨ (50 : Nat) > 100)
      ∧ (zmk_rgb_underglow_set_hsb ex_state { h := 400, s := 50, b := 50 } :
          (rgb_underglow_state × List (Effect 4)) × Int) = ((ex_state, []), -ENOTSUP) :=
  ⟨by decide,
    (set_hsb_rejects ex_state { h := 400, s := 50, b := 50 } (Or.inl (by decide))).1⟩

/-- C27 (amended): for every input on which `zmk_rgb_underglow_set_hsb`
succeeds, the stored colour afterwards is the input, with hue at most 360
(`HUE_MAX` itself is accepted, like `SAT_MAX` and `BRT_MAX`), saturation in
[0,100] and brightness in [0,100]; no other field is written and no
collaborator is called; the hue is strictly below 360 exactly when the input
hue is not 360; and the call succeeds on every colour within these bounds. -/
theorem set_hsb_colour_bounds {N : Nat} (state : rgb_underglow_state) (color : zmk_led_hsb)
    (hok : (zmk_rgb_underglow_set_hsb state color :
        (rgb_underglow_state × List (Effect N)) × Int).2 = 0) :
    (zmk_rgb_underglow_set_hsb state color :
        (rgb_underglow_state × List (Effect N)) × Int) = (({ state with color := color }, []), 0)
      ∧ (zmk_rgb_underglow_set_hsb state color :
          (rgb_underglow_state × List (Effect N)) × Int).1.1.color.h ≤ 360
      ∧ (zmk_rgb_underglow_set_hsb state color :
          (rgb_underglow_state × List (Effect N)) × Int).1.1.color.s ≤ 100
      ∧ (zmk_rgb_underglow_set_hsb state color :
          (rgb_underglow_state × List (Effect N)) × Int).1.1.color.b ≤ 100
      ∧ ((zmk_rgb_underglow_set_hsb state color :
            (rgb_underglow_state × List (Effect N)) × Int).1.1.color.h < 360
          ↔ color.h ≠ 360)
      ∧ (∀ c : zmk_led_hsb, c.h ≤ 360 → c.s ≤ 100 → c.b ≤ 100 →
          (zmk_rgb_underglow_set_hsb state c :
            (rgb_underglow_state × List (Effect N)) × Int)
            = (({ state with color := c }, []), 0)) := by
  have hin : ∀ c : zmk_led_hsb, c.h ≤ 360 → c.s ≤ 100 → c.b ≤ 100 →
      (zmk_rgb_underglow_set_hsb state c : (rgb_underglow_state × List (Effect N)) × Int)
        = (({ state with color := c }, []), 0) := by
    intro c h1 h2 h3
    unfold zmk_rgb_underglow_set_hsb HUE_MAX SAT_MAX BRT_MAX
    rw [if_neg (by omega)]
  have hrange : color.h ≤ 360 ∧ color.s ≤ 100 ∧ color.b ≤ 100 := by
    by_cases h : color.h > 360 ∨ color.s > 100 ∨ color.b > 100
    · have he : (zmk_rgb_underglow_set_hsb state color :
          (rgb_underglow_state × List (Effect N)) × Int) = ((state, []), -ENOTSUP) := by
        unfold zmk_rgb_underglow_set_hsb HUE_MAX SAT_MAX BRT_MAX
        rw [if_pos h]
      rw [he] at hok
      exact absurd hok (show ¬ (-ENOTSUP = 0) by decide)
    · omega
  obtain ⟨h1, h2, h3⟩ := hrange
  have he := hin color h1 h2 h3
  rw [he]
  refine ⟨rfl, h1, h2, h3, ?_, hin⟩
  show color.h < 360 ↔ color.h ≠ 360
  omega

/-- Witness for C27: the colour (120, 50, 50) is accepted and stored. -/
theorem set_hsb_colour_bounds_witness :
    (zmk_rgb_underglow_set_hsb ex_state { h := 120, s := 50, b := 50 } :
        (rgb_underglow_state × List (Effect 4)) × Int).2 = 0
      ∧ (zmk_rgb_underglow_set_hsb ex_state { h := 120, s := 50, b := 50 } :
          (rgb_underglow_state × List (Effect 4)) × Int).1.1.color.h ≤ 360 :=
  ⟨by decide,
    (set_hsb_colour_bounds ex_state { h := 120, s := 50, b := 50 } (by decide)).2.1⟩

/-- Counterexample for C27 as stated: `zmk_rgb_underglow_set_hsb` accepts
the colour (360, 50, 50), returns 0 and stores hue 360, which is not below
360. -/
theorem set_hsb_accepts_hue_360 :
    (zmk_rgb_underglow_set_hsb ex_state { h := 360, s := 50, b := 50 } :
        (rgb_underglow_state × List (Effect 4)) × Int).2 = 0
      ∧ (zmk_rgb_underglow_set_hsb ex_state { h := 360, s := 50, b := 50 } :
        (rgb_underglow_state × List (Effect 4)) × Int).1.1.color.h = 360
      ∧ ¬ ((zmk_rgb_underglow_set_hsb ex_state { h := 360, s := 50, b := 50 } :
        (rgb_underglow_state × List (Effect 4)) × Int).1.1.color.h < 360) := by
  refine ⟨by decide, by decide, by decide⟩


/-! ## Facts about save requests -/

@[simp] theorem save_requests_nil {N : Nat} : save_requests ([] : List (Effect N)) = 0 := rfl

/-- C29. Load rejects a mismatched size: for the key `state` and every payload
length different from `sizeof(state)`, `rgb_settings_set` returns `-EINVAL`,
does not invoke the read callback and leaves the state unchanged; for any
other key it returns `-ENOENT` with the state unchanged. -/
theorem settings_load_rejects {N : Nat} (len len2 : Nat) (read_cb : ReadCb)
    (state : rgb_underglow_state) (name : SettingsName) (hlen : len ≠ sizeof_state)
    (hname : name ≠ SettingsName.state) :
    (rgb_settings_set SettingsName.state len read_cb state :
        (rgb_underglow_state × List (Effect N)) × Int) = ((state, []), -EINVAL)
      ∧ (rgb_settings_set name len2 read_cb state :
        (rgb_underglow_state × List (Effect N)) × Int) = ((state, []), -ENOENT) := by
  constructor
  · unfold rgb_settings_set
    simp only
    rw [if_pos hlen]
  · cases name with
    | state => exact absurd rfl hname
    | state_subkey => rfl
    | other => rfl

/-- Witness for C29: an 11-byte payload for `state`, and a key below
`state/`. -/
theorem settings_load_rejects_witness :
    ((11 : Nat) ≠ sizeof_state ∧ SettingsName.state_subkey ≠ SettingsName.state)
      ∧ (rgb_settings_set SettingsName.state 11 ⟨11, List.replicate 11 7⟩ ex_state :
          (rgb_underglow_state × List (Effect 4)) × Int) = ((ex_state, []), -EINVAL) :=
  ⟨⟨by decide, by decide⟩,
    (settings_load_rejects 11 12 ⟨11, List.replicate 11 7⟩ ex_state
      SettingsName.state_subkey (by decide) (by decide)).1⟩

/-- Reading the bytes of a state back gives the state, when every field is
within the range of its C type. -/
theorem state_of_bytes_state_bytes (s : rgb_underglow_state) (hs : state_in_range s) :
    state_of_bytes (state_bytes s) = s := by
  obtain ⟨h1, h2, h3, h4, h5, h6, h7⟩ := hs
  obtain ⟨⟨h, sat, b⟩, speed, effect, step, on_, sa, sstep⟩ := s
  simp only at h1 h2 h3 h4 h5 h6 h7
  unfold state_of_bytes state_bytes
  simp only [List.getD_cons_zero, List.getD_cons_succ]
  have e1 : h % 256 % 256 + 256 * (h / 256 % 256 % 256) = h := by omega
  have e2 : step % 256 % 256 + 256 * (step / 256 % 256 % 256) = step := by omega
  have e3 : sstep % 256 % 256 + 256 * (sstep / 256 % 256 % 256) = sstep := by omega
  have e4 : sat % 256 % 256 = sat := by omega
  have e5 : b % 256 % 256 = b := by omega
  have e6 : speed % 256 % 256 = speed := by omega
  have e7 : effect % 256 % 256 = effect := by omega
  rw [e1, e2, e3, e4, e5, e6, e7]
  cases on_ <;> cases sa <;> rfl

/-- C30. Persistence round trip: for every state `s` whose fields are within
the range of their C types, the save work item hands the store the
`sizeof(state)` bytes of `s`; when the handler is called for the key `state`
with that length and a read callback that delivers those bytes, from any
prior state, it accepts (returns 0) and leaves the state equal to `s`, so
hue, saturation, brightness, speed, effect and on are reproduced exactly. -/
theorem persistence_round_trip {N : Nat} (s s0 : rgb_underglow_state)
    (hs : state_in_range s) :
    (zmk_rgb_underglow_save_state_work s : List (Effect N))
        = [Effect.settings_save_one (state_bytes s)]
      ∧ (state_bytes s).length = sizeof_state
      ∧ (rgb_settings_set SettingsName.state (state_bytes s).length
            ⟨(sizeof_state : Int), state_bytes s⟩ s0 :
          (rgb_underglow_state × List (Effect N)) × Int).2 = 0
      ∧ (rgb_settings_set SettingsName.state (state_bytes s).length
            ⟨(sizeof_state : Int), state_bytes s⟩ s0 :
          (rgb_underglow_state × List (Effect N)) × Int).1.1 = s := by
  have hlen : (state_bytes s).length = sizeof_state := rfl
  have himg : ∀ rest : List Nat,
      (state_bytes s ++ rest).take sizeof_state = state_bytes s := by
    intro rest
    rw [← hlen, List.take_left]
  refine ⟨rfl, hlen, ?_, ?_⟩
  · unfold rgb_settings_set
    simp only [hlen, ne_eq, not_true_eq_false, if_false]
    decide
  · unfold rgb_settings_set
    simp only [hlen, ne_eq, not_true_eq_false, if_false]
    rw [himg, state_of_bytes_state_bytes s hs]

/-- Witness for C30: hue 200, saturation 80, brightness 60, speed 3, effect
Swirl, on. -/
theorem persistence_round_trip_witness :
    state_in_range { ex_state with current_effect := 3 }
      ∧ (rgb_settings_set SettingsName.state
            (state_bytes { ex_state with current_effect := 3 }).length
            ⟨(sizeof_state : Int), state_bytes { ex_state with current_effect := 3 }⟩
            ex_state_idle :
          (rgb_underglow_state × List (Effect 4)) × Int).1.1
        = { ex_state with current_effect := 3 } :=
  ⟨by decide,
    (persistence_round_trip { ex_state with current_effect := 3 } ex_state_idle
      (by decide)).2.2.2⟩

/-! ## Facts about the indicator loops -/

/-- A loop that writes one colour at the positions picked by `P` leaves that
colour exactly where some picked position points. -/
theorem foldl_cond_set {N : Nat} (P : Nat → Prop) [DecidablePred P] (a : Nat → Nat)
    (c : led_rgb) (l : List Nat) (sp : PixelBuf N) (j : Fin N) :
    (l.foldl (fun sp i => if P i then px_set sp (a i) c else sp) sp) j
      = if ∃ i, i ∈ l ∧ P i ∧ a i = j.val then c else sp j := by
  induction l generalizing sp with
  | nil => simp
  | cons x xs ih =>
    rw [List.foldl_cons, ih]
    by_cases hx : P x ∧ a x = j.val
    · have h1 : ∃ i, i ∈ x :: xs ∧ P i ∧ a i = j.val := ⟨x, List.mem_cons_self _ _, hx⟩
      rw [if_pos h1]
      by_cases h2 : ∃ i, i ∈ xs ∧ P i ∧ a i = j.val
      · rw [if_pos h2]
      · rw [if_neg h2, if_pos hx.1]
        simp [px_set, hx.2]
    · have hiff : (∃ i, i ∈ x :: xs ∧ P i ∧ a i = j.val) ↔ (∃ i, i ∈ xs ∧ P i ∧ a i = j.val) := by
        constructor
        · rintro ⟨i, hi, hp⟩
          rcases List.mem_cons.1 hi with rfl | hi
          · exact absurd hp hx
          · exact ⟨i, hi, hp⟩
        · rintro ⟨i, hi, hp⟩
          exact ⟨i, List.mem_cons_of_mem _ hi, hp⟩
      by_cases h2 : ∃ i, i ∈ xs ∧ P i ∧ a i = j.val
      · rw [if_pos h2, if_pos (hiff.2 h2)]
      · rw [if_neg h2, if_neg (fun h => h2 (hiff.1 h))]
        by_cases hp : P x
        · have hne : ¬ a x = j.val := fun h => hx ⟨hp, h⟩
          simp [px_set, hp, Ne.symm hne]
        · simp [hp]

/-! ## Claims on the indicators, the envelope and the auxiliary modules -/

/-- C31: for an indicator of `count ≥ 2` positions and a charge in [0,100],
`zmk_led_battery_level` leaves the tier colour exactly at the pixels of the
positions `i` with `i * 100 / (count - 1) ≤ charge` and every other pixel as
it was; the lit positions form a prefix that contains position 0, contains
the last position only at charge 100 and grows with the charge; the colour is
`nice_blue` above 40, `yellow` for 21..40 and `red` up to 20. -/
theorem battery_indicator_positions {N : Nat} (cfg : Config) (sp : PixelBuf N) (charge : Nat)
    (addresses : List Nat) (hcount : 2 ≤ addresses.length) (hcharge : charge ≤ 100) :
    (∀ j : Fin N,
        zmk_led_battery_level cfg sp charge addresses j
          = if ∃ i, i < addresses.length ∧ i * 100 / (addresses.length - 1) ≤ charge
                ∧ addresses.getD i 0 = j.val
            then (if 40 < charge then nice_blue cfg
                  else if 20 < charge then yellow cfg else red cfg)
            else sp j)
      ∧ (∀ i k, k ≤ i → i * 100 / (addresses.length - 1) ≤ charge →
            k * 100 / (addresses.length - 1) ≤ charge)
      ∧ 0 * 100 / (addresses.length - 1) ≤ charge
      ∧ ((addresses.length - 1) * 100 / (addresses.length - 1) ≤ charge ↔ charge = 100)
      ∧ (∀ i charge2, charge ≤ charge2 → i * 100 / (addresses.length - 1) ≤ charge →
            i * 100 / (addresses.length - 1) ≤ charge2) := by
  refine ⟨?_, ?_, ?_, ?_, ?_⟩
  · intro j
    unfold zmk_led_battery_level
    simp only []
    rw [foldl_cond_set (fun i => charge ≥ i * 100 / (addresses.length - 1))
      (fun i => addresses.getD i 0)]
    simp only [List.mem_range, ge_iff_le, gt_iff_lt]
  · intro i k hki hi
    exact le_trans (Nat.div_le_div_right (Nat.mul_le_mul_right 100 hki)) hi
  · simp
  · have hpos : 0 < addresses.length - 1 := by omega
    rw [Nat.mul_comm, Nat.mul_div_cancel _ hpos]
    omega
  · intro i charge2 h12 hi
    exact le_trans hi h12

/-- Witness for C31: a two-position bar at charge 50 lights position 0 only,
in `nice_blue`. -/
theorem battery_indicator_positions_witness :
    2 ≤ [0, 1].length ∧ 50 ≤ 100
      ∧ zmk_led_battery_level ex_cfg ex_overlay 50 [0, 1] (0 : Fin 4) = nice_blue ex_cfg
      ∧ zmk_led_battery_level ex_cfg ex_overlay 50 [0, 1] (1 : Fin 4) = ex_overlay 1 :=
  ⟨by decide, by decide,
    by
      rw [(battery_indicator_positions ex_cfg ex_overlay 50 [0, 1] (by decide) (by decide)).1 0]
      decide,
    by decide⟩

/-- Writing a pixel leaves the others alone. -/
theorem px_set_other {N : Nat} (buf : PixelBuf N) (idx : Nat) (c : led_rgb) (j : Fin N)
    (h : ¬ j.val = idx) : px_set buf idx c j = buf j := by
  unfold px_set
  rw [if_neg h]

/-- Writing a pixel leaves the colour there. -/
theorem px_set_at {N : Nat} (buf : PixelBuf N) (idx : Nat) (c : led_rgb) (j : Fin N)
    (h : j.val = idx) : px_set buf idx c j = c := by
  unfold px_set
  rw [if_pos h]

/-- The profile loop leaves a pixel alone when no slot it visits points at it. -/
theorem ble_fold_not_mem {N : Nat} (cfg : Config) (im : underglow_indicators) (env : Env)
    (l : List Nat) (sp : PixelBuf N) (j : Fin N)
    (h : ∀ k, k ∈ l → im.ble_state.getD k 0 ≠ j.val) :
    (l.foldl (status_ble_profile cfg im env) sp) j = sp j := by
  induction l generalizing sp with
  | nil => rfl
  | cons x xs ih =>
    rw [List.foldl_cons, ih _ (fun k hk => h k (List.mem_cons_of_mem _ hk))]
    have hx : ¬ j.val = im.ble_state.getD x 0 := fun e => h x (List.mem_cons_self _ _) e.symm
    unfold status_ble_profile
    split_ifs <;> first | rfl | exact px_set_other _ _ _ _ hx

/-- One iteration of the profile loop on a slot of status 0, 1 or 2 leaves
the colour of the rule at the pixel of the slot. -/
theorem ble_profile_at {N : Nat} (cfg : Config) (im : underglow_indicators) (env : Env)
    (sp : PixelBuf N) (i : Nat) (j : Fin N) (hj : im.ble_state.getD i 0 = j.val)
    (hs : env.ble_profile_status i = 2 ∨ env.ble_profile_status i = 1
            ∨ env.ble_profile_status i = 0) :
    status_ble_profile cfg im env sp i j = ble_profile_colour cfg env i := by
  unfold status_ble_profile ble_profile_colour
  have hp : ∀ c : led_rgb, px_set sp (im.ble_state.getD i 0) c j = c :=
    fun c => px_set_at _ _ _ _ hj.symm
  rcases hs with h | h | h
  · by_cases ha : env.selected_transport = zmk_transport.BLE ∧
        env.ble_active_profile_index = (i : Int)
    · rw [if_pos ⟨h, ha⟩, if_pos h, if_pos ha, hp]
    · rw [if_neg (fun hh => ha hh.2), if_pos h, if_pos h, if_neg ha, hp]
  · have h2 : ¬ env.ble_profile_status i = 2 := by rw [h]; decide
    rw [if_neg (fun hh => h2 hh.1), if_neg h2, if_pos h, if_neg h2, if_pos h, hp]
  · have h2 : ¬ env.ble_profile_status i = 2 := by rw [h]; decide
    have h1 : ¬ env.ble_profile_status i = 1 := by rw [h]; decide
    rw [if_neg (fun hh => h2 hh.1), if_neg h2, if_neg h1, if_pos h, if_neg h2, if_neg h1, hp]

/-- The wired-connection stage leaves every pixel but its own alone. -/
theorem status_usb_other {N : Nat} (cfg : Config) (im : underglow_indicators) (env : Env)
    (sp : PixelBuf N) (j : Fin N) (h : im.usb_state ≠ j.val) :
    status_usb cfg im env sp j = sp j := by
  have hx : ¬ j.val = im.usb_state := fun e => h e.symm
  unfold status_usb
  split_ifs <;> first | rfl | exact px_set_other _ _ _ _ hx

/-- The generator is the three stages in a row. -/
theorem generate_status_stages {N : Nat} (cfg : Config) (im : underglow_indicators)
    (env : Env) (state : rgb_underglow_state) :
    (zmk_led_generate_status cfg im env state : StatusResult N).status_pixels
      = status_usb cfg im env (status_ble_profiles cfg im env (status_before_ble cfg im env)) :=
  rfl

/-- The profile loop ends with the colour of the rule at the pixel of a slot
below the bound whose status is 0, 1 or 2, when no later slot shares the
pixel. -/
theorem ble_profiles_at {N : Nat} (cfg : Config) (im : underglow_indicators) (env : Env)
    (sp : PixelBuf N) (i : Nat) (j : Fin N)
    (hi : i < min cfg.ZMK_BLE_PROFILE_COUNT im.ble_state.length)
    (hj : im.ble_state.getD i 0 = j.val)
    (hlater : ∀ k, i < k → k < min cfg.ZMK_BLE_PROFILE_COUNT im.ble_state.length →
        im.ble_state.getD k 0 ≠ j.val)
    (hs : env.ble_profile_status i = 2 ∨ env.ble_profile_status i = 1
            ∨ env.ble_profile_status i = 0) :
    status_ble_profiles cfg im env sp j = ble_profile_colour cfg env i := by
  unfold status_ble_profiles
  have hsplit : min cfg.ZMK_BLE_PROFILE_COUNT im.ble_state.length
      = (i + 1) + (min cfg.ZMK_BLE_PROFILE_COUNT im.ble_state.length - (i + 1)) := by omega
  rw [hsplit, List.range_add, List.foldl_append, List.range_succ, List.foldl_append]
  rw [ble_fold_not_mem]
  · simp only [List.foldl_cons, List.foldl_nil]
    exact ble_profile_at cfg im env _ i j hj hs
  · intro k hk
    rw [List.mem_map] at hk
    obtain ⟨x, hx, rfl⟩ := hk
    rw [List.mem_range] at hx
    exact hlater _ (by omega) (by omega)

/-- C32 (amended): for a slot `i` below `min(ZMK_BLE_PROFILE_COUNT, number
of profile pixels)` whose status is 0, 1 or 2, the iteration of the profile
loop sets the pixel of the slot to `white` if the profile is connected, the
selected transport is BLE and `i` is the active profile, to `nice_blue` if it
is connected otherwise, to `red` if it is paired but not connected and to
`lilac` if the slot is unused; that colour is in the returned overlay when no
later slot and not the wired-connection pixel shares the pixel; and the loop
leaves alone every pixel that is not the pixel of a slot below the bound. -/
theorem ble_profile_colour_rule {N : Nat} (cfg : Config) (im : underglow_indicators)
    (env : Env) (state : rgb_underglow_state) (sp : PixelBuf N) (i : Nat) (p : Fin N)
    (hi : i < min cfg.ZMK_BLE_PROFILE_COUNT im.ble_state.length)
    (hp : im.ble_state.getD i 0 = p.val)
    (hs : env.ble_profile_status i = 2 ∨ env.ble_profile_status i = 1
            ∨ env.ble_profile_status i = 0) :
    status_ble_profile cfg im env sp i p = ble_profile_colour cfg env i
      ∧ ((∀ k, i < k → k < min cfg.ZMK_BLE_PROFILE_COUNT im.ble_state.length →
            im.ble_state.getD k 0 ≠ p.val) →
          im.usb_state ≠ p.val →
          (zmk_led_generate_status cfg im env state : StatusResult N).status_pixels p
            = ble_profile_colour cfg env i)
      ∧ (env.ble_profile_status i = 2 → env.selected_transport = zmk_transport.BLE →
          env.ble_active_profile_index = (i : Int) →
          ble_profile_colour cfg env i = white cfg)
      ∧ (env.ble_profile_status i = 2 →
          ¬ (env.selected_transport = zmk_transport.BLE
              ∧ env.ble_active_profile_index = (i : Int)) →
          ble_profile_colour cfg env i = nice_blue cfg)
      ∧ (env.ble_profile_status i = 1 → ble_profile_colour cfg env i = red cfg)
      ∧ (env.ble_profile_status i = 0 → ble_profile_colour cfg env i = lilac cfg)
      ∧ (∀ (sp2 : PixelBuf N) (j : Fin N),
          (∀ k, k < min cfg.ZMK_BLE_PROFILE_COUNT im.ble_state.length →
            im.ble_state.getD k 0 ≠ j.val) →
          status_ble_profiles cfg im env sp2 j = sp2 j) := by
  refine ⟨ble_profile_at cfg im env sp i p hp hs, ?_, ?_, ?_, ?_, ?_, ?_⟩
  · intro hlater husb
    rw [generate_status_stages, status_usb_other cfg im env _ p husb]
    exact ble_profiles_at cfg im env _ i p hi hp hlater hs
  · intro h2 ht ha
    unfold ble_profile_colour
    rw [if_pos h2, if_pos ⟨ht, ha⟩]
  · intro h2 hn
    unfold ble_profile_colour
    rw [if_pos h2, if_neg hn]
  · intro h1
    have h2 : ¬ env.ble_profile_status i = 2 := by rw [h1]; decide
    unfold ble_profile_colour
    rw [if_neg h2, if_pos h1]
  · intro h0
    have h2 : ¬ env.ble_profile_status i = 2 := by rw [h0]; decide
    have h1 : ¬ env.ble_profile_status i = 1 := by rw [h0]; decide
    unfold ble_profile_colour
    rw [if_neg h2, if_neg h1]
  · intro sp2 j hj
    unfold status_ble_profiles
    exact ble_fold_not_mem cfg im env _ sp2 j
      (fun k hk => hj k (List.mem_range.1 hk))

/-- Witness for C32: on the example strip profile 0 is unused and its pixel
(pixel 1) is `lilac` in the overlay. -/
theorem ble_profile_colour_rule_witness :
    0 < min ex_cfg.ZMK_BLE_PROFILE_COUNT ex_indicators.ble_state.length
      ∧ ex_env.ble_profile_status 0 = 0
      ∧ (zmk_led_generate_status ex_cfg ex_indicators ex_env ex_state
            : StatusResult 4).status_pixels 1 = lilac ex_cfg :=
  ⟨by decide, by decide,
    by
      have h := ble_profile_colour_rule ex_cfg ex_indicators ex_env ex_state
        (ex_overlay : PixelBuf 4) 0 1 (by decide) (by decide) (by decide)
      rw [h.2.1 (fun k h0 h1 => absurd h1 (by
            have : min ex_cfg.ZMK_BLE_PROFILE_COUNT ex_indicators.ble_state.length = 1 := by
              decide
            omega)) (by decide)]
      exact h.2.2.2.2.2.1 (by decide)⟩

/-- Counterexample for C32 as stated: profile 0 is connected and is the
active profile, but the wired transport is the selected one, and its pixel is
`nice_blue`, not `white`. -/
theorem ble_profile_colour_counterexample :
    ex_env_profiles_connected.ble_profile_status 0 = 2
      ∧ ex_env_profiles_connected.ble_active_profile_index = 0
      ∧ (0 : Nat) < min ex_cfg.ZMK_BLE_PROFILE_COUNT ex_indicators.ble_state.length
      ∧ ex_indicators.ble_state.getD 0 0 = 1
      ∧ (zmk_led_generate_status ex_cfg ex_indicators ex_env_profiles_connected ex_state
            : StatusResult 4).status_pixels 1 = nice_blue ex_cfg
      ∧ nice_blue ex_cfg ≠ white ex_cfg := by
  decide

/-- C33 (amended): for every status step from 400 up to 10640 the weight
returned by `zmk_led_generate_status` is 0.  (From step 10641 on the value
assigned to the 16-bit `blend` wraps around.) -/
theorem envelope_after_window {N : Nat} (cfg : Config) (im : underglow_indicators)
    (env : Env) (state : rgb_underglow_state)
    (hlo : 400 ≤ state.status_animation_step) (hhi : state.status_animation_step ≤ 10640) :
    (zmk_led_generate_status cfg im env state : StatusResult N).blend = 0
      ∧ status_blend state.status_animation_step = 0 := by
  have h : status_blend state.status_animation_step = 0 := by
    have hq1 : 256 ≤ (state.status_animation_step - 8000 / 25) * 256 / (2000 / 25) := by
      omega
    have hq2 : (state.status_animation_step - 8000 / 25) * 256 / (2000 / 25) ≤ 33024 := by
      omega
    unfold status_blend to_int16
    simp only
    generalize (state.status_animation_step - 8000 / 25) * 256 / (2000 / 25) = q at hq1 hq2 ⊢
    split_ifs <;> omega
  exact ⟨h, h⟩

/-- Witness for C33: step 401, the last value the status driver leaves. -/
theorem envelope_after_window_witness :
    (400 : Nat) ≤ ({ ex_state with status_animation_step := 401 }
        : rgb_underglow_state).status_animation_step
      ∧ (zmk_led_generate_status ex_cfg ex_indicators ex_env
            { ex_state with status_animation_step := 401 } : StatusResult 4).blend = 0 :=
  ⟨by decide,
    (envelope_after_window ex_cfg ex_indicators ex_env
      { ex_state with status_animation_step := 401 } (by decide) (by decide)).1⟩

/-- Counterexample for C33 as stated: at the 16-bit step 10641 the value
`256 - 33027` wraps to 32765 in the 16-bit `blend`, and the returned weight
is 256. -/
theorem envelope_counterexample :
    (400 : Nat) ≤ 10641 ∧ 10641 < 2 ^ 16
      ∧ status_blend 10641 = 256
      ∧ (zmk_led_generate_status ex_cfg ex_indicators ex_env
            { ex_state with status_animation_step := 10641 } : StatusResult 4).blend = 256 := by
  refine ⟨by decide, by decide, by decide, by decide⟩

/-- A tick of the status driver on an inactive overlay leaves the status
fields alone. -/
theorem status_driver_step_inactive {N : Nat} (cfg : Config) (t : Env × Env × Bool)
    (e : Engine N) (ha : e.state.status_active = false) :
    (status_driver_run cfg [t] e).state.status_animation_step = e.state.status_animation_step
      ∧ (status_driver_run cfg [t] e).state.status_active = false := by
  obtain ⟨env, env2, work⟩ := t
  have h : zmk_rgb_underglow_status_update env e = (e, []) := by
    unfold zmk_rgb_underglow_status_update
    rw [if_pos ha]
  unfold status_driver_run status_driver_run
  simp only [h]
  cases work
  · exact ⟨rfl, ha⟩
  · simp only [if_true]
    rw [(write_pixels_work_status_fields cfg env env2 _).1,
      (write_pixels_work_status_fields cfg env env2 _).2]
    exact ⟨rfl, ha⟩

/-- One event keeps the invariant of the status fields. -/
theorem status_event_invariant {N : Nat} (cfg : Config) (ev : StatusEvent) (e : Engine N)
    (h1 : e.state.status_active = true → e.state.status_animation_step ≤ 400)
    (h2 : e.state.status_animation_step ≤ 401) :
    ((status_events_run cfg [ev] e).state.status_active = true →
        (status_events_run cfg [ev] e).state.status_animation_step ≤ 400)
      ∧ (status_events_run cfg [ev] e).state.status_animation_step ≤ 401 := by
  cases ev with
  | pulse env =>
    unfold status_events_run status_events_run
    obtain ⟨_, hs⟩ := status_pulse_fields cfg env e
    rw [hs]
    by_cases ha : e.state.status_active = false
    · rw [if_pos ha]
      exact ⟨fun _ => by omega, by omega⟩
    · rw [if_neg ha]
      split_ifs
      · exact ⟨fun _ => by omega, by omega⟩
      · exact ⟨fun _ => by omega, by omega⟩
  | tick env env2 work =>
    unfold status_events_run status_events_run
    by_cases ha : e.state.status_active = true
    · obtain ⟨hs, hact⟩ := status_driver_step cfg (env, env2, work) e ha (h1 ha)
      rw [hs, hact]
      have h400 := h1 ha
      refine ⟨fun h => ?_, by omega⟩
      have := of_decide_eq_true h
      omega
    · have hf : e.state.status_active = false := by
        cases hb : e.state.status_active
        · rfl
        · exact absurd hb ha
      obtain ⟨hs, hact⟩ := status_driver_step_inactive cfg (env, env2, work) e hf
      rw [hs, hact]
      exact ⟨fun h => Bool.noConfusion h, h2⟩

/-- A run of events is its first event followed by the rest. -/
theorem status_events_run_cons {N : Nat} (cfg : Config) (ev : StatusEvent)
    (rest : List StatusEvent) (e : Engine N) :
    status_events_run cfg (ev :: rest) e
      = status_events_run cfg rest (status_events_run cfg [ev] e) := by
  cases ev <;> rfl

/-- Every run of events keeps the invariant of the status fields. -/
theorem status_events_invariant {N : Nat} (cfg : Config) (events : List StatusEvent)
    (e : Engine N)
    (h1 : e.state.status_active = true → e.state.status_animation_step ≤ 400)
    (h2 : e.state.status_animation_step ≤ 401) :
    ((status_events_run cfg events e).state.status_active = true →
        (status_events_run cfg events e).state.status_animation_step ≤ 400)
      ∧ (status_events_run cfg events e).state.status_animation_step ≤ 401 := by
  induction events generalizing e with
  | nil => exact ⟨h1, h2⟩
  | cons ev rest ih =>
    rw [status_events_run_cons]
    obtain ⟨k1, k2⟩ := status_event_invariant cfg ev e h1 h2
    exact ih _ k1 k2

/-- C34: in every state reached from an engine with status step 0 (as in the
initial state, where the overlay is inactive) by a sequence of status pulses
and status-driver ticks (each tick with or without its compositor pass), an
active overlay has status step at most 400, and the status step is at most
401. -/
theorem status_reachable_invariant {N : Nat} (cfg : Config) (events : List StatusEvent)
    (e : Engine N) (hstep : e.state.status_animation_step = 0) :
    ((status_events_run cfg events e).state.status_active = true →
        (status_events_run cfg events e).state.status_animation_step ≤ 400)
      ∧ (status_events_run cfg events e).state.status_animation_step ≤ 401 :=
  status_events_invariant cfg events e (fun _ => by omega) (by omega)

/-- Witness for C34: a pulse, two ticks and another pulse on the example
strip. -/
theorem status_reachable_invariant_witness :
    ({ ex_state_idle with status_animation_step := 0 } : rgb_underglow_state).status_active
        = false
      ∧ ({ ex_state_idle with status_animation_step := 0 }
          : rgb_underglow_state).status_animation_step = 0
      ∧ (status_events_run ex_cfg
            [StatusEvent.pulse ex_env, StatusEvent.tick ex_env ex_env true,
              StatusEvent.tick ex_env_low ex_env false, StatusEvent.pulse ex_env]
            { state := { ex_state_idle with status_animation_step := 0 }
              pixels := ex_base, status_pixels := ex_overlay }).state.status_animation_step
          ≤ 401 :=
  ⟨by decide, by decide,
    (status_reachable_invariant ex_cfg
      [StatusEvent.pulse ex_env, StatusEvent.tick ex_env ex_env true,
        StatusEvent.tick ex_env_low ex_env false, StatusEvent.pulse ex_env]
      { state := { ex_state_idle with status_animation_step := 0 }
        pixels := ex_base, status_pixels := ex_overlay } (by decide)).2⟩

/-- The blend of two channels lies between them, up to one unit of
truncation below. -/
theorem spec_blend_channel_between (o b w : Nat) (hw : w ≤ 256) :
    spec_blend_channel o b w ≤ max b o ∧ min b o - 1 ≤ spec_blend_channel o b w := by
  unfold spec_blend_channel
  simp only [Nat.shiftRight_eq_div_pow]
  have h1 : o * w ≤ max b o * w := Nat.mul_le_mul_right w (le_max_right b o)
  have h2 : b * (256 - w) ≤ max b o * (256 - w) :=
    Nat.mul_le_mul_right (256 - w) (le_max_left b o)
  have h3 : max b o * w + max b o * (256 - w) = max b o * 256 := by
    rw [← Nat.mul_add]
    congr 1
    omega
  have h4 : min b o * w ≤ o * w := Nat.mul_le_mul_right w (min_le_right b o)
  have h5 : min b o * (256 - w) ≤ b * (256 - w) :=
    Nat.mul_le_mul_right (256 - w) (min_le_left b o)
  have h6 : min b o * w + min b o * (256 - w) = min b o * 256 := by
    rw [← Nat.mul_add]
    congr 1
    omega
  generalize max b o = M at *
  generalize min b o = m at *
  generalize o * w = x at *
  generalize b * (256 - w) = y at *
  generalize M * w = p at *
  generalize M * (256 - w) = q at *
  generalize m * w = r at *
  generalize m * (256 - w) = s at *
  constructor <;> omega

/-- C35: for 8-bit channel values `base` and `overlay` and a weight `w` with
`0 < w < 256`, the blended value `((overlay*w) >> 8) + ((base*(256-w)) >> 8)`
is at most `max(base, overlay)`, hence at most 255 and unchanged by the 8-bit
store, and at least `min(base, overlay) - 1`; it is the channel value of the
frame that the compositor writes at charge 20 or more. -/
theorem blend_within_inputs {N : Nat} (env : Env) (state : rgb_underglow_state)
    (base overlay : PixelBuf N) (w : Nat) (hw0 : 0 < w) (hw : w < 256)
    (hb : buf_8bit base) (ho : buf_8bit overlay) (hbat : 20 ≤ env.battery) :
    (∀ o b : Nat, o < 256 → b < 256 →
        spec_blend_channel o b w = ((o * w) >>> 8) + ((b * (256 - w)) >>> 8)
          ∧ spec_blend_channel o b w ≤ max b o
          ∧ spec_blend_channel o b w ≤ 255
          ∧ spec_blend_channel o b w % 256 = spec_blend_channel o b w
          ∧ min b o - 1 ≤ spec_blend_channel o b w)
      ∧ ∃ f : PixelBuf N,
          frames (zmk_led_write_pixels_compose env state base overlay (w : Int)).2 = [f]
            ∧ ∀ i, (f i).r = spec_blend_channel (overlay i).r (base i).r w
                ∧ (f i).g = spec_blend_channel (overlay i).g (base i).g w
                ∧ (f i).b = spec_blend_channel (overlay i).b (base i).b w := by
  constructor
  · intro o b ho2 hb2
    obtain ⟨h1, h2⟩ := spec_blend_channel_between o b w (by omega)
    have h3 : max b o ≤ 255 := by
      rcases le_total b o with h | h
      · rw [max_eq_right h]; omega
      · rw [max_eq_left h]; omega
    refine ⟨rfl, h1, by omega, Nat.mod_eq_of_lt (by omega), h2⟩
  · refine ⟨spec_compose base overlay w, ?_, ?_⟩
    · rw [compose_frames env state base overlay w (by omega) hb ho]
      have : ¬ env.battery < 20 := by omega
      rw [if_neg this]
    · intro i
      unfold spec_compose
      have h0 : ¬ w = 0 := by omega
      have h256 : ¬ 256 ≤ w := by omega
      rw [if_neg h0, if_neg h256]
      exact ⟨rfl, rfl, rfl⟩

/-- Witness for C35: weight 128 on the example buffers at charge 50. -/
theorem blend_within_inputs_witness :
    (0 : Nat) < 128 ∧ (128 : Nat) < 256 ∧ buf_8bit ex_base ∧ buf_8bit ex_overlay
      ∧ 20 ≤ ex_env.battery
      ∧ spec_blend_channel 200 100 128 ≤ max 100 200
      ∧ min 100 200 - 1 ≤ spec_blend_channel 200 100 128 :=
  ⟨by decide, by decide, by decide, by decide, by decide,
    ((blend_within_inputs ex_env ex_state ex_base ex_overlay 128 (by decide) (by decide)
        (by decide) (by decide) (by decide)).1 200 100 (by decide) (by decide)).2.1,
    by decide⟩

/-- C36: with a transport attached, after `rgb_underglow_auto_state` the
`on` flag equals `new_state`, for every prior `on`, every remembered
`prev_state` and every `new_state`; when `on` already equals `new_state` the
call changes neither the state nor `prev_state`, makes no call and returns
0. -/
theorem auto_state_tracks_new_state {N : Nat} (cfg : Config) (env : Env)
    (state : rgb_underglow_state) (prev_state new_state : Bool) :
    (rgb_underglow_auto_state cfg env true state prev_state new_state
        : ((rgb_underglow_state × Bool) × List (Effect N)) × Int).1.1.1.is_on = new_state
      ∧ (state.is_on = new_state →
          (rgb_underglow_auto_state cfg env true state prev_state new_state
            : ((rgb_underglow_state × Bool) × List (Effect N)) × Int)
            = (((state, prev_state), []), 0)) := by
  constructor
  · unfold rgb_underglow_auto_state
    by_cases h : state.is_on = new_state
    · rw [if_pos h]
      exact h
    · rw [if_neg h]
      cases new_state
      · simp [zmk_rgb_underglow_off, set_ext_power_state]
      · simp [zmk_rgb_underglow_on, set_ext_power_state]
  · intro h
    unfold rgb_underglow_auto_state
    rw [if_pos h]

/-- A sequence of pixel writes leaves alone every pixel it does not name. -/
theorem px_write_other {N : Nat} (ws : List (Nat × led_rgb)) (buf : PixelBuf N) (j : Fin N)
    (h : j.val ∉ ws.map Prod.fst) : px_write buf ws j = buf j := by
  unfold px_write
  induction ws generalizing buf with
  | nil => rfl
  | cons w rest ih =>
    rw [List.foldl_cons, ih _ (fun hm => h (by
      rw [List.map_cons]
      exact List.mem_cons_of_mem _ hm))]
    exact px_set_other buf w.1 w.2 j (fun e => h (by
      rw [List.map_cons, e]
      exact List.mem_cons_self _ _))

/-- C37: on a strip of at least 39 pixels `valdur_indicate_custom_layers`
(build with indicators) leaves the base buffer unchanged when none of the
layers 1, 2 and 3 is active; otherwise its result depends only on the first
active layer in the order lower (2), gaming (1), numeric (3), whatever the
lower-priority layers do; the indicator pixel of that layer (37, 38, 36) gets
its colour; every index of the three index sets is below 39; and every pixel
outside the index set of that layer is unchanged. -/
theorem custom_layers_priority {N : Nat} (cfg : Config) (env env2 : Env)
    (pixels : PixelBuf N) (hN : 39 ≤ N) :
    (env.layer_active 1 = false → env.layer_active 2 = false → env.layer_active 3 = false →
        valdur_indicate_custom_layers_on cfg env pixels = pixels)
      ∧ (env.layer_active 2 = true → env2.layer_active 2 = true →
          valdur_indicate_custom_layers_on cfg env pixels
            = valdur_indicate_custom_layers_on cfg env2 pixels)
      ∧ (env.layer_active 2 = false → env2.layer_active 2 = false →
          env.layer_active 1 = true → env2.layer_active 1 = true →
          valdur_indicate_custom_layers_on cfg env pixels
            = valdur_indicate_custom_layers_on cfg env2 pixels)
      ∧ (env.layer_active 2 = false → env2.layer_active 2 = false →
          env.layer_active 1 = false → env2.layer_active 1 = false →
          env.layer_active 3 = true → env2.layer_active 3 = true →
          valdur_indicate_custom_layers_on cfg env pixels
            = valdur_indicate_custom_layers_on cfg env2 pixels)
      ∧ (env.layer_active 2 = true →
          valdur_indicate_custom_layers_on cfg env pixels ⟨37, by omega⟩ = yellow cfg
            ∧ ∀ j : Fin N, j.val ∉ lower_layer_pixels →
                valdur_indicate_custom_layers_on cfg env pixels j = pixels j)
      ∧ (env.layer_active 2 = false → env.layer_active 1 = true →
          valdur_indicate_custom_layers_on cfg env pixels ⟨38, by omega⟩ = red cfg
            ∧ ∀ j : Fin N, j.val ∉ gaming_layer_pixels →
                valdur_indicate_custom_layers_on cfg env pixels j = pixels j)
      ∧ (env.layer_active 2 = false → env.layer_active 1 = false →
          env.layer_active 3 = true →
          valdur_indicate_custom_layers_on cfg env pixels ⟨36, by omega⟩ = greenish cfg
            ∧ ∀ j : Fin N, j.val ∉ numeric_layer_pixels →
                valdur_indicate_custom_layers_on cfg env pixels j = pixels j)
      ∧ (∀ x, x ∈ lower_layer_pixels ++ gaming_layer_pixels ++ numeric_layer_pixels →
          x < 39) := by
  refine ⟨?_, ?_, ?_, ?_, ?_, ?_, ?_, by decide⟩
  · intro h1 h2 h3
    simp [valdur_indicate_custom_layers_on, h1, h2, h3]
  · intro h h2
    simp [valdur_indicate_custom_layers_on, h, h2]
  · intro h h2 k k2
    simp [valdur_indicate_custom_layers_on, h, h2, k, k2]
  · intro h h2 k k2 l l2
    simp [valdur_indicate_custom_layers_on, h, h2, k, k2, l, l2]
  · intro h
    simp only [valdur_indicate_custom_layers_on, h, if_true]
    refine ⟨by simp [px_write, px_set], fun j hj => px_write_other _ _ j (fun hm => hj ?_)⟩
    simp only [lower_layer_pixels, List.map_cons, List.map_nil, List.mem_cons,
      List.mem_singleton, List.not_mem_nil, or_false] at hm ⊢
    omega
  · intro h k
    simp only [valdur_indicate_custom_layers_on, h, k, if_true, Bool.false_eq_true, if_false]
    refine ⟨by simp [px_write, px_set], fun j hj => px_write_other _ _ j (fun hm => hj ?_)⟩
    simp only [gaming_layer_pixels, List.map_cons, List.map_nil, List.mem_cons,
      List.mem_singleton, List.not_mem_nil, or_false] at hm ⊢
    omega
  · intro h k l
    simp only [valdur_indicate_custom_layers_on, h, k, l, if_true, Bool.false_eq_true,
      if_false]
    refine ⟨by simp [px_write, px_set], fun j hj => px_write_other _ _ j (fun hm => hj ?_)⟩
    simp only [numeric_layer_pixels, List.map_cons, List.map_nil, List.mem_cons,
      List.mem_singleton, List.not_mem_nil, or_false] at hm ⊢
    omega

/-- Witness for C37: on a 40-pixel strip with layers 2 and 3 active, pixel 37
is `yellow` and pixel 36 (written only for the numeric layer) is untouched. -/
theorem custom_layers_priority_witness :
    39 ≤ 40
      ∧ valdur_indicate_custom_layers_on ex_cfg
          { ex_env with layer_active := fun i => decide (i = 2 ∨ i = 3) }
          (px_zero 40) ⟨37, by decide⟩ = yellow ex_cfg
      ∧ valdur_indicate_custom_layers_on ex_cfg
          { ex_env with layer_active := fun i => decide (i = 2 ∨ i = 3) }
          (px_zero 40) ⟨36, by decide⟩ = px_zero 40 ⟨36, by decide⟩ :=
  ⟨by decide,
    ((custom_layers_priority ex_cfg
        { ex_env with layer_active := fun i => decide (i = 2 ∨ i = 3) } ex_env
        (px_zero 40) (by decide)).2.2.2.2.1 (by decide)).1,
    ((custom_layers_priority ex_cfg
        { ex_env with layer_active := fun i => decide (i = 2 ∨ i = 3) } ex_env
        (px_zero 40) (by decide)).2.2.2.2.1 (by decide)).2 ⟨36, by decide⟩ (by decide)⟩

/-! ## Facts about caps word -/

/-- A modifier mask that is covered by the implicit and explicit modifiers
is still covered after more implicit modifiers are added (all in 8 bits). -/
theorem mods_covered_mono (k a c e : Nat) (h : (k &&& ((a ||| e) % 256)) = k) :
    (k &&& ((((a ||| c) % 256) ||| e) % 256)) = k := by
  have h256 : (256 : Nat) = 2 ^ 8 := rfl
  rw [h256] at h ⊢
  apply Nat.eq_of_testBit_eq
  intro i
  have hi := congrArg (fun x => Nat.testBit x i) h
  simp only [Nat.testBit_and, Nat.testBit_mod_two_pow, Nat.testBit_or] at hi ⊢
  cases hk : Nat.testBit k i <;> cases ha : Nat.testBit a i <;>
    cases he : Nat.testBit e i <;> cases hc : Nat.testBit c i <;>
    simp_all

/-- A key list that contains a key for some modifiers still contains it
after more implicit modifiers are added. -/
theorem key_list_contains_mono (list : List zmk_key_param) (page id a c e : Nat)
    (h : key_list_contains list page id ((a ||| e) % 256) = true) :
    key_list_contains list page id ((((a ||| c) % 256) ||| e) % 256) = true := by
  unfold key_list_contains at h ⊢
  rw [List.any_eq_true] at h ⊢
  obtain ⟨key, hmem, hkey⟩ := h
  refine ⟨key, hmem, ?_⟩
  simp only [Bool.and_eq_true, beq_iff_eq] at hkey ⊢
  exact ⟨hkey.1, mods_covered_mono _ _ _ _ hkey.2⟩

/-- A key that is enhanced is still one to enhance after the enhancement. -/
theorem should_enhance_mono (henv : CapsEnv) (config : behavior_caps_word_config)
    (ev : zmk_keycode_state_changed) (h : caps_word_should_enhance henv config ev = true) :
    caps_word_should_enhance henv config
      { ev with implicit_modifiers := (ev.implicit_modifiers ||| config.mods) % 256 }
      = true := by
  unfold caps_word_should_enhance at h ⊢
  by_cases hd :
      (!config.no_default_keys && caps_word_is_alpha henv ev.usage_page ev.keycode) = true
  · rw [if_pos hd]
  · rw [if_neg hd] at h ⊢
    exact key_list_contains_mono _ _ _ _ _ _ h

/-- An enhanced key is a continuation. -/
theorem enhanced_is_continuation (henv : CapsEnv) (config : behavior_caps_word_config)
    (ev : zmk_keycode_state_changed) (h : caps_word_should_enhance henv config ev = true) :
    caps_word_is_continuation henv config ev = true := by
  unfold caps_word_is_continuation
  rw [h, Bool.or_true, if_pos rfl]

/-- The loop body on an active instance and a key to enhance: the instance
stays as it is and the event gets the configured modifiers. -/
theorem listener_dev_enhance (henv : CapsEnv) (i : Nat) (dev : caps_word_dev)
    (ev : zmk_keycode_state_changed) (ha : dev.data.active = true)
    (h : caps_word_should_enhance henv dev.config ev = true) :
    (caps_word_listener_dev henv i dev ev).1 = dev
      ∧ (caps_word_listener_dev henv i dev ev).2.1
          = { ev with implicit_modifiers := (ev.implicit_modifiers ||| dev.config.mods) % 256 } := by
  unfold caps_word_listener_dev
  simp only [ha, h, Bool.not_true, if_true, Bool.false_eq_true, if_false,
    enhanced_is_continuation henv dev.config _ (should_enhance_mono henv dev.config ev h),
    and_self]

/-- The loop body on a key that is not enhanced leaves the event alone. -/
theorem listener_dev_plain (henv : CapsEnv) (i : Nat) (dev : caps_word_dev)
    (ev : zmk_keycode_state_changed)
    (h : dev.data.active = false ∨ caps_word_should_enhance henv dev.config ev = false) :
    (caps_word_listener_dev henv i dev ev).2.1 = ev := by
  unfold caps_word_listener_dev
  rcases h with h | h
  · simp [h]
  · simp only [h, Bool.false_eq_true, if_false]
    split_ifs <;> rfl

/-- The loop body never turns an inactive instance on and never touches
its configuration. -/
theorem listener_dev_inactive (henv : CapsEnv) (i : Nat) (dev : caps_word_dev)
    (ev : zmk_keycode_state_changed) (h : dev.data.active = false) :
    caps_word_listener_dev henv i dev ev = (dev, ev, []) := by
  unfold caps_word_listener_dev
  simp [h]

/-- The listener keeps the pressed-key counter non-negative. -/
theorem listener_count_nonneg (henv : CapsEnv) (st : caps_word_state)
    (eh : Option zmk_keycode_state_changed) (h : 0 ≤ st.pressed_key_count) :
    0 ≤ (caps_word_keycode_state_changed_listener henv st eh).st.pressed_key_count := by
  unfold caps_word_keycode_state_changed_listener
  cases eh with
  | none => exact h
  | some ev =>
    by_cases hs : ev.state = true
    · simp only [hs, Bool.not_true, Bool.false_eq_true, if_false]
      omega
    · have hf : ev.state = false := by
        cases hb : ev.state
        · rfl
        · exact absurd hb hs
      simp only [hf, Bool.not_false, if_true]
      exact le_max_right (st.pressed_key_count - 1) 0

/-- Every run of the listener keeps the pressed-key counter non-negative. -/
theorem listener_run_count_nonneg
    (events : List (CapsEnv × Option zmk_keycode_state_changed)) (st : caps_word_state)
    (h : 0 ≤ st.pressed_key_count) :
    0 ≤ (caps_word_listener_run events st).pressed_key_count := by
  induction events generalizing st with
  | nil => exact h
  | cons x rest ih =>
    obtain ⟨henv, eh⟩ := x
    unfold caps_word_listener_run
    exact ih _ (listener_count_nonneg henv st eh h)

/-! ## Claims on caps word and the peripheral layers -/

/-- C38: for a single active caps-word instance, every configuration and
every key press, if `caps_word_should_enhance` holds (the listener adds the
configured modifiers to the event) then the instance is still active when the
listener returns; this is so for every letter A..Z when default keys are
enabled and for every key that the shift list contains. -/
theorem caps_word_keeps_going (henv : CapsEnv) (config : behavior_caps_word_config)
    (count : Int) (ev : zmk_keycode_state_changed) (hpress : ev.state = true)
    (henh : caps_word_should_enhance henv config ev = true) :
    (caps_word_keycode_state_changed_listener henv
        { devs := [{ config := config, data := { active := true } }]
          pressed_key_count := count } (some ev)).st.devs
        = [{ config := config, data := { active := true } }]
      ∧ (caps_word_keycode_state_changed_listener henv
          { devs := [{ config := config, data := { active := true } }]
            pressed_key_count := count } (some ev)).ev
        = some { ev with
            implicit_modifiers := (ev.implicit_modifiers ||| config.mods) % 256 }
      ∧ (∀ ev2 : zmk_keycode_state_changed, config.no_default_keys = false →
          caps_word_is_alpha henv ev2.usage_page ev2.keycode = true →
          caps_word_should_enhance henv config ev2 = true)
      ∧ (∀ ev2 : zmk_keycode_state_changed,
          key_list_contains config.shifted ev2.usage_page ev2.keycode
              ((ev2.implicit_modifiers ||| henv.zmk_hid_get_explicit_mods) % 256) = true →
          caps_word_should_enhance henv config ev2 = true) := by
  obtain ⟨h1, h2⟩ := listener_dev_enhance henv 0
    { config := config, data := { active := true } } ev rfl henh
  refine ⟨?_, ?_, ?_, ?_⟩
  · unfold caps_word_keycode_state_changed_listener
    simp only [hpress, Bool.not_true, Bool.false_eq_true, if_false, caps_word_listener_devs, h1]
  · unfold caps_word_keycode_state_changed_listener
    simp only [hpress, Bool.not_true, Bool.false_eq_true, if_false, caps_word_listener_devs, h2]
  · intro ev2 hd ha
    unfold caps_word_should_enhance
    rw [hd, ha]
    rfl
  · intro ev2 hk
    unfold caps_word_should_enhance
    split_ifs
    · rfl
    · exact hk

/-- Witness for C38: the letter A on the example instance; the word goes on
and the key gets left shift. -/
theorem caps_word_keeps_going_witness :
    ex_key_a.state = true
      ∧ caps_word_should_enhance ex_caps_env ex_caps_config ex_key_a = true
      ∧ (caps_word_keycode_state_changed_listener ex_caps_env
          { devs := [{ config := ex_caps_config, data := { active := true } }]
            pressed_key_count := 0 } (some ex_key_a)).st.devs
        = [{ config := ex_caps_config, data := { active := true } }] :=
  ⟨by decide, by decide,
    (caps_word_keeps_going ex_caps_env ex_caps_config 0 ex_key_a (by decide) (by decide)).1⟩

/-- C39: for a single caps-word instance, every configuration and every
event, if the instance is inactive, or the event is a key release, or the
listener deactivates the instance on this key press, then the listener leaves
the event as it was, implicit modifiers and all other fields; a key release
leaves the instance (its active flag) as it was; and the pressed-key counter
is never negative: the listener keeps it non-negative, a release leaves it
non-negative whatever it was, and so does every run of the listener from a
non-negative counter. -/
theorem caps_word_leaves_event (henv : CapsEnv) (config : behavior_caps_word_config)
    (active : Bool) (count : Int) (ev : zmk_keycode_state_changed) :
    ((active = false ∨ ev.state = false
        ∨ (active = true ∧
            (caps_word_keycode_state_changed_listener henv
              { devs := [{ config := config, data := { active := active } }]
                pressed_key_count := count } (some ev)).st.devs
              = [{ config := config, data := { active := false } }])) →
        (caps_word_keycode_state_changed_listener henv
          { devs := [{ config := config, data := { active := active } }]
            pressed_key_count := count } (some ev)).ev = some ev)
      ∧ (ev.state = false →
          (caps_word_keycode_state_changed_listener henv
            { devs := [{ config := config, data := { active := active } }]
              pressed_key_count := count } (some ev)).st.devs
            = [{ config := config, data := { active := active } }])
      ∧ (ev.state = false →
          0 ≤ (caps_word_keycode_state_changed_listener henv
            { devs := [{ config := config, data := { active := active } }]
              pressed_key_count := count } (some ev)).st.pressed_key_count)
      ∧ (0 ≤ count →
          0 ≤ (caps_word_keycode_state_changed_listener henv
            { devs := [{ config := config, data := { active := active } }]
              pressed_key_count := count } (some ev)).st.pressed_key_count)
      ∧ (∀ events : List (CapsEnv × Option zmk_keycode_state_changed), 0 ≤ count →
          0 ≤ (caps_word_listener_run events
            { devs := [{ config := config, data := { active := active } }]
              pressed_key_count := count }).pressed_key_count) := by
  have hrel : ev.state = false →
      caps_word_keycode_state_changed_listener henv
          { devs := [{ config := config, data := { active := active } }]
            pressed_key_count := count } (some ev)
        = { st := { devs := [{ config := config, data := { active := active } }]
                    pressed_key_count := max (count - 1) 0 }
            ev := some ev
            effects :=
              if max (count - 1) 0 = 0 then
                restart_caps_word_idle_timer_all_devs 0
                  [{ config := config, data := { active := active } }]
              else []
            ret := ZMK_EV_EVENT_BUBBLE } := by
    intro hs
    unfold caps_word_keycode_state_changed_listener
    simp only [hs, Bool.not_false, if_true]
  have hpress : ev.state = true →
      caps_word_keycode_state_changed_listener henv
          { devs := [{ config := config, data := { active := active } }]
            pressed_key_count := count } (some ev)
        = { st := { devs := [(caps_word_listener_dev henv 0
                      { config := config, data := { active := active } } ev).1]
                    pressed_key_count := count + 1 }
            ev := some (caps_word_listener_dev henv 0
                      { config := config, data := { active := active } } ev).2.1
            effects := (caps_word_listener_dev henv 0
                      { config := config, data := { active := active } } ev).2.2 ++ []
            ret := ZMK_EV_EVENT_BUBBLE } := by
    intro hs
    unfold caps_word_keycode_state_changed_listener
    simp only [hs, Bool.not_true, Bool.false_eq_true, if_false, caps_word_listener_devs]
  refine ⟨?_, ?_, ?_, ?_, ?_⟩
  · intro h
    by_cases hs : ev.state = true
    · rw [hpress hs] at h ⊢
      simp only [Option.some.injEq]
      simp only [List.cons.injEq, and_true] at h
      rcases h with h | h | ⟨ha, hd⟩
      · exact listener_dev_plain henv 0 _ ev (Or.inl h)
      · rw [hs] at h
        exact Bool.noConfusion h
      · by_cases he : caps_word_should_enhance henv config ev = true
        · have hk := (listener_dev_enhance henv 0
            { config := config, data := { active := active } } ev ha he).1
          rw [hk, ha] at hd
          have hact := congrArg (fun d => d.data.active) hd
          exact Bool.noConfusion hact
        · have hf : caps_word_should_enhance henv config ev = false := by
            cases hb : caps_word_should_enhance henv config ev
            · rfl
            · exact absurd hb he
          exact listener_dev_plain henv 0 _ ev (Or.inr hf)
    · have hf : ev.state = false := by
        cases hb : ev.state
        · rfl
        · exact absurd hb hs
      rw [hrel hf]
  · intro hs
    rw [hrel hs]
  · intro hs
    rw [hrel hs]
    exact le_max_right (count - 1) 0
  · intro hc
    exact listener_count_nonneg henv _ _ hc
  · intro events hc
    exact listener_run_count_nonneg events _ hc

/-- Witness for C39: the space bar ends the word on the example instance and
is handed on as it came. -/
theorem caps_word_leaves_event_witness :
    (caps_word_keycode_state_changed_listener ex_caps_env
        { devs := [{ config := ex_caps_config, data := { active := true } }]
          pressed_key_count := 0 } (some ex_key_space)).st.devs
        = [{ config := ex_caps_config, data := { active := false } }]
      ∧ (caps_word_keycode_state_changed_listener ex_caps_env
          { devs := [{ config := ex_caps_config, data := { active := true } }]
            pressed_key_count := 0 } (some ex_key_space)).ev = some ex_key_space :=
  ⟨by decide,
    (caps_word_leaves_event ex_caps_env ex_caps_config true 0 ex_key_space).1
      (Or.inr (Or.inr ⟨rfl, by decide⟩))⟩

/-- Masking with a single bit gives that bit back exactly when it is set. -/
theorem and_two_pow_eq_iff (x l : Nat) : (x &&& 2 ^ l) = 2 ^ l ↔ x.testBit l = true := by
  constructor
  · intro h
    have hl := congrArg (fun v => Nat.testBit v l) h
    simpa [Nat.testBit_and, Nat.testBit_two_pow_self] using hl
  · intro h
    apply Nat.eq_of_testBit_eq
    intro i
    rw [Nat.testBit_and, Nat.testBit_two_pow]
    by_cases hi : l = i
    · subst hi
      simp [h]
    · simp [hi]

/-- C40: after any earlier calls, once `set_peripheral_layers_state(x)` has
run with a 32-bit `x`, `peripheral_layer_active(l)` is true exactly when bit
`l` of `x` is set, for every layer index `l` in [0,31]; the earlier calls do
not matter. -/
theorem peripheral_layer_bitmask (calls : List Nat) (x l : Nat) (hx : x < 2 ^ 32)
    (hl : l ≤ 31) :
    peripheral_layer_active (peripheral_layers_after (calls ++ [x])) l = x.testBit l
      ∧ peripheral_layers_after (calls ++ [x]) = x := by
  have hstate : peripheral_layers_after (calls ++ [x]) = x := by
    unfold peripheral_layers_after set_peripheral_layers_state
    rw [List.foldl_append]
    simp only [List.foldl_cons, List.foldl_nil]
    exact Nat.mod_eq_of_lt hx
  refine ⟨?_, hstate⟩
  rw [hstate]
  unfold peripheral_layer_active BIT
  have hl256 : l % 256 = l := Nat.mod_eq_of_lt (by omega)
  have hpow : (2 : Nat) ^ l < 2 ^ 32 := Nat.pow_lt_pow_right (by decide) (by omega)
  rw [hl256, Nat.one_shiftLeft, Nat.mod_eq_of_lt hpow]
  rw [Bool.eq_iff_iff, beq_iff_eq]
  exact and_two_pow_eq_iff x l

/-- Witness for C40: layers 0 and 2 set after an earlier call; layer 2 is
active and layer 1 is not. -/
theorem peripheral_layer_bitmask_witness :
    (5 : Nat) < 2 ^ 32
      ∧ peripheral_layer_active (peripheral_layers_after ([7] ++ [5])) 2 = true
      ∧ peripheral_layer_active (peripheral_layers_after ([7] ++ [5])) 1 = false :=
  ⟨by decide,
    by
      rw [(peripheral_layer_bitmask [7] 5 2 (by decide) (by decide)).1]
      decide,
    by decide⟩

end RgbUnderglow
